import Mathlib

/-!
# Emulated controller (`src/core/hid/emulated_controller.cpp`)

A shallow embedding of the state machine of `Core::HID::EmulatedController`:
the canonical controller state, the configuration shadow, the subscriber
registry and the operations that arbitrate raw device callbacks.

Every operation is a pure function from the controller state to the new state
together with the list of subscriber invocations it performed, in order.
-/

namespace Core.HID

/-! ## Data model -/

/-- The identity `Common::UUID` of a physical source. The source file only
compares identities for equality. -/
abbrev UUID := Nat

/-- Modelled from the spec: the enumeration `ControllerTriggerType` is declared in
`emulated_controller.h`, which is not among the sources. The constructors are the
kinds that `emulated_controller.cpp` passes to `TriggerOnChange`. -/
inductive ControllerTriggerType where
  | Button
  | Stick
  | Trigger
  | Motion
  | Battery
  | Connected
  | Disconnected
  | Type_
  deriving DecidableEq, Repr

/-- Modelled from the spec: the enumeration `NpadIdType` (the logical player slot)
is declared in `hid_types.h`, which is not among the sources. The first ten
constructors are the slots named in `emulated_controller.cpp`; `Unlisted raw`
stands for any other enumerator, which a `switch` sends to its `default` branch. -/
inductive NpadIdType where
  | Player1
  | Player2
  | Player3
  | Player4
  | Player5
  | Player6
  | Player7
  | Player8
  | Other
  | Handheld
  | Unlisted (raw : Nat)
  deriving DecidableEq, Repr

/-- Modelled from the spec: the enumeration `NpadStyleIndex` (the controller
variant) is declared in `hid_types.h`, which is not among the sources. The first
eleven constructors are the variants named in `emulated_controller.cpp`;
`Unlisted raw` stands for any other enumerator, which every `switch` of the file
sends to its `default` branch. -/
inductive NpadStyleIndex where
  | ProController
  | Handheld
  | JoyconDual
  | JoyconLeft
  | JoyconRight
  | GameCube
  | Pokeball
  | NES
  | SNES
  | N64
  | SegaGenesis
  | Unlisted (raw : Nat)
  deriving DecidableEq, Repr

/-- Modelled from the spec: the capability bitset `NpadStyleTag` is declared in
`hid_types.h`, which is not among the sources. One flag per bit that
`IsControllerSupported` reads. -/
structure NpadStyleTag where
  fullkey : Bool := false
  handheld : Bool := false
  joycon_dual : Bool := false
  joycon_left : Bool := false
  joycon_right : Bool := false
  gamecube : Bool := false
  palma : Bool := false
  lark : Bool := false
  lucia : Bool := false
  lagoon : Bool := false
  lager : Bool := false
  deriving DecidableEq, Repr

/-- The button record `Common::Input::ButtonStatus`: the fields that `SetButton`
reads and writes. `uuid` is the recorded owner. -/
structure ButtonStatus where
  uuid : UUID := 0
  value : Bool := false
  toggle : Bool := false
  locked : Bool := false
  deriving DecidableEq, Repr

/-- Modelled from the spec: the bitfield `NpadButtonState` is declared in
`hid_types.h`, which is not among the sources. Only the logical fields that
`emulated_controller.cpp` assigns are kept, one `Bool` per bit; the assignment
`raw = NpadButton::None` clears every one of them. -/
structure NpadButtonState where
  a : Bool := false
  b : Bool := false
  x : Bool := false
  y : Bool := false
  stick_l : Bool := false
  stick_r : Bool := false
  l : Bool := false
  r : Bool := false
  zl : Bool := false
  zr : Bool := false
  plus : Bool := false
  minus : Bool := false
  left : Bool := false
  up : Bool := false
  right : Bool := false
  down : Bool := false
  stick_l_left : Bool := false
  stick_l_up : Bool := false
  stick_l_right : Bool := false
  stick_l_down : Bool := false
  stick_r_left : Bool := false
  stick_r_up : Bool := false
  stick_r_right : Bool := false
  stick_r_down : Bool := false
  left_sl : Bool := false
  left_sr : Bool := false
  right_sl : Bool := false
  right_sr : Bool := false
  deriving DecidableEq, Repr

/-- Modelled from the spec: the bitfield `DebugPadButton` is declared in
`hid_types.h`, which is not among the sources. Only the logical fields that
`emulated_controller.cpp` assigns are kept; `raw = 0` clears every one of them. -/
structure DebugPadButton where
  a : Bool := false
  b : Bool := false
  x : Bool := false
  y : Bool := false
  l : Bool := false
  r : Bool := false
  zl : Bool := false
  zr : Bool := false
  plus : Bool := false
  minus : Bool := false
  d_left : Bool := false
  d_up : Bool := false
  d_right : Bool := false
  d_down : Bool := false
  deriving DecidableEq, Repr

/-- Modelled from the spec: the enumeration `Settings::NativeButton` is declared
in `settings_input.h`, which is not among the sources. The constructors are the
enumerators named in the `switch` of `SetButton`. -/
inductive NativeButton where
  | A
  | B
  | X
  | Y
  | LStick
  | RStick
  | L
  | R
  | ZL
  | ZR
  | Plus
  | Minus
  | DLeft
  | DUp
  | DRight
  | DDown
  | SL
  | SR
  | Home
  | Screenshot
  deriving DecidableEq, Repr

/-- Modelled from the spec: the numeric values of the `Settings::NativeButton`
enumerators are not among the sources. They are taken as a parameter, in the form
the `switch` uses them: the enumerator whose value is a given index, if any. -/
abbrev NativeButton.Values := Nat → Option NativeButton

/-- A subscriber record `ControllerUpdateCallback`: `on_change` tells whether the
`std::function` holds a callable, `is_npad_service` marks a service-internal
subscriber. -/
structure ControllerUpdateCallback where
  on_change : Bool := true
  is_npad_service : Bool := false
  deriving DecidableEq, Repr

/-- One call `poller.on_change(type)` made by `TriggerOnChange`: the registry key
and record of the subscriber, the kind passed, and whether the controller mutex
was held by the calling operation at that point. -/
structure Invocation where
  key : Int
  poller : ControllerUpdateCallback
  type : ControllerTriggerType
  lock_held : Bool
  deriving DecidableEq, Repr

/-! ## Single-precision arithmetic used by the stick conversion -/

/-- The value of a C++ `float` (IEEE-754 binary32): `finite m e` is the number
`m * 2^e`, `inf` an infinity with its sign and `nan` a NaN. The sign of a zero
is not kept; no operation modelled here depends on it. -/
inductive F32 where
  | finite (m : Int) (e : Int)
  | inf (negative : Bool)
  | nan
  deriving DecidableEq, Repr

/-- Helper of `bitLength`: halve until zero, at most `fuel` times. -/
def bitLengthAux : Nat → Nat → Nat
  | 0, _ => 0
  | fuel + 1, n => if n = 0 then 0 else bitLengthAux fuel (n / 2) + 1

/-- Number of binary digits of `n` (`0` for `0`). -/
def bitLength (n : Nat) : Nat := bitLengthAux n n

/-- Rounding of the exact number `m * 2^e` to binary32, round-to-nearest with
ties to even: 24 significant bits, least exponent `-149`, overflow to infinity
from `2^128` on. When the number needs no more than 24 bits above `2^-149` it is
kept as it is; otherwise the low `sh` bits are rounded away. -/
def F32.round (m : Int) (e : Int) : F32 :=
  let a := m.natAbs
  let e1 : Int := max (e + (bitLength a : Int) - 24) (-149)
  if e1 ≤ e then
    if a ≠ 0 ∧ e + (bitLength a : Int) > 128 then F32.inf (decide (m < 0)) else F32.finite m e
  else
    let sh := (e1 - e).toNat
    let q := a / 2 ^ sh
    let r := a % 2 ^ sh
    let half := 2 ^ (sh - 1)
    let q1 := if r > half ∨ (r = half ∧ q % 2 = 1) then q + 1 else q
    if e1 + (bitLength q1 : Int) > 128 then F32.inf (decide (m < 0))
    else F32.finite (if m < 0 then -(q1 : Int) else (q1 : Int)) e1

/-- The product `a * b` of two `float`s. -/
def F32.mul : F32 → F32 → F32
  | F32.finite m1 e1, F32.finite m2 e2 => F32.round (m1 * m2) (e1 + e2)
  | F32.nan, _ => F32.nan
  | _, F32.nan => F32.nan
  | F32.inf s, F32.inf t => F32.inf (xor s t)
  | F32.inf s, F32.finite m _ => if m = 0 then F32.nan else F32.inf (xor s (decide (m < 0)))
  | F32.finite m _, F32.inf s => if m = 0 then F32.nan else F32.inf (xor s (decide (m < 0)))

/-- The conversion of an `s32` to `float` that C++ inserts in `float * s32`. -/
def F32.ofS32 (n : Int) : F32 := F32.round n 0

/-- The mathematical truncation toward zero of a finite value `m * 2^e`. -/
def F32.truncate (m : Int) (e : Int) : Int :=
  if 0 ≤ e then m * 2 ^ e.toNat else Int.tdiv m (2 ^ (-e).toNat)

/-- The conversion `static_cast<s32>(f)`: truncation toward zero. C++ leaves the
conversion undefined when the truncated value does not fit an `s32` or `f` is not
finite; for these the model returns `-2^31`, the result of the x86-64 conversion
instruction. -/
def F32.toS32 : F32 → Int
  | F32.finite m e =>
    let t := F32.truncate m e
    if -(2 : Int) ^ 31 ≤ t ∧ t < (2 : Int) ^ 31 then t else -(2 : Int) ^ 31
  | _ => -(2 : Int) ^ 31

/-- The quotient `a / b` of two `float`s, correctly rounded: the integer quotient
is taken with enough extra bits and a sticky bit for a non-zero remainder, then
rounded. The sign of a zero divisor is not kept; it is taken as positive. -/
def F32.div : F32 → F32 → F32
  | F32.finite m1 e1, F32.finite m2 e2 =>
    if m2 = 0 then
      if m1 = 0 then F32.nan else F32.inf (decide (m1 < 0))
    else
      let k := bitLength m2.natAbs + 26
      let q := m1.natAbs * 2 ^ k / m2.natAbs
      let sticky := if m1.natAbs * 2 ^ k % m2.natAbs = 0 then 0 else 1
      let a : Int := ((2 * q + sticky : Nat) : Int)
      F32.round (if xor (decide (m1 < 0)) (decide (m2 < 0)) then -a else a) (e1 - e2 - (k : Int) - 1)
  | F32.nan, _ => F32.nan
  | _, F32.nan => F32.nan
  | F32.inf _, F32.inf _ => F32.nan
  | F32.inf s, F32.finite m _ => F32.inf (xor s (decide (m < 0)))
  | F32.finite _ _, F32.inf _ => F32.finite 0 0

/-- The comparison `a < b` of two `float`s; false when either is a NaN. -/
def F32.lt : F32 → F32 → Bool
  | F32.finite m1 e1, F32.finite m2 e2 =>
    decide (m1 * 2 ^ (e1 - min e1 e2).toNat < m2 * 2 ^ (e2 - min e1 e2).toNat)
  | F32.finite _ _, F32.inf negative => !negative
  | F32.inf negative, F32.finite _ _ => negative
  | F32.inf negative1, F32.inf negative2 => negative1 && !negative2
  | F32.nan, _ => false
  | _, F32.nan => false

/-- The call `std::min(a, b)` on `float`s: `b` when `b < a`, else `a`. -/
def F32.stdMin (a b : F32) : F32 := if F32.lt b a then b else a

/-- The `float` is finite and not negative. -/
def F32.isFiniteNonneg : F32 → Bool
  | F32.finite m _ => decide (0 ≤ m)
  | _ => false

/-- The literal `0.7f`: the `float` nearest to 0.7. -/
def F32.lit_0_7 : F32 := F32.finite 11744051 (-24)

/-- The literal `0.001f`: the `float` nearest to 0.001. -/
def F32.lit_0_001 : F32 := F32.finite 8589935 (-33)

/-- The constant `HID_JOYSTICK_MAX` (line 9). -/
def HID_JOYSTICK_MAX : Int := 0x7fff

/-- The analog record `Common::Input::AnalogStatus`: the field that `SetStick` reads. -/
structure AnalogStatus where
  value : F32 := F32.finite 0 0
  deriving DecidableEq, Repr

/-- The stick record `Common::Input::StickStatus`: both axes, the four-way digital
overlay and the recorded owner `uuid`. -/
structure StickStatus where
  uuid : UUID := 0
  x : AnalogStatus := {}
  y : AnalogStatus := {}
  left : Bool := false
  right : Bool := false
  up : Bool := false
  down : Bool := false
  deriving DecidableEq, Repr

/-- The reported stick coordinates `AnalogStickState`, two `s32`. -/
structure AnalogStickState where
  x : Int := 0
  y : Int := 0
  deriving DecidableEq, Repr

/-- The reported pair of sticks `AnalogSticks`. -/
structure AnalogSticks where
  left : AnalogStickState := {}
  right : AnalogStickState := {}
  deriving DecidableEq, Repr

/-- Modelled from the spec: the enumeration `Settings::NativeAnalog` is declared
in `settings_input.h`, which is not among the sources. The constructors are the
enumerators named in the `switch` of `SetStick`. -/
inductive NativeAnalog where
  | LStick
  | RStick
  deriving DecidableEq, Repr

/-- Modelled from the spec: the numeric values of the `Settings::NativeAnalog`
enumerators are not among the sources. They are taken as a parameter: the
enumerator whose value is a given index, if any. -/
abbrev NativeAnalog.Values := Nat → Option NativeAnalog

/-- Modelled from the spec: the enumeration `Common::Input::BatteryLevel` is
declared in `common/input.h`, which is not among the sources. The first seven
constructors are the levels named in `SetBattery`; `Unlisted raw` stands for any
other value, which the `switch` sends to its `default` branch. -/
inductive BatteryLevel where
  | None
  | Empty
  | Critical
  | Low
  | Medium
  | Full
  | Charging
  | Unlisted (raw : Nat)
  deriving DecidableEq, Repr

/-- One battery cell of the report: the three fields that `SetBattery` assigns. -/
structure NpadPowerInfo where
  is_powered : Bool := false
  is_charging : Bool := false
  battery_level : Nat := 0
  deriving DecidableEq, Repr

/-- The reported battery state `BatteryLevelState`: the dual, left and right cell. -/
structure BatteryLevelState where
  dual : NpadPowerInfo := {}
  left : NpadPowerInfo := {}
  right : NpadPowerInfo := {}
  deriving DecidableEq, Repr

/-- Modelled from the spec: the constants `LeftIndex`, `RightIndex` and
`DualIndex` are declared in a header that is not among the sources. The
constructors name them. -/
inductive DeviceIndex where
  | LeftIndex
  | RightIndex
  | DualIndex
  deriving DecidableEq, Repr

/-- Modelled from the spec: the numeric values of `LeftIndex`, `RightIndex` and
`DualIndex` are not among the sources. They are taken as a parameter: the constant
whose value is a given index, if any. -/
abbrev DeviceIndex.Values := Nat → Option DeviceIndex

/-- The member `controller` (`ControllerStatus`): the raw per-input records
(`button_values`, `stick_values`, `battery_values`) and the canonical report built
from them. The fixed-size arrays are lists; their length is the array size. -/
structure ControllerStatus where
  button_values : List ButtonStatus := []
  stick_values : List StickStatus := []
  npad_button_state : NpadButtonState := {}
  debug_pad_button_state : DebugPadButton := {}
  analog_stick_state : AnalogSticks := {}
  battery_values : List BatteryLevel := []
  battery_state : BatteryLevelState := {}
  deriving DecidableEq, Repr

/-- The state of an `EmulatedController` object: slot, canonical variant and
connection flag, their configuration shadow (`tmp_*`), the capability set, the
controller record and the subscriber registry in iteration order. -/
structure EmulatedController where
  npad_id_type : NpadIdType := NpadIdType.Player1
  npad_type : NpadStyleIndex := NpadStyleIndex.ProController
  tmp_npad_type : NpadStyleIndex := NpadStyleIndex.ProController
  is_connected : Bool := false
  tmp_is_connected : Bool := false
  is_configuring : Bool := false
  supported_style_tag : NpadStyleTag := {}
  controller : ControllerStatus := {}
  callback_list : List (Int × ControllerUpdateCallback) := []
  last_callback_key : Int := 0
  deriving DecidableEq, Repr

/-- What an operation yields: the new state and the subscriber invocations it
made, in order. -/
abbrev Outcome := EmulatedController × List Invocation

/-! ## Notification bus -/

/-- The loop of `TriggerOnChange` (lines 1136-1144) over the registry entries:
an entry is skipped when the update is not a service update and the subscriber is
service-internal; otherwise its `on_change`, when set, is called with `type`. -/
def TriggerOnChange.loop (type : ControllerTriggerType) (is_npad_service_update : Bool)
    (lock_held : Bool) : List (Int × ControllerUpdateCallback) → List Invocation
  | [] => []
  | poller_pair :: rest =>
    let poller := poller_pair.2
    if !is_npad_service_update && poller.is_npad_service then
      TriggerOnChange.loop type is_npad_service_update lock_held rest
    else if poller.on_change then
      { key := poller_pair.1, poller := poller, type := type, lock_held := lock_held } ::
        TriggerOnChange.loop type is_npad_service_update lock_held rest
    else
      TriggerOnChange.loop type is_npad_service_update lock_held rest

/-- `EmulatedController::TriggerOnChange` (lines 1135-1145). `lock_held` records
whether the call site lies inside the scope of a `std::lock_guard`. -/
def TriggerOnChange (s : EmulatedController) (type : ControllerTriggerType)
    (is_npad_service_update : Bool) (lock_held : Bool) : List Invocation :=
  TriggerOnChange.loop type is_npad_service_update lock_held s.callback_list

/-! ## Connection and variant -/

/-- The `switch` of `IsControllerSupported` (lines 917-942): the capability flag
that stands for variant `type`. -/
def IsControllerSupported.flag (supported_style_tag : NpadStyleTag) (type : NpadStyleIndex) : Bool :=
  match type with
  | NpadStyleIndex.ProController => supported_style_tag.fullkey
  | NpadStyleIndex.Handheld => supported_style_tag.handheld
  | NpadStyleIndex.JoyconDual => supported_style_tag.joycon_dual
  | NpadStyleIndex.JoyconLeft => supported_style_tag.joycon_left
  | NpadStyleIndex.JoyconRight => supported_style_tag.joycon_right
  | NpadStyleIndex.GameCube => supported_style_tag.gamecube
  | NpadStyleIndex.Pokeball => supported_style_tag.palma
  | NpadStyleIndex.NES => supported_style_tag.lark
  | NpadStyleIndex.SNES => supported_style_tag.lucia
  | NpadStyleIndex.N64 => supported_style_tag.lagoon
  | NpadStyleIndex.SegaGenesis => supported_style_tag.lager
  | NpadStyleIndex.Unlisted _ => false

/-- `EmulatedController::IsControllerSupported` (lines 915-943): the variant
tested is the temporary one only in configuration mode and on request. -/
def IsControllerSupported (s : EmulatedController) (use_temporary_value : Bool) : Bool :=
  let type := if s.is_configuring && use_temporary_value then s.tmp_npad_type else s.npad_type
  IsControllerSupported.flag s.supported_style_tag type

/-- `EmulatedController::Connect` (lines 945-965). The notification of the
configuration branch is sent inside the lock scope, the other one after it. -/
def Connect (s : EmulatedController) (use_temporary_value : Bool) : Outcome :=
  if !IsControllerSupported s use_temporary_value then
    (s, [])
  else if s.is_configuring then
    let s1 := { s with tmp_is_connected := true }
    (s1, TriggerOnChange s1 ControllerTriggerType.Connected false true)
  else if s.is_connected then
    (s, [])
  else
    let s1 := { s with is_connected := true }
    (s1, TriggerOnChange s1 ControllerTriggerType.Connected true false)

/-- `EmulatedController::Disconnect` (lines 967-982). -/
def Disconnect (s : EmulatedController) : Outcome :=
  if s.is_configuring then
    let s1 := { s with tmp_is_connected := false }
    (s1, TriggerOnChange s1 ControllerTriggerType.Disconnected false true)
  else if !s.is_connected then
    (s, [])
  else
    let s1 := { s with is_connected := false }
    (s1, TriggerOnChange s1 ControllerTriggerType.Disconnected true false)

/-- `EmulatedController::IsConnected` (lines 984-989). -/
def IsConnected (s : EmulatedController) (get_temporary_value : Bool) : Bool :=
  if get_temporary_value && s.is_configuring then s.tmp_is_connected else s.is_connected

/-- `EmulatedController::GetNpadStyleIndex` (lines 1001-1006). -/
def GetNpadStyleIndex (s : EmulatedController) (get_temporary_value : Bool) : NpadStyleIndex :=
  if get_temporary_value && s.is_configuring then s.tmp_npad_type else s.npad_type

/-- `EmulatedController::SetNpadStyleIndex` (lines 1008-1031). The warning logged
when the variant changes on a connected controller has no effect on the state. -/
def SetNpadStyleIndex (s : EmulatedController) (npad_type_ : NpadStyleIndex) : Outcome :=
  if s.is_configuring then
    if s.tmp_npad_type = npad_type_ then
      (s, [])
    else
      let s1 := { s with tmp_npad_type := npad_type_ }
      (s1, TriggerOnChange s1 ControllerTriggerType.Type_ false true)
  else if s.npad_type = npad_type_ then
    (s, [])
  else
    let s1 := { s with npad_type := npad_type_ }
    (s1, TriggerOnChange s1 ControllerTriggerType.Type_ true false)

/-! ## Configuration shadow -/

/-- `EmulatedController::EnableConfiguration` (lines 327-331). -/
def EnableConfiguration (s : EmulatedController) : EmulatedController :=
  { s with is_configuring := true, tmp_is_connected := s.is_connected, tmp_npad_type := s.npad_type }

/-- Lines 334-342 of `DisableConfiguration`: the flag is cleared and the temporary
variant applied, after a `Disconnect` when the controller is connected. -/
def DisableConfiguration.applyType (s : EmulatedController) : Outcome :=
  let s0 := { s with is_configuring := false }
  if s0.tmp_npad_type ≠ s0.npad_type then
    let r1 := if s0.is_connected then Disconnect s0 else (s0, [])
    let r2 := SetNpadStyleIndex r1.1 r1.1.tmp_npad_type
    (r2.1, r1.2 ++ r2.2)
  else
    (s0, [])

/-- Lines 344-351 of `DisableConfiguration`: the temporary connection flag is
applied by `Connect` or `Disconnect`. Both calls omit `use_temporary_value`; it is
not read there, because `is_configuring` is already false. -/
def DisableConfiguration.applyConnected (s : EmulatedController) : Outcome :=
  if s.tmp_is_connected ≠ s.is_connected then
    if s.tmp_is_connected then Connect s false else Disconnect s
  else
    (s, [])

/-- `EmulatedController::DisableConfiguration` (lines 333-352). -/
def DisableConfiguration (s : EmulatedController) : Outcome :=
  let r1 := DisableConfiguration.applyType s
  let r2 := DisableConfiguration.applyConnected r1.1
  (r2.1, r1.2 ++ r2.2)

/-! ## Buttons -/

/-- Lines 492-514 of `SetButton`: the accepted signal `new_status` from source
`uuid` is merged into the button record, giving the new record and the local
`value_changed`. -/
def SetButton.update (current_status new_status : ButtonStatus) (uuid : UUID) :
    ButtonStatus × Bool :=
  let c1 := { current_status with toggle := new_status.toggle, uuid := uuid }
  if !c1.toggle then
    let c2 := { c1 with locked := false }
    if c2.value != new_status.value then
      ({ c2 with value := new_status.value }, true)
    else
      (c2, false)
  else
    let r :=
      if new_status.value && !c1.locked then
        ({ c1 with locked := true, value := !c1.value }, true)
      else
        (c1, false)
    if !new_status.value && r.1.locked then
      ({ r.1 with locked := false }, r.2)
    else
      r

/-- The `switch` of `SetButton` (lines 527-601): the bits of the canonical button
report that mirror button `index`. An index that is no enumerator matches no
`case`. -/
def SetButton.assign (N : NativeButton.Values) (index : Nat) (value : Bool)
    (c : ControllerStatus) : ControllerStatus :=
  match N index with
  | some NativeButton.A =>
    { c with npad_button_state := { c.npad_button_state with a := value },
             debug_pad_button_state := { c.debug_pad_button_state with a := value } }
  | some NativeButton.B =>
    { c with npad_button_state := { c.npad_button_state with b := value },
             debug_pad_button_state := { c.debug_pad_button_state with b := value } }
  | some NativeButton.X =>
    { c with npad_button_state := { c.npad_button_state with x := value },
             debug_pad_button_state := { c.debug_pad_button_state with x := value } }
  | some NativeButton.Y =>
    { c with npad_button_state := { c.npad_button_state with y := value },
             debug_pad_button_state := { c.debug_pad_button_state with y := value } }
  | some NativeButton.LStick =>
    { c with npad_button_state := { c.npad_button_state with stick_l := value } }
  | some NativeButton.RStick =>
    { c with npad_button_state := { c.npad_button_state with stick_r := value } }
  | some NativeButton.L =>
    { c with npad_button_state := { c.npad_button_state with l := value },
             debug_pad_button_state := { c.debug_pad_button_state with l := value } }
  | some NativeButton.R =>
    { c with npad_button_state := { c.npad_button_state with r := value },
             debug_pad_button_state := { c.debug_pad_button_state with r := value } }
  | some NativeButton.ZL =>
    { c with npad_button_state := { c.npad_button_state with zl := value },
             debug_pad_button_state := { c.debug_pad_button_state with zl := value } }
  | some NativeButton.ZR =>
    { c with npad_button_state := { c.npad_button_state with zr := value },
             debug_pad_button_state := { c.debug_pad_button_state with zr := value } }
  | some NativeButton.Plus =>
    { c with npad_button_state := { c.npad_button_state with plus := value },
             debug_pad_button_state := { c.debug_pad_button_state with plus := value } }
  | some NativeButton.Minus =>
    { c with npad_button_state := { c.npad_button_state with minus := value },
             debug_pad_button_state := { c.debug_pad_button_state with minus := value } }
  | some NativeButton.DLeft =>
    { c with npad_button_state := { c.npad_button_state with left := value },
             debug_pad_button_state := { c.debug_pad_button_state with d_left := value } }
  | some NativeButton.DUp =>
    { c with npad_button_state := { c.npad_button_state with up := value },
             debug_pad_button_state := { c.debug_pad_button_state with d_up := value } }
  | some NativeButton.DRight =>
    { c with npad_button_state := { c.npad_button_state with right := value },
             debug_pad_button_state := { c.debug_pad_button_state with d_right := value } }
  | some NativeButton.DDown =>
    { c with npad_button_state := { c.npad_button_state with down := value },
             debug_pad_button_state := { c.debug_pad_button_state with d_down := value } }
  | some NativeButton.SL =>
    { c with npad_button_state := { c.npad_button_state with left_sl := value, right_sl := value } }
  | some NativeButton.SR =>
    { c with npad_button_state := { c.npad_button_state with left_sr := value, right_sr := value } }
  | some NativeButton.Home =>
    c
  | some NativeButton.Screenshot =>
    c
  | none => c

/-- Lines 603-610 of `SetButton`, after the lock scope: the automatic `Connect` of
a controller that is not connected. Both calls omit `use_temporary_value`; it is
not read there, because this point is only reached outside configuration mode. -/
def SetButton.autoConnect (s : EmulatedController) : Outcome :=
  if !s.is_connected then
    let r1 :=
      if s.npad_id_type = NpadIdType.Player1 ∧ s.npad_type ≠ NpadStyleIndex.Handheld then
        Connect s false
      else
        (s, [])
    let r2 :=
      if r1.1.npad_id_type = NpadIdType.Handheld ∧ r1.1.npad_type = NpadStyleIndex.Handheld then
        Connect r1.1 false
      else
        (r1.1, [])
    (r2.1, r1.2 ++ r2.2)
  else
    (s, [])

/-- `EmulatedController::SetButton` (lines 474-612). `new_status` is the value of
`TransformToButton(callback)`; that conversion is defined in
`input_converter.cpp`, which is not among the sources. -/
def SetButton (N : NativeButton.Values) (s : EmulatedController) (new_status : ButtonStatus)
    (index : Nat) (uuid : UUID) : Outcome :=
  match s.controller.button_values[index]? with
  | none => (s, [])
  | some current_status =>
    if current_status.uuid ≠ uuid ∧ new_status.value = false then
      (s, [])
    else
      let r := SetButton.update current_status new_status uuid
      let s1 := { s with controller.button_values := s.controller.button_values.set index r.1 }
      if !r.2 then
        (s1, [])
      else if s1.is_configuring then
        let s2 := { s1 with controller.npad_button_state := {},
                            controller.debug_pad_button_state := {} }
        (s2, TriggerOnChange s2 ControllerTriggerType.Button false true)
      else
        let s2 := { s1 with controller := SetButton.assign N index r.1.value s1.controller }
        let r3 := SetButton.autoConnect s2
        (r3.1, r3.2 ++ TriggerOnChange r3.1 ControllerTriggerType.Button true false)

/-- The case in which lines 603-610 of `SetButton` change the connection flag
outside configuration mode: the controller is not connected, the slot and the
variant match one of the two guards, and `Connect` finds the variant supported. -/
def SetButton.autoConnects (s : EmulatedController) : Bool :=
  !s.is_connected &&
    ((decide (s.npad_id_type = NpadIdType.Player1) && decide (s.npad_type ≠ NpadStyleIndex.Handheld)) ||
      (decide (s.npad_id_type = NpadIdType.Handheld) && decide (s.npad_type = NpadStyleIndex.Handheld))) &&
    IsControllerSupported s false

/-! ## Sticks -/

/-- The scaling `static_cast<s32>(value * HID_JOYSTICK_MAX)` of lines 640-641. -/
def SetStick.scale (value : F32) : Int :=
  F32.toS32 (F32.mul value (F32.ofS32 HID_JOYSTICK_MAX))

/-- The `switch` of `SetStick` (lines 644-659): the reported coordinates and the
four direction bits of stick `index`. -/
def SetStick.assign (A : NativeAnalog.Values) (index : Nat) (v : StickStatus)
    (c : ControllerStatus) : ControllerStatus :=
  let stick : AnalogStickState := { x := SetStick.scale v.x.value, y := SetStick.scale v.y.value }
  match A index with
  | some NativeAnalog.LStick =>
    { c with analog_stick_state := { c.analog_stick_state with left := stick },
             npad_button_state := { c.npad_button_state with
               stick_l_left := v.left, stick_l_up := v.up,
               stick_l_right := v.right, stick_l_down := v.down } }
  | some NativeAnalog.RStick =>
    { c with analog_stick_state := { c.analog_stick_state with right := stick },
             npad_button_state := { c.npad_button_state with
               stick_r_left := v.left, stick_r_up := v.up,
               stick_r_right := v.right, stick_r_down := v.down } }
  | none => c

/-- `EmulatedController::SetStick` (lines 614-662). `stick_value` is the value of
`TransformToStick(callback)`; that conversion is defined in `input_converter.cpp`,
which is not among the sources. The lock guard spans the whole function, so both
notifications are sent with the mutex held. -/
def SetStick (A : NativeAnalog.Values) (s : EmulatedController) (stick_value : StickStatus)
    (index : Nat) (uuid : UUID) : Outcome :=
  match s.controller.stick_values[index]? with
  | none => (s, [])
  | some current =>
    if current.uuid ≠ uuid ∧
        (!stick_value.down && !stick_value.up && !stick_value.left && !stick_value.right) = true then
      (s, [])
    else
      let v := { stick_value with uuid := uuid }
      let s1 := { s with controller.stick_values := s.controller.stick_values.set index v }
      if s1.is_configuring then
        let s2 := { s1 with controller.analog_stick_state := { left := {}, right := {} } }
        (s2, TriggerOnChange s2 ControllerTriggerType.Stick false true)
      else
        let s2 := { s1 with controller := SetStick.assign A index v s1.controller }
        (s2, TriggerOnChange s2 ControllerTriggerType.Stick true true)

/-! ## Capability update -/

/-- Modelled from the spec: the default value of the parameter
`use_temporary_value` of `IsControllerSupported`, `IsControllerFullkey` and
`Connect` is declared in `emulated_controller.h`, which is not among the sources.
The three defaults are taken as a parameter of the calls that omit the argument. -/
structure DefaultArguments where
  IsControllerSupported : Bool
  IsControllerFullkey : Bool
  Connect : Bool
  deriving DecidableEq, Repr

/-- `EmulatedController::IsControllerFullkey` (lines 900-913). -/
def IsControllerFullkey (s : EmulatedController) (use_temporary_value : Bool) : Bool :=
  let type := if s.is_configuring && use_temporary_value then s.tmp_npad_type else s.npad_type
  match type with
  | NpadStyleIndex.ProController => true
  | NpadStyleIndex.GameCube => true
  | NpadStyleIndex.NES => true
  | NpadStyleIndex.SNES => true
  | NpadStyleIndex.N64 => true
  | NpadStyleIndex.SegaGenesis => true
  | _ => false

/-- `EmulatedController::SetSupportedNpadStyleTag` (lines 877-898). The calls of
`IsControllerSupported`, `IsControllerFullkey` and `Connect` omit their argument
and take it from `D`. The two log statements have no effect on the state. -/
def SetSupportedNpadStyleTag (D : DefaultArguments) (s : EmulatedController)
    (supported_styles : NpadStyleTag) : Outcome :=
  let s0 := { s with supported_style_tag := supported_styles }
  if !s0.is_connected then
    (s0, [])
  else if IsControllerSupported s0 D.IsControllerSupported then
    (s0, [])
  else
    let r1 := Disconnect s0
    if IsControllerFullkey r1.1 D.IsControllerFullkey && r1.1.supported_style_tag.fullkey then
      let r2 := SetNpadStyleIndex r1.1 NpadStyleIndex.ProController
      let r3 := Connect r2.1 D.Connect
      (r3.1, r1.2 ++ r2.2 ++ r3.2)
    else
      (r1.1, r1.2)

/-! ## Battery -/

/-- The first `switch` of `SetBattery` (lines 758-785): the report cell that
stands for a raw battery level. -/
def SetBattery.info : BatteryLevel → NpadPowerInfo
  | BatteryLevel.Charging => { is_powered := true, is_charging := true, battery_level := 6 }
  | BatteryLevel.Medium => { is_powered := false, is_charging := false, battery_level := 6 }
  | BatteryLevel.Low => { is_powered := false, is_charging := false, battery_level := 4 }
  | BatteryLevel.Critical => { is_powered := false, is_charging := false, battery_level := 2 }
  | BatteryLevel.Empty => { is_powered := false, is_charging := false, battery_level := 0 }
  | BatteryLevel.None => { is_powered := true, is_charging := false, battery_level := 8 }
  | BatteryLevel.Full => { is_powered := true, is_charging := false, battery_level := 8 }
  | BatteryLevel.Unlisted _ => { is_powered := true, is_charging := false, battery_level := 8 }

/-- The second `switch` of `SetBattery` (lines 787-809): the cell of the report
that `index` selects is overwritten. -/
def SetBattery.assign (B : DeviceIndex.Values) (index : Nat) (info : NpadPowerInfo)
    (c : ControllerStatus) : ControllerStatus :=
  match B index with
  | some DeviceIndex.LeftIndex => { c with battery_state := { c.battery_state with left := info } }
  | some DeviceIndex.RightIndex => { c with battery_state := { c.battery_state with right := info } }
  | some DeviceIndex.DualIndex => { c with battery_state := { c.battery_state with dual := info } }
  | none => c

/-- `EmulatedController::SetBattery` (lines 745-811). `battery` is the value of
`TransformToBattery(callback)`; that conversion is defined in
`input_converter.cpp`, which is not among the sources. The lock guard spans the
whole function, so both notifications are sent with the mutex held. -/
def SetBattery (B : DeviceIndex.Values) (s : EmulatedController) (battery : BatteryLevel)
    (index : Nat) : Outcome :=
  if index ≥ s.controller.battery_values.length then
    (s, [])
  else
    let s1 := { s with controller.battery_values := s.controller.battery_values.set index battery }
    if s1.is_configuring then
      (s1, TriggerOnChange s1 ControllerTriggerType.Battery false true)
    else
      let s2 := { s1 with controller := SetBattery.assign B index (SetBattery.info battery) s1.controller }
      (s2, TriggerOnChange s2 ControllerTriggerType.Battery true true)

/-! ## Output pipeline -/

/-- Modelled from the spec: the enumeration
`Common::Input::VibrationAmplificationType` is declared in `common/input.h`, which
is not among the sources. The constructors are the two curves named in
`SetVibration`. -/
inductive VibrationAmplificationType where
  | Linear
  | Exponential
  deriving DecidableEq, Repr

/-- Modelled from the spec: the enumeration `Common::Input::VibrationError` is
declared in `common/input.h`, which is not among the sources. `None` is the value
`SetVibration` compares with; `Unlisted raw` stands for any other value. -/
inductive VibrationError where
  | None
  | Unlisted (raw : Nat)
  deriving DecidableEq, Repr

/-- The request `VibrationValue`: amplitude and frequency of both bands. -/
structure VibrationValue where
  low_amplitude : F32 := F32.finite 0 0
  low_frequency : F32 := F32.finite 0 0
  high_amplitude : F32 := F32.finite 0 0
  high_frequency : F32 := F32.finite 0 0
  deriving DecidableEq, Repr

/-- The command `Common::Input::VibrationStatus` sent to an output device. -/
structure VibrationStatus where
  low_amplitude : F32
  low_frequency : F32
  high_amplitude : F32
  high_frequency : F32
  type : VibrationAmplificationType
  deriving DecidableEq, Repr

/-- An output device, seen through the one method `SetVibration` calls: its answer
to a vibration command. The device is an external collaborator; its answer is
taken to depend on the command only. -/
structure OutputDevice where
  SetVibration : VibrationStatus → VibrationError

/-- The entry of the player in `Settings::values.players`: the two vibration
settings that `SetVibration` reads (`bool`, `int`). The entry is selected by
`NpadIdTypeToIndex(npad_id_type)`, which is not among the sources. -/
structure PlayerInput where
  vibration_enabled : Bool := true
  vibration_strength : Int := 100
  deriving DecidableEq, Repr

/-- The local `strength` of `SetVibration` (line 822):
`static_cast<f32>(player.vibration_strength) / 100.0f`. -/
def SetVibration.strength (player : PlayerInput) : F32 :=
  F32.div (F32.ofS32 player.vibration_strength) (F32.finite 100 0)

/-- The local `status` of `SetVibration` (lines 830-840): the curve chosen from
`strength > 0.7f` and both amplitudes scaled and capped by `std::min(_, 1.0f)`. -/
def SetVibration.status (player : PlayerInput) (vibration : VibrationValue) : VibrationStatus :=
  let strength := SetVibration.strength player
  { low_amplitude := F32.stdMin (F32.mul vibration.low_amplitude strength) (F32.finite 1 0),
    low_frequency := vibration.low_frequency,
    high_amplitude := F32.stdMin (F32.mul vibration.high_amplitude strength) (F32.finite 1 0),
    high_frequency := vibration.high_frequency,
    type := if F32.lt F32.lit_0_7 strength then VibrationAmplificationType.Exponential
            else VibrationAmplificationType.Linear }

/-- `EmulatedController::SetVibration` (lines 813-843): the result and the
commands sent, each with the index of the device that received it.
`output_devices` is the member array (an empty handle is `none`) and `player` the
settings entry of the controller. -/
def SetVibration (output_devices : List (Option OutputDevice)) (player : PlayerInput)
    (device_index : Nat) (vibration : VibrationValue) : Bool × List (Nat × VibrationStatus) :=
  match output_devices[device_index]? with
  | none => (false, [])
  | some none => (false, [])
  | some (some device) =>
    if !player.vibration_enabled then
      (false, [])
    else
      let status := SetVibration.status player vibration
      (decide (device.SetVibration status = VibrationError.None), [(device_index, status)])

/-- The constant `test_vibration` of `TestVibration` (lines 846-851). -/
def TestVibration.test_vibration : VibrationValue :=
  { low_amplitude := F32.lit_0_001, low_frequency := F32.finite 160 0,
    high_amplitude := F32.lit_0_001, high_frequency := F32.finite 320 0 }

/-- `EmulatedController::TestVibration` (lines 845-858). The constant
`DEFAULT_VIBRATION_VALUE` is declared in a header that is not among the sources
and is taken as a parameter. The result of the first call is discarded. -/
def TestVibration (DEFAULT_VIBRATION_VALUE : VibrationValue)
    (output_devices : List (Option OutputDevice)) (player : PlayerInput)
    (device_index : Nat) : Bool × List (Nat × VibrationStatus) :=
  let r1 := SetVibration output_devices player device_index TestVibration.test_vibration
  let r2 := SetVibration output_devices player device_index DEFAULT_VIBRATION_VALUE
  (r2.1, r1.2 ++ r2.2)

/-- The LED record `LedPattern`: four one-bit positions. -/
structure LedPattern where
  position1 : Nat
  position2 : Nat
  position3 : Nat
  position4 : Nat
  deriving DecidableEq, Repr

/-- `EmulatedController::GetLedPattern` (lines 1033-1054). -/
def GetLedPattern (s : EmulatedController) : LedPattern :=
  match s.npad_id_type with
  | NpadIdType.Player1 => LedPattern.mk 1 0 0 0
  | NpadIdType.Player2 => LedPattern.mk 1 1 0 0
  | NpadIdType.Player3 => LedPattern.mk 1 1 1 0
  | NpadIdType.Player4 => LedPattern.mk 1 1 1 1
  | NpadIdType.Player5 => LedPattern.mk 1 0 0 1
  | NpadIdType.Player6 => LedPattern.mk 1 0 1 0
  | NpadIdType.Player7 => LedPattern.mk 1 0 1 1
  | NpadIdType.Player8 => LedPattern.mk 0 1 1 0
  | _ => LedPattern.mk 0 0 0 0

/-! ## Subscriber registry -/

/-- The container type of `callback_list` is declared in `emulated_controller.h`,
which is not among the sources. The source uses it as a keyed map
(`insert_or_assign`, `find`, `erase`, `poller_pair.second`), and the order in which
a keyed map iterates is the choice of its type. That choice is taken as a
parameter: the registry is the list of its entries in iteration order, and an
arrangement gives the iteration order of the entries after a key has been added.
A map ordered by key sorts them, a hash map places them by bucket. -/
abbrev callback_list.Arrangement :=
  List (Int × ControllerUpdateCallback) → List (Int × ControllerUpdateCallback)

/-- The call `callback_list.insert_or_assign(key, update_callback)` on a keyed map
that iterates as `arrange` says: the record of a key that is present is overwritten
where it stands; the entry of a key that is not present is added, and the map then
iterates in the order `arrange` gives. -/
def callback_list.insert_or_assign (arrange : callback_list.Arrangement)
    (l : List (Int × ControllerUpdateCallback)) (key : Int)
    (update_callback : ControllerUpdateCallback) : List (Int × ControllerUpdateCallback) :=
  if l.any (fun p => decide (p.1 = key)) then
    l.map (fun p => if p.1 = key then (key, update_callback) else p)
  else
    arrange (l ++ [(key, update_callback)])

/-- The call `callback_list.erase(callback_list.find(key))`: the entry of `key` is
removed, the other entries keep their order. -/
def callback_list.erase : List (Int × ControllerUpdateCallback) → Int →
    List (Int × ControllerUpdateCallback)
  | [], _ => []
  | p :: rest, key => if p.1 = key then rest else p :: callback_list.erase rest key

/-- `EmulatedController::SetCallback` (lines 1147-1151): the new state and the key
returned. The counter is an `int`; its overflow, undefined in C++, is not
modelled. -/
def SetCallback (arrange : callback_list.Arrangement) (s : EmulatedController)
    (update_callback : ControllerUpdateCallback) : EmulatedController × Int :=
  ({ s with callback_list :=
              callback_list.insert_or_assign arrange s.callback_list s.last_callback_key
                update_callback,
            last_callback_key := s.last_callback_key + 1 },
    s.last_callback_key)

/-- A sequence of `SetCallback` registrations: the final state and the keys
returned, in order. -/
def SetCallback.all (arrange : callback_list.Arrangement) (s : EmulatedController) :
    List ControllerUpdateCallback → EmulatedController × List Int
  | [] => (s, [])
  | update_callback :: rest =>
    let r := SetCallback arrange s update_callback
    let r1 := SetCallback.all arrange r.1 rest
    (r1.1, r.2 :: r1.2)

/-- `EmulatedController::DeleteCallback` (lines 1153-1161). The error logged for a
key that is not registered has no effect on the state. -/
def DeleteCallback (s : EmulatedController) (key : Int) : EmulatedController :=
  if s.callback_list.any (fun p => decide (p.1 = key)) then
    { s with callback_list := callback_list.erase s.callback_list key }
  else
    s

/-! ## Settings controller types -/

/-- Modelled from the spec: the enumeration `Settings::ControllerType` is declared
in a settings header that is not among the sources. The first eleven constructors
are the types named in `emulated_controller.cpp`; `Unlisted raw` stands for any
other enumerator, which a `switch` sends to its `default` branch. -/
inductive Settings.ControllerType where
  | ProController
  | DualJoyconDetached
  | LeftJoycon
  | RightJoycon
  | Handheld
  | GameCube
  | Pokeball
  | NES
  | SNES
  | N64
  | SegaGenesis
  | Unlisted (raw : Nat)
  deriving DecidableEq, Repr

/-- `EmulatedController::MapSettingsTypeToNPad` (lines 16-43). -/
def MapSettingsTypeToNPad : Settings.ControllerType → NpadStyleIndex
  | Settings.ControllerType.ProController => NpadStyleIndex.ProController
  | Settings.ControllerType.DualJoyconDetached => NpadStyleIndex.JoyconDual
  | Settings.ControllerType.LeftJoycon => NpadStyleIndex.JoyconLeft
  | Settings.ControllerType.RightJoycon => NpadStyleIndex.JoyconRight
  | Settings.ControllerType.Handheld => NpadStyleIndex.Handheld
  | Settings.ControllerType.GameCube => NpadStyleIndex.GameCube
  | Settings.ControllerType.Pokeball => NpadStyleIndex.Pokeball
  | Settings.ControllerType.NES => NpadStyleIndex.NES
  | Settings.ControllerType.SNES => NpadStyleIndex.SNES
  | Settings.ControllerType.N64 => NpadStyleIndex.N64
  | Settings.ControllerType.SegaGenesis => NpadStyleIndex.SegaGenesis
  | Settings.ControllerType.Unlisted _ => NpadStyleIndex.ProController

/-- `EmulatedController::MapNPadToSettingsType` (lines 45-72). -/
def MapNPadToSettingsType : NpadStyleIndex → Settings.ControllerType
  | NpadStyleIndex.ProController => Settings.ControllerType.ProController
  | NpadStyleIndex.JoyconDual => Settings.ControllerType.DualJoyconDetached
  | NpadStyleIndex.JoyconLeft => Settings.ControllerType.LeftJoycon
  | NpadStyleIndex.JoyconRight => Settings.ControllerType.RightJoycon
  | NpadStyleIndex.Handheld => Settings.ControllerType.Handheld
  | NpadStyleIndex.GameCube => Settings.ControllerType.GameCube
  | NpadStyleIndex.Pokeball => Settings.ControllerType.Pokeball
  | NpadStyleIndex.NES => Settings.ControllerType.NES
  | NpadStyleIndex.SNES => Settings.ControllerType.SNES
  | NpadStyleIndex.N64 => Settings.ControllerType.N64
  | NpadStyleIndex.SegaGenesis => Settings.ControllerType.SegaGenesis
  | NpadStyleIndex.Unlisted _ => Settings.ControllerType.ProController

/-! ## Device bindings -/

/-- Modelled from the spec: the class `Common::ParamPackage` is declared in
`common/param_package.h`, which is not among the sources. The spec describes a
parameter descriptor as an opaque key-value parameter set: it is the list of its
key-value pairs, both as text. -/
abbrev ParamPackage := List (String × String)

/-- Modelled from the spec: `ParamPackage::Set(key, value)`, not among the
sources: the value of `key` is overwritten when the key is present and the pair is
added when it is not. -/
def ParamPackage.Set (param : ParamPackage) (key value : String) : ParamPackage :=
  if param.any (fun kv => decide (kv.1 = key)) then
    param.map (fun kv => if kv.1 = key then (key, value) else kv)
  else
    param ++ [(key, value)]

/-- The algorithm `std::transform(first, last, d_first, op)` on arrays given as
lists, with iterators given as positions: `op` of the elements of `src` at the
positions from `first` up to `last` is written to `dst` from position `d_first`
on. A write past the end of `dst`, undefined in C++, is left out. -/
def std.transform {α β : Type} (src : List α) (first last : Nat) (dst : List β) (d_first : Nat)
    (op : α → β) : List β :=
  (List.range (last - first)).foldl
    (fun d i =>
      match src[first + i]? with
      | some x => d.set (d_first + i) (op x)
      | none => d)
    dst

/-- Modelled from the spec: the values of the enumerators and constants that
`LoadDevices` uses as array positions are not among the sources. They are taken as
a parameter. -/
structure LoadDevices.Constants where
  DRight : Nat
  A : Nat
  ZL : Nat
  ZR : Nat
  LeftIndex : Nat
  RightIndex : Nat
  deriving DecidableEq, Repr

/-- The members that lines 118-133 and 146-151 of `LoadDevices` read and write:
the button descriptors, the trigger, battery and output descriptors derived from
them, and the trigger, battery and output device handles (`none` is an empty
handle). `InputDevice` is the type of an input device. -/
structure DeviceTables (InputDevice : Type) where
  button_params : List ParamPackage
  trigger_params : List ParamPackage
  battery_params : List ParamPackage
  output_params : List ParamPackage
  trigger_devices : List (Option InputDevice)
  battery_devices : List (Option InputDevice)
  output_devices : List (Option OutputDevice)

/-- `EmulatedController::LoadDevices` (lines 116-158) on the trigger, battery and
output tables. `CreateInput` and `CreateOutput` are the factory
`Common::Input::CreateDevice`, which is not among the sources. `Set(key, true)`
stores the text `1`. The statements left out (`LoadTASParams` and the
`std::transform` calls of lines 137-145 and 154-157) write the button, stick,
motion and TAS tables only. -/
def LoadDevices {InputDevice : Type} (K : LoadDevices.Constants)
    (CreateInput : ParamPackage → Option InputDevice)
    (CreateOutput : ParamPackage → Option OutputDevice)
    (t : DeviceTables InputDevice) : DeviceTables InputDevice :=
  let left_joycon := t.button_params.getD K.DRight []
  let right_joycon := t.button_params.getD K.A []
  let trigger_params :=
    (t.trigger_params.set K.LeftIndex (t.button_params.getD K.ZL [])).set K.RightIndex
      (t.button_params.getD K.ZR [])
  let battery_params1 := (t.battery_params.set K.LeftIndex left_joycon).set K.RightIndex right_joycon
  let battery_params2 :=
    battery_params1.set K.LeftIndex
      (ParamPackage.Set (battery_params1.getD K.LeftIndex []) "battery" "1")
  let battery_params :=
    battery_params2.set K.RightIndex
      (ParamPackage.Set (battery_params2.getD K.RightIndex []) "battery" "1")
  let output_params1 := (t.output_params.set K.LeftIndex left_joycon).set K.RightIndex right_joycon
  let output_params2 :=
    output_params1.set K.LeftIndex
      (ParamPackage.Set (output_params1.getD K.LeftIndex []) "output" "1")
  let output_params :=
    output_params2.set K.RightIndex
      (ParamPackage.Set (output_params2.getD K.RightIndex []) "output" "1")
  { t with
    trigger_params := trigger_params,
    battery_params := battery_params,
    output_params := output_params,
    trigger_devices :=
      std.transform trigger_params 0 trigger_params.length t.trigger_devices 0 CreateInput,
    battery_devices :=
      std.transform battery_params 0 0 t.battery_devices t.battery_devices.length CreateInput,
    output_devices :=
      std.transform output_params 0 output_params.length t.output_devices 0 CreateOutput }

/-- The battery loop of `ReloadInput` (lines 245-256), after its call of
`LoadDevices`: the channels whose handle is not empty, each of which gets a
callback that calls `SetBattery` with its index. -/
def ReloadInput.battery {InputDevice : Type} (K : LoadDevices.Constants)
    (CreateInput : ParamPackage → Option InputDevice)
    (CreateOutput : ParamPackage → Option OutputDevice)
    (t : DeviceTables InputDevice) : List Nat :=
  let t1 := LoadDevices K CreateInput CreateOutput t
  (List.range t1.battery_devices.length).filter
    (fun index =>
      match t1.battery_devices[index]? with
      | some (some _) => true
      | _ => false)

/-- Modelled from the spec: `ParamPackage::Has(key)`, not among the sources:
whether the descriptor holds a value for `key`. -/
def ParamPackage.Has (param : ParamPackage) (key : String) : Bool :=
  param.any (fun kv => decide (kv.1 = key))

/-- Modelled from the spec: `ParamPackage::Get(key, default_value)` with a text
default, not among the sources: the value of `key`, or `default_value` when the
descriptor holds none. -/
def ParamPackage.Get (param : ParamPackage) (key default_value : String) : String :=
  match param.find? (fun kv => decide (kv.1 = key)) with
  | some kv => kv.2
  | none => default_value

/-- The classification `std::isspace` in the C locale: space, and the control
characters from tab (9) to carriage return (13). -/
def std.isspace (c : Char) : Bool :=
  c.toNat = 32 || (9 ≤ c.toNat && c.toNat ≤ 13)

/-- The classification `std::isdigit`: the characters `0` to `9`. -/
def std.isdigit (c : Char) : Bool :=
  48 ≤ c.toNat && c.toNat ≤ 57

/-- The conversion `std::stoi(str)` in base 10 to a 32-bit `int`: leading white
space is skipped, one sign is read, then the longest run of digits. `none` stands
for the exceptions `std::invalid_argument` (no digit) and `std::out_of_range`. -/
def std.stoi (str : String) : Option Int :=
  let cs := str.data.dropWhile std.isspace
  let negative := cs.head? = some '-'
  let ds := if cs.head? = some '-' ∨ cs.head? = some '+' then cs.tail else cs
  let digits := ds.takeWhile std.isdigit
  if digits = [] then none
  else
    let v : Int := ((digits.foldl (fun a c => a * 10 + (c.toNat - 48)) 0 : Nat) : Int)
    let n : Int := if negative then -v else v
    if -2 ^ 31 ≤ n ∧ n < 2 ^ 31 then some n else none

/-- The decimal digits of `n`, most significant first, put in front of `acc`;
`fuel` bounds the number of digits. -/
def std.to_string.digits : Nat → Nat → List Char → List Char
  | 0, _, acc => acc
  | fuel + 1, n, acc =>
    let acc1 := Char.ofNat (48 + n % 10) :: acc
    if n / 10 = 0 then acc1 else std.to_string.digits fuel (n / 10) acc1

/-- The conversion `std::to_string(int)`: a minus sign for a negative value, then
the decimal digits without leading zeros. -/
def std.to_string (value : Int) : String :=
  String.mk
    (if value < 0 then '-' :: std.to_string.digits (value.natAbs + 1) value.natAbs []
     else std.to_string.digits (value.natAbs + 1) value.natAbs [])

/-- Modelled from the spec: `ParamPackage::Get(key, default_value)` with an `int`
default, not among the sources: the value of `key` read as a number, or
`default_value` when the descriptor holds none or it is not a number. -/
def ParamPackage.Get.int (param : ParamPackage) (key : String) (default_value : Int) : Int :=
  match param.find? (fun kv => decide (kv.1 = key)) with
  | some kv =>
    match std.stoi kv.2 with
    | some n => n
    | none => default_value
  | none => default_value

/-- Modelled from the spec: `ParamPackage::Set(key, value)` with an `int` value,
not among the sources: the number is stored as its decimal text. -/
def ParamPackage.Set.int (param : ParamPackage) (key : String) (value : Int) : ParamPackage :=
  ParamPackage.Set param key (std.to_string value)

/-- The predicate of the two `std::find_if` calls of `GetMappedDevices`
(lines 389-393 and 412-416): `param_` has the engine, the guid and the port of
`param`. -/
def GetMappedDevices.same_device (param param_ : ParamPackage) : Bool :=
  decide (ParamPackage.Get param "engine" "" = ParamPackage.Get param_ "engine" "") &&
    decide (ParamPackage.Get param "guid" "" = ParamPackage.Get param_ "guid" "") &&
    decide (ParamPackage.Get.int param "port" 0 = ParamPackage.Get.int param_ "port" 0)

/-- The tail shared by the two loop bodies of `GetMappedDevices` (lines 388-401
and 411-424): nothing is added when `std::find_if` finds a device like `param`;
otherwise a new descriptor with the engine, guid and port of `param` is pushed
back. -/
def GetMappedDevices.push_back (devices : List ParamPackage) (param : ParamPackage) :
    List ParamPackage :=
  if devices.any (GetMappedDevices.same_device param) then devices
  else
    let device : ParamPackage := []
    let device := ParamPackage.Set device "engine" (ParamPackage.Get param "engine" "")
    let device := ParamPackage.Set device "guid" (ParamPackage.Get param "guid" "")
    let device := ParamPackage.Set.int device "port" (ParamPackage.Get.int param "port" 0)
    devices ++ [device]

/-- `EmulatedController::GetMappedDevices` (lines 381-427) on the members
`button_params` and `stick_params`. The argument `device_index` is not used by the
body. -/
def GetMappedDevices (button_params stick_params : List ParamPackage) (_device_index : Nat) :
    List ParamPackage :=
  let devices : List ParamPackage := []
  let devices :=
    button_params.foldl
      (fun devices param =>
        if !ParamPackage.Has param "engine" then devices
        else GetMappedDevices.push_back devices param)
      devices
  stick_params.foldl
    (fun devices param =>
      if !ParamPackage.Has param "engine" then devices
      else if ParamPackage.Get param "engine" "" = "analog_from_button" then devices
      else GetMappedDevices.push_back devices param)
    devices

/-- The (engine, guid, port) triple of a descriptor, read the way
`GetMappedDevices` reads it. -/
def GetMappedDevices.triple (param : ParamPackage) : String × String × Int :=
  (ParamPackage.Get param "engine" "", ParamPackage.Get param "guid" "",
    ParamPackage.Get.int param "port" 0)

/-- The elements of a list in order of first occurrence: every later copy of an
element is left out. -/
def firstOccurrences {α : Type} [DecidableEq α] : List α → List α
  | [] => []
  | x :: rest => x :: (firstOccurrences rest).filter (fun y => decide (y ≠ x))

/-! ## Lock discipline -/

/-- A member of `EmulatedController` that holds canonical or shadow state;
`controller` is the record of raw values and reports. -/
inductive Member where
  | is_configuring
  | is_connected
  | tmp_is_connected
  | npad_type
  | tmp_npad_type
  | supported_style_tag
  | controller
  deriving DecidableEq, Repr

/-- One read or write of a member by a statement of a member function.
`lock_held` records whether the statement lies inside the scope of a
`std::lock_guard`. -/
structure Access where
  member : Member
  write : Bool
  lock_held : Bool
  deriving DecidableEq, Repr

/-- The reads and writes of `EnableConfiguration` (lines 327-331), in order. The
function has no `std::lock_guard`. -/
def EnableConfiguration.accesses : List Access :=
  [{ member := Member.is_configuring, write := true, lock_held := false },
   { member := Member.is_connected, write := false, lock_held := false },
   { member := Member.tmp_is_connected, write := true, lock_held := false },
   { member := Member.npad_type, write := false, lock_held := false },
   { member := Member.tmp_npad_type, write := true, lock_held := false }]

/-- The reads and writes of `DisableConfiguration` up to its first call of another
member function (lines 334-338): the write of the mode flag, the comparison of the
two variants and, when they differ, the read of the connected flag. The function
has no `std::lock_guard`. -/
def DisableConfiguration.accesses (s : EmulatedController) : List Access :=
  [{ member := Member.is_configuring, write := true, lock_held := false },
   { member := Member.tmp_npad_type, write := false, lock_held := false },
   { member := Member.npad_type, write := false, lock_held := false }] ++
    (if s.tmp_npad_type ≠ s.npad_type then
      [{ member := Member.is_connected, write := false, lock_held := false }]
    else [])

/-- The reads and writes of `SetSupportedNpadStyleTag` up to its first call of
another member function (lines 878-879). The function has no `std::lock_guard`. -/
def SetSupportedNpadStyleTag.accesses : List Access :=
  [{ member := Member.supported_style_tag, write := true, lock_held := false },
   { member := Member.is_connected, write := false, lock_held := false }]

/-- The read of the accessors `GetButtonsValues` to `GetBatteryValues`, `GetColors`
and `GetBattery` (lines 1056-1078 and 1127-1133), each of which returns a field of
`controller`. None has a `std::lock_guard`. -/
def GetButtonsValues.accesses : List Access :=
  [{ member := Member.controller, write := false, lock_held := false }]

/-- The reads of the report accessors `GetNpadButtons`, `GetDebugPadButtons`,
`GetSticks` and `GetTriggers` (lines 1080-1113): the mode flag and, outside
configuration mode, a report of `controller`. None has a `std::lock_guard`. -/
def GetNpadButtons.accesses (s : EmulatedController) : List Access :=
  { member := Member.is_configuring, write := false, lock_held := false } ::
    (if s.is_configuring then []
    else [{ member := Member.controller, write := false, lock_held := false }])

/-- The reads and writes of `SetNpadStyleIndex` (lines 1008-1031), all of them
inside the block of its `std::lock_guard` (line 1010). -/
def SetNpadStyleIndex.accesses (s : EmulatedController) (npad_type_ : NpadStyleIndex) :
    List Access :=
  { member := Member.is_configuring, write := false, lock_held := true } ::
    (if s.is_configuring then
      { member := Member.tmp_npad_type, write := false, lock_held := true } ::
        (if s.tmp_npad_type = npad_type_ then []
        else [{ member := Member.tmp_npad_type, write := true, lock_held := true }])
    else
      { member := Member.npad_type, write := false, lock_held := true } ::
        (if s.npad_type = npad_type_ then []
        else
          [{ member := Member.is_connected, write := false, lock_held := true },
           { member := Member.npad_type, write := true, lock_held := true }]))

/-! ## A configuration session -/

/-- A call made on the controller while it is in configuration mode: `Connect`,
`Disconnect` or `SetNpadStyleIndex`, with its argument. -/
inductive ConfigurationCall where
  | Connect (use_temporary_value : Bool)
  | Disconnect
  | SetNpadStyleIndex (npad_type_ : NpadStyleIndex)
  deriving DecidableEq, Repr

/-- The outcome of one call. -/
def ConfigurationCall.run (s : EmulatedController) : ConfigurationCall → Outcome
  | ConfigurationCall.Connect use_temporary_value => Core.HID.Connect s use_temporary_value
  | ConfigurationCall.Disconnect => Core.HID.Disconnect s
  | ConfigurationCall.SetNpadStyleIndex npad_type_ => Core.HID.SetNpadStyleIndex s npad_type_

/-- The state after a sequence of calls. -/
def ConfigurationCall.runAll (s : EmulatedController) (calls : List ConfigurationCall) :
    EmulatedController :=
  calls.foldl (fun st c => (c.run st).1) s

/-- The states passed through by a sequence of calls: the state after each call. -/
def ConfigurationCall.states (s : EmulatedController) :
    List ConfigurationCall → List EmulatedController
  | [] => []
  | c :: cs => (c.run s).1 :: ConfigurationCall.states (c.run s).1 cs

/-- The states passed through by `DisableConfiguration` (lines 333-352), one per
statement that can write the state: after clearing `is_configuring`, after the
`Disconnect` of line 339, after the `SetNpadStyleIndex` of line 341 and after the
`Connect` or `Disconnect` of lines 347-350. A statement that is not executed
repeats the previous state. -/
def DisableConfiguration.states (s : EmulatedController) : List EmulatedController :=
  let s0 := { s with is_configuring := false }
  let s1 := if s0.tmp_npad_type ≠ s0.npad_type ∧ s0.is_connected = true then (Disconnect s0).1 else s0
  let s2 := if s0.tmp_npad_type ≠ s0.npad_type then (SetNpadStyleIndex s1 s1.tmp_npad_type).1 else s1
  let s3 := (DisableConfiguration.applyConnected s2).1
  [s0, s1, s2, s3]

/-- The states passed through by a configuration session started in state `s`:
`EnableConfiguration`, then `calls`, then `DisableConfiguration`. -/
def configurationSession (s : EmulatedController) (calls : List ConfigurationCall) :
    List EmulatedController :=
  EnableConfiguration s :: ConfigurationCall.states (EnableConfiguration s) calls ++
    DisableConfiguration.states (ConfigurationCall.runAll (EnableConfiguration s) calls)

/-- The pair (connection flag, variant) of the canonical state is valid: a
connected controller has a variant that the capability set supports. -/
def canonicalValid (s : EmulatedController) : Prop :=
  s.is_connected = true → IsControllerSupported.flag s.supported_style_tag s.npad_type = true

/-! ## Worked-example inputs -/

/-- Enumerator values for the worked examples: the buttons numbered in the order
in which `LoadTASParams` and the `switch` of `SetButton` list them. -/
def NativeButton.listed : NativeButton.Values
  | 0 => some NativeButton.A
  | 1 => some NativeButton.B
  | 2 => some NativeButton.X
  | 3 => some NativeButton.Y
  | 4 => some NativeButton.LStick
  | 5 => some NativeButton.RStick
  | 6 => some NativeButton.L
  | 7 => some NativeButton.R
  | 8 => some NativeButton.ZL
  | 9 => some NativeButton.ZR
  | 10 => some NativeButton.Plus
  | 11 => some NativeButton.Minus
  | 12 => some NativeButton.DLeft
  | 13 => some NativeButton.DUp
  | 14 => some NativeButton.DRight
  | 15 => some NativeButton.DDown
  | 16 => some NativeButton.SL
  | 17 => some NativeButton.SR
  | 18 => some NativeButton.Home
  | 19 => some NativeButton.Screenshot
  | _ => none

/-- Enumerator values for the worked examples: `LStick`, then `RStick`. -/
def NativeAnalog.listed : NativeAnalog.Values
  | 0 => some NativeAnalog.LStick
  | 1 => some NativeAnalog.RStick
  | _ => none

/-- A Player 1 Pro controller with every variant flag of interest supported, two
buttons, two sticks and one subscriber; not connected, not configuring. Button 0 is
held by source `1`. -/
def exampleController : EmulatedController :=
  { npad_id_type := NpadIdType.Player1,
    npad_type := NpadStyleIndex.ProController,
    tmp_npad_type := NpadStyleIndex.ProController,
    supported_style_tag := { fullkey := true, handheld := true },
    controller :=
      { button_values := [{ uuid := 1, value := true }, { uuid := 1 }],
        stick_values := [{ uuid := 1 }, { uuid := 1 }] },
    callback_list := [(0, { on_change := true, is_npad_service := true })],
    last_callback_key := 1 }

/-- The example controller connected and in configuration mode, with a shadow that
asks for a connected Handheld variant. -/
def exampleConfiguring : EmulatedController :=
  { exampleController with
    is_connected := true, is_configuring := true,
    tmp_npad_type := NpadStyleIndex.Handheld, tmp_is_connected := true }

/-- The configuring example controller with button `A` shown as held in both
bitsets of the canonical button report. -/
def exampleHeldConfiguring : EmulatedController :=
  { exampleConfiguring with
    controller :=
      { exampleConfiguring.controller with
        npad_button_state := { a := true }, debug_pad_button_state := { a := true } } }

/-- The header defaults for the worked examples: every omitted
`use_temporary_value` is `false`. -/
def DefaultArguments.listed : DefaultArguments :=
  { IsControllerSupported := false, IsControllerFullkey := false, Connect := false }

/-- A controller in configuration mode whose canonical state is a connected
GameCube variant, with a disconnected shadow. -/
def exampleGameCubeConfiguring : EmulatedController :=
  { exampleController with
    npad_type := NpadStyleIndex.GameCube, is_connected := true, is_configuring := true,
    tmp_npad_type := NpadStyleIndex.GameCube, tmp_is_connected := true,
    supported_style_tag := { gamecube := true } }

/-- A controller in configuration mode whose canonical state is disconnected and
whose shadow is a connected GameCube variant. -/
def exampleGameCubeShadow : EmulatedController :=
  { exampleController with
    npad_type := NpadStyleIndex.GameCube, is_connected := false, is_configuring := true,
    tmp_npad_type := NpadStyleIndex.GameCube, tmp_is_connected := true,
    supported_style_tag := { gamecube := true } }

/-- An output device that accepts every vibration command. -/
def exampleOutput : OutputDevice :=
  { SetVibration := fun _ => VibrationError.None }

/-- An output device that accepts a vibration command only when its low amplitude
is zero, and answers any other command with an error. -/
def exampleZeroOnlyOutput : OutputDevice :=
  { SetVibration := fun status =>
      match status.low_amplitude with
      | F32.finite 0 _ => VibrationError.None
      | _ => VibrationError.Unlisted 1 }

/-- A neutral vibration for the worked examples: both amplitudes zero, with the
frequencies of the test pulse. -/
def exampleNeutralVibration : VibrationValue :=
  { low_amplitude := F32.finite 0 0, low_frequency := F32.finite 160 0,
    high_amplitude := F32.finite 0 0, high_frequency := F32.finite 320 0 }

/-- Index values for the worked examples: `LeftIndex`, `RightIndex`, `DualIndex`
numbered from zero. -/
def DeviceIndex.listed : DeviceIndex.Values
  | 0 => some DeviceIndex.LeftIndex
  | 1 => some DeviceIndex.RightIndex
  | 2 => some DeviceIndex.DualIndex
  | _ => none

/-- The example controller with three battery channels. -/
def exampleBattery : EmulatedController :=
  { exampleController with
    controller :=
      { exampleController.controller with
        battery_values := [BatteryLevel.None, BatteryLevel.None, BatteryLevel.None] } }

/-- A registry of three subscribers: a service-internal one, a plain one and one
without a callable. -/
def exampleRegistry : EmulatedController :=
  { exampleController with
    callback_list :=
      [(0, { on_change := true, is_npad_service := true }),
       (1, { on_change := true, is_npad_service := false }),
       (2, { on_change := false, is_npad_service := false })],
    last_callback_key := 3 }

/-- The three-subscriber registry on a controller in configuration mode, with
three battery channels. -/
def exampleRegistryConfiguring : EmulatedController :=
  { exampleRegistry with
    is_configuring := true,
    controller :=
      { exampleRegistry.controller with
        battery_values := [BatteryLevel.None, BatteryLevel.None, BatteryLevel.None] } }

/-- The example controller with button 0 latched by a toggle-mode press that is
still held: value set and locked. -/
def exampleLocked : EmulatedController :=
  { exampleController with
    controller :=
      { exampleController.controller with
        button_values := [{ uuid := 1, value := true, toggle := true, locked := true }] } }

/-- Positions for the worked examples: the buttons as in `NativeButton.listed`,
`LeftIndex` and `RightIndex` as in `DeviceIndex.listed`. -/
def LoadDevices.Constants.listed : LoadDevices.Constants :=
  { DRight := 14, A := 0, ZL := 8, ZR := 9, LeftIndex := 0, RightIndex := 1 }

/-- Device tables with twenty mapped buttons and empty handles on two trigger, two
battery and two output channels, as after `UnloadInput`. An input device is
stood for by the descriptor it was created from. -/
def exampleTables : DeviceTables ParamPackage :=
  { button_params := List.replicate 20 [("engine", "keyboard")],
    trigger_params := [[], []],
    battery_params := [[], []],
    output_params := [[], []],
    trigger_devices := [none, none],
    battery_devices := [none, none],
    output_devices := [none, none] }

/-- Button descriptors for the worked example: two bindings of one pad (the port
written once as `1` and once as ` +01x`), one without an engine, a keyboard key and
an `analog_from_button` engine. -/
def exampleButtonParams : List ParamPackage :=
  [[("engine", "sdl"), ("guid", "a"), ("port", "1"), ("button", "0")],
   [("code", "65")],
   [("engine", "sdl"), ("guid", "a"), ("port", " +01x"), ("button", "1")],
   [("engine", "keyboard"), ("code", "66")],
   [("engine", "analog_from_button")]]

/-- Stick descriptors for the worked example: a stick made of buttons, a stick of
the pad that the buttons already use, and a stick of another pad. -/
def exampleStickParams : List ParamPackage :=
  [[("engine", "analog_from_button"), ("up", "x")],
   [("engine", "sdl"), ("guid", "a"), ("port", "1"), ("axis_x", "0")],
   [("engine", "sdl"), ("guid", "b"), ("port", "-3")]]

/-- An arrangement for the worked examples: the entry added last is iterated
first, as in a hash map that links a new node at the head of its node list. -/
def callback_list.Arrangement.newest_first : callback_list.Arrangement :=
  fun l => l.getLast?.toList ++ l.dropLast

/-- An arrangement for the worked examples: the entries in ascending order of
their keys, as in a map ordered by key. -/
def callback_list.Arrangement.by_key : callback_list.Arrangement :=
  fun l => l.insertionSort (fun p q => p.1 ≤ q.1)

/-- The example controller as constructed: no subscriber, key counter `0`. -/
def exampleFresh : EmulatedController :=
  { exampleController with callback_list := [], last_callback_key := 0 }

/-- Five subscribers that hold a callable; the third is service-internal. -/
def exampleSubscribers : List ControllerUpdateCallback :=
  [{ on_change := true, is_npad_service := false },
   { on_change := true, is_npad_service := false },
   { on_change := true, is_npad_service := true },
   { on_change := true, is_npad_service := false },
   { on_change := true, is_npad_service := false }]

/-! ## Frame lemmas -/

/-- `Connect` never writes the controller record. -/
theorem Connect_controller (s : EmulatedController) (u : Bool) :
    (Connect s u).1.controller = s.controller := by
  unfold Connect; split_ifs <;> rfl

/-- The `switch` of `SetButton` writes report bits only. -/
theorem SetButton.assign_button_values (N : NativeButton.Values) (index : Nat) (value : Bool)
    (c : ControllerStatus) : (SetButton.assign N index value c).button_values = c.button_values := by
  unfold SetButton.assign
  cases N index with
  | none => rfl
  | some b => cases b <;> rfl

/-- The automatic connection never writes the controller record. -/
theorem SetButton.autoConnect_controller (s : EmulatedController) :
    (SetButton.autoConnect s).1.controller = s.controller := by
  simp only [SetButton.autoConnect]
  split_ifs <;> simp only [Connect_controller]

/-- An accepted `SetButton` stores the merged record at `index`, whatever branch
it then takes. -/
theorem SetButton_button_values (N : NativeButton.Values) (s : EmulatedController)
    (new_status : ButtonStatus) (index : Nat) (uuid : UUID) (current_status : ButtonStatus)
    (hcur : s.controller.button_values[index]? = some current_status)
    (hacc : current_status.uuid = uuid ∨ new_status.value = true) :
    (SetButton N s new_status index uuid).1.controller.button_values =
      s.controller.button_values.set index (SetButton.update current_status new_status uuid).1 := by
  have hrej : ¬ (current_status.uuid ≠ uuid ∧ new_status.value = false) := by
    rintro ⟨h1, h2⟩
    rcases hacc with h | h
    · exact h1 h
    · rw [h2] at h; exact Bool.noConfusion h
  unfold SetButton
  simp only [hcur, hrej, if_false]
  split_ifs <;>
    simp [SetButton.autoConnect_controller, SetButton.assign_button_values]

/-- The record at `index` after an accepted `SetButton`. -/
theorem SetButton_button_get (N : NativeButton.Values) (s : EmulatedController)
    (new_status : ButtonStatus) (index : Nat) (uuid : UUID) (current_status : ButtonStatus)
    (hcur : s.controller.button_values[index]? = some current_status)
    (hacc : current_status.uuid = uuid ∨ new_status.value = true) :
    (SetButton N s new_status index uuid).1.controller.button_values[index]? =
      some (SetButton.update current_status new_status uuid).1 := by
  rw [SetButton_button_values N s new_status index uuid current_status hcur hacc]
  have hlt : index < s.controller.button_values.length := by
    rcases List.getElem?_eq_some_iff.mp hcur with ⟨h, _⟩
    exact h
  simp [List.getElem?_set, hlt]

/-- The merged record is owned by the source of the accepted signal. -/
theorem SetButton.update_uuid (current_status new_status : ButtonStatus) (uuid : UUID) :
    (SetButton.update current_status new_status uuid).1.uuid = uuid := by
  simp only [SetButton.update]
  split_ifs <;> rfl

/-- Every invocation made by `TriggerOnChange` is of a registered subscriber that
holds a callable, carries the kind passed, and, for a preview-only update, is of a
subscriber that is not service-internal. -/
theorem TriggerOnChange.loop_mem (type : ControllerTriggerType) (a b : Bool)
    (l : List (Int × ControllerUpdateCallback)) (e : Invocation)
    (he : e ∈ TriggerOnChange.loop type a b l) :
    (e.key, e.poller) ∈ l ∧ e.type = type ∧ e.lock_held = b ∧ e.poller.on_change = true ∧
      (a = false → e.poller.is_npad_service = false) := by
  induction l with
  | nil => simp [TriggerOnChange.loop] at he
  | cons p rest ih =>
    simp only [TriggerOnChange.loop] at he
    split_ifs at he with h1 h2
    · obtain ⟨i1, i2, i3, i4, i5⟩ := ih he
      exact ⟨List.mem_cons_of_mem _ i1, i2, i3, i4, i5⟩
    · rcases List.mem_cons.mp he with h | h
      · subst h
        refine ⟨by simp, rfl, rfl, h2, ?_⟩
        intro ha
        subst ha
        simpa using h1
      · obtain ⟨i1, i2, i3, i4, i5⟩ := ih h
        exact ⟨List.mem_cons_of_mem _ i1, i2, i3, i4, i5⟩
    · obtain ⟨i1, i2, i3, i4, i5⟩ := ih he
      exact ⟨List.mem_cons_of_mem _ i1, i2, i3, i4, i5⟩

/-- A service update invokes a registered subscriber that holds a callable exactly
once, provided the registry keys are distinct. -/
theorem TriggerOnChange.loop_filter_key (type : ControllerTriggerType) (b : Bool)
    (l : List (Int × ControllerUpdateCallback)) (key : Int) (cb : ControllerUpdateCallback)
    (hkeys : (l.map Prod.fst).Nodup) (hsub : (key, cb) ∈ l) (hcb : cb.on_change = true) :
    (TriggerOnChange.loop type true b l).filter (fun e => decide (e.key = key)) =
      [{ key := key, poller := cb, type := type, lock_held := b }] := by
  induction l with
  | nil => simp at hsub
  | cons p rest ih =>
    simp only [List.map_cons, List.nodup_cons] at hkeys
    obtain ⟨hp, hrest⟩ := hkeys
    rcases List.mem_cons.mp hsub with h | h
    · subst h
      have hnone : (TriggerOnChange.loop type true b rest).filter (fun e => decide (e.key = key)) = [] := by
        rw [List.filter_eq_nil_iff]
        intro e he
        have := (TriggerOnChange.loop_mem type true b rest e he).1
        have hk : e.key ∈ rest.map Prod.fst := List.mem_map.mpr ⟨_, this, rfl⟩
        intro hek
        simp only [decide_eq_true_eq] at hek
        rw [hek] at hk
        exact hp hk
      simp [TriggerOnChange.loop, hcb, hnone]
    · have hne : p.1 ≠ key := by
        intro hpk
        apply hp
        rw [hpk]
        exact List.mem_map.mpr ⟨_, h, rfl⟩
      have := ih hrest h
      simp only [TriggerOnChange.loop]
      split_ifs <;> simp [this, hne]


/-- Outside configuration mode the automatic connection of `SetButton` sets the
connection flag, with one `Connected` notification, exactly in the listed case. -/
theorem SetButton.autoConnect_eq (s : EmulatedController) (hcfg : s.is_configuring = false) :
    SetButton.autoConnect s =
      if SetButton.autoConnects s = true then
        ({ s with is_connected := true },
          TriggerOnChange s ControllerTriggerType.Connected true false)
      else (s, []) := by
  cases hconn : s.is_connected with
  | true => simp [SetButton.autoConnect, SetButton.autoConnects, hconn]
  | false =>
    cases hsup : IsControllerSupported s false with
    | false =>
      simp only [SetButton.autoConnect, SetButton.autoConnects, Connect, hconn, hsup, hcfg]
      split_ifs <;> simp_all
    | true =>
      simp only [SetButton.autoConnect, SetButton.autoConnects, Connect, hconn, hsup, hcfg,
        TriggerOnChange]
      split_ifs
      all_goals (try simp_all)
      all_goals tauto

/-- Without the temporary value, `IsControllerSupported` reads the canonical
variant and the capability set only. -/
theorem IsControllerSupported_canonical_congr (s t : EmulatedController)
    (h1 : t.npad_type = s.npad_type) (h2 : t.supported_style_tag = s.supported_style_tag) :
    IsControllerSupported t false = IsControllerSupported s false := by
  simp [IsControllerSupported, h1, h2]

/-- `SetButton.autoConnects` reads the connection flag, the slot, the canonical
variant and the capability set only. -/
theorem SetButton.autoConnects_congr (s t : EmulatedController)
    (h0 : t.is_connected = s.is_connected) (h1 : t.npad_id_type = s.npad_id_type)
    (h2 : t.npad_type = s.npad_type) (h3 : t.supported_style_tag = s.supported_style_tag) :
    SetButton.autoConnects t = SetButton.autoConnects s := by
  simp only [SetButton.autoConnects, h0, h1, h2, IsControllerSupported_canonical_congr s t h2 h3]

/-- The outcome of an accepted, value-changing `SetButton` outside configuration
mode: the record is stored, the report bits assigned, the controller connected
when `SetButton.autoConnects`, and `Connected` (if any) precedes `Button`. -/
theorem SetButton_changed (N : NativeButton.Values) (s : EmulatedController)
    (new_status : ButtonStatus) (index : Nat) (uuid : UUID) (current_status : ButtonStatus)
    (hcfg : s.is_configuring = false)
    (hcur : s.controller.button_values[index]? = some current_status)
    (hacc : current_status.uuid = uuid ∨ new_status.value = true)
    (hchanged : (SetButton.update current_status new_status uuid).2 = true) :
    (SetButton N s new_status index uuid).1.is_configuring = false ∧
      (SetButton N s new_status index uuid).1.callback_list = s.callback_list ∧
      (SetButton N s new_status index uuid).1.npad_id_type = s.npad_id_type ∧
      (SetButton N s new_status index uuid).1.npad_type = s.npad_type ∧
      (SetButton N s new_status index uuid).1.supported_style_tag = s.supported_style_tag ∧
      (SetButton N s new_status index uuid).1.is_connected =
        (s.is_connected || SetButton.autoConnects s) ∧
      (SetButton N s new_status index uuid).2 =
        (if SetButton.autoConnects s = true then
            TriggerOnChange s ControllerTriggerType.Connected true false else []) ++
          TriggerOnChange s ControllerTriggerType.Button true false := by
  have hrej : ¬ (current_status.uuid ≠ uuid ∧ new_status.value = false) := by
    rintro ⟨h1, h2⟩
    rcases hacc with h | h
    · exact h1 h
    · rw [h2] at h; exact Bool.noConfusion h
  simp only [SetButton, hcur, hrej, if_false, hchanged, hcfg, Bool.not_true, Bool.false_eq_true]
  have hauto : ∀ c : ControllerStatus,
      SetButton.autoConnects { s with is_configuring := false, controller := c } =
        SetButton.autoConnects s :=
    fun c => SetButton.autoConnects_congr s _ rfl rfl rfl rfl
  rw [SetButton.autoConnect_eq _ rfl, hauto]
  cases h : SetButton.autoConnects s
  · simp [TriggerOnChange, hcfg]
  · simp [TriggerOnChange, hcfg]


/-- In configuration mode a call keeps the mode and every canonical field that
`canonicalValid` reads. -/
theorem ConfigurationCall.run_canonical (s : EmulatedController) (c : ConfigurationCall)
    (hcfg : s.is_configuring = true) :
    (c.run s).1.is_configuring = true ∧ (c.run s).1.is_connected = s.is_connected ∧
      (c.run s).1.npad_type = s.npad_type ∧
      (c.run s).1.supported_style_tag = s.supported_style_tag := by
  cases c with
  | Connect u =>
    simp only [ConfigurationCall.run, Core.HID.Connect, hcfg]
    split_ifs <;> simp [hcfg]
  | Disconnect =>
    simp [ConfigurationCall.run, Core.HID.Disconnect, hcfg]
  | SetNpadStyleIndex t =>
    simp only [ConfigurationCall.run, Core.HID.SetNpadStyleIndex, hcfg]
    split_ifs <;> simp [hcfg]

/-- `canonicalValid` reads the connection flag, the canonical variant and the
capability set only. -/
theorem canonicalValid_congr (s t : EmulatedController) (h0 : t.is_connected = s.is_connected)
    (h1 : t.npad_type = s.npad_type) (h2 : t.supported_style_tag = s.supported_style_tag)
    (h : canonicalValid s) : canonicalValid t := by
  unfold canonicalValid at *
  rw [h0, h1, h2]
  exact h

/-- Calls made in configuration mode keep `canonicalValid` in every state passed
through, and the state they end in is still in configuration mode. -/
theorem ConfigurationCall.calls_keep_valid (calls : List ConfigurationCall) :
    ∀ s : EmulatedController, s.is_configuring = true → canonicalValid s →
      (∀ st ∈ ConfigurationCall.states s calls, canonicalValid st) ∧
        canonicalValid (ConfigurationCall.runAll s calls) := by
  induction calls with
  | nil =>
    intro s _ hv
    exact ⟨by simp [ConfigurationCall.states], hv⟩
  | cons c cs ih =>
    intro s hcfg hv
    obtain ⟨h1, h2, h3, h4⟩ := ConfigurationCall.run_canonical s c hcfg
    have hv1 : canonicalValid (c.run s).1 := canonicalValid_congr s _ h2 h3 h4 hv
    obtain ⟨i1, i2⟩ := ih (c.run s).1 h1 hv1
    refine ⟨?_, i2⟩
    intro st hst
    simp only [ConfigurationCall.states, List.mem_cons] at hst
    rcases hst with h | h
    · rw [h]; exact hv1
    · exact i1 st h

/-- The last state listed by `DisableConfiguration.states` is the state that
`DisableConfiguration` returns. -/
theorem DisableConfiguration.states_getLast (s : EmulatedController) :
    (DisableConfiguration.states s).getLast? = some (DisableConfiguration s).1 := by
  obtain ⟨id, ty, tty, conn, tconn, cfg, tag, ctl, cbs, last⟩ := s
  by_cases hdiff : tty = ty
  · subst hdiff
    simp [DisableConfiguration.states, DisableConfiguration, DisableConfiguration.applyType]
  · cases conn <;>
      simp [DisableConfiguration.states, DisableConfiguration, DisableConfiguration.applyType, hdiff]

/-- `DisableConfiguration` keeps `canonicalValid` in every state it passes through. -/
theorem DisableConfiguration.statements_keep_valid (s : EmulatedController) (hv : canonicalValid s) :
    ∀ st ∈ DisableConfiguration.states s, canonicalValid st := by
  obtain ⟨id, ty, tty, conn, tconn, cfg, tag, ctl, cbs, last⟩ := s
  simp only [canonicalValid] at hv
  by_cases hdiff : tty = ty
  · subst hdiff
    cases conn <;> cases tconn <;> cases hsup : IsControllerSupported.flag tag tty <;>
      simp_all [DisableConfiguration.states, DisableConfiguration.applyConnected, Connect,
        Disconnect, SetNpadStyleIndex, IsControllerSupported, canonicalValid]
  · have hdiff1 : ¬ ty = tty := fun h => hdiff h.symm
    cases conn <;> cases tconn <;> cases hsup : IsControllerSupported.flag tag tty <;>
      simp_all [DisableConfiguration.states, DisableConfiguration.applyConnected, Connect,
        Disconnect, SetNpadStyleIndex, IsControllerSupported, canonicalValid]

/-- The full-key family of `IsControllerFullkey`, outside configuration mode. -/
theorem IsControllerFullkey_canonical (s : EmulatedController) (u : Bool)
    (hcfg : s.is_configuring = false) :
    IsControllerFullkey s u = true ↔
      s.npad_type ∈ [NpadStyleIndex.ProController, NpadStyleIndex.GameCube, NpadStyleIndex.NES,
        NpadStyleIndex.SNES, NpadStyleIndex.N64, NpadStyleIndex.SegaGenesis] := by
  simp only [IsControllerFullkey, hcfg, Bool.false_and, Bool.false_eq_true, if_false]
  cases s.npad_type <;> simp

/-- The outcome of `SetSupportedNpadStyleTag` outside configuration mode, by
cases on the connection flag, the support of the variant by the new set, the
full-key family and the `fullkey` flag. -/
theorem SetSupportedNpadStyleTag_canonical (D : DefaultArguments) (s : EmulatedController)
    (supported_styles : NpadStyleTag) (hcfg : s.is_configuring = false) :
    (SetSupportedNpadStyleTag D s supported_styles).1 =
      if s.is_connected = false ∨ IsControllerSupported.flag supported_styles s.npad_type = true then
        { s with supported_style_tag := supported_styles }
      else if IsControllerFullkey s false = true ∧ supported_styles.fullkey = true then
        { s with supported_style_tag := supported_styles,
                 npad_type := NpadStyleIndex.ProController, is_connected := true }
      else
        { s with supported_style_tag := supported_styles, is_connected := false } := by
  obtain ⟨id, ty, tty, conn, tconn, cfg, tag, ctl, cbs, last⟩ := s
  simp only at hcfg
  subst hcfg
  cases conn
  · simp [SetSupportedNpadStyleTag]
  · cases hsup : IsControllerSupported.flag supported_styles ty
    · cases hfk : supported_styles.fullkey
      · simp [SetSupportedNpadStyleTag, IsControllerSupported, hsup, Disconnect, hfk]
      · cases hfam : IsControllerFullkey
            { npad_id_type := id, npad_type := ty, tmp_npad_type := tty, is_connected := true,
              tmp_is_connected := tconn, is_configuring := false, supported_style_tag := tag,
              controller := ctl, callback_list := cbs, last_callback_key := last } false
        · have hfam1 : ∀ (c : Bool) (t : NpadStyleTag) (u : Bool), IsControllerFullkey
              { npad_id_type := id, npad_type := ty, tmp_npad_type := tty, is_connected := c,
                tmp_is_connected := tconn, is_configuring := false, supported_style_tag := t,
                controller := ctl, callback_list := cbs, last_callback_key := last } u = false :=
            fun _ _ _ => hfam
          simp [SetSupportedNpadStyleTag, IsControllerSupported, hsup, Disconnect, hfk, hfam1]
        · have hfam1 : ∀ (c : Bool) (t : NpadStyleTag) (u : Bool), IsControllerFullkey
              { npad_id_type := id, npad_type := ty, tmp_npad_type := tty, is_connected := c,
                tmp_is_connected := tconn, is_configuring := false, supported_style_tag := t,
                controller := ctl, callback_list := cbs, last_callback_key := last } u = true :=
            fun _ _ _ => hfam
          have hne : ty ≠ NpadStyleIndex.ProController := by
            intro h
            rw [h] at hsup
            simp only [IsControllerSupported.flag] at hsup
            rw [hsup] at hfk
            exact Bool.noConfusion hfk
          have hpro : IsControllerSupported.flag supported_styles NpadStyleIndex.ProController =
              true := hfk
          simp [SetSupportedNpadStyleTag, IsControllerSupported, hsup, Disconnect, hfk, hfam1,
            SetNpadStyleIndex, Connect, hne, hpro]
    · simp [SetSupportedNpadStyleTag, IsControllerSupported, hsup]

/-- For a configured strength of 0 to 100 the local `strength` of `SetVibration`
is finite and not negative, and it is above `0.7f` exactly from 71 on. -/
theorem SetVibration.strength_table (s : Int) (h0 : 0 ≤ s) (h100 : s ≤ 100) :
    F32.isFiniteNonneg (F32.div (F32.ofS32 s) (F32.finite 100 0)) = true ∧
      F32.lt F32.lit_0_7 (F32.div (F32.ofS32 s) (F32.finite 100 0)) = decide (70 < s) := by
  interval_cases s <;> decide

/-- Rounding keeps a number that is not negative finite and not negative, unless
it overflows to the positive infinity. -/
theorem F32.round_nonneg (m e : Int) (hm : 0 ≤ m) :
    F32.round m e = F32.inf false ∨ F32.isFiniteNonneg (F32.round m e) = true := by
  have hneg : ¬ m < 0 := not_lt.mpr hm
  simp only [F32.round, hneg, decide_False, if_false]
  split_ifs <;> first
    | exact Or.inl rfl
    | exact Or.inr (by
        simp only [F32.isFiniteNonneg, decide_eq_true_eq]
        first | exact hm | exact Int.natCast_nonneg _)

/-- The result of `std::min(x, 1.0f)` is never above `1.0f`. -/
theorem F32.stdMin_one_not_above (x : F32) :
    F32.lt (F32.finite 1 0) (F32.stdMin x (F32.finite 1 0)) = false := by
  unfold F32.stdMin
  cases h : F32.lt (F32.finite 1 0) x
  · simp [h]
  · simp only [if_true]
    decide

/-- A product of two finite `float`s that are not negative, capped by
`std::min(_, 1.0f)`, is not below zero. -/
theorem F32.stdMin_mul_not_below (a b : F32) (ha : F32.isFiniteNonneg a = true)
    (hb : F32.isFiniteNonneg b = true) :
    F32.lt (F32.stdMin (F32.mul a b) (F32.finite 1 0)) (F32.finite 0 0) = false := by
  cases a with
  | finite m1 e1 =>
    cases b with
    | finite m2 e2 =>
      simp only [F32.isFiniteNonneg, decide_eq_true_eq] at ha hb
      have hm : 0 ≤ m1 * m2 := mul_nonneg ha hb
      simp only [F32.mul]
      rcases F32.round_nonneg (m1 * m2) (e1 + e2) hm with h | h
      · rw [h]
        decide
      · cases hr : F32.round (m1 * m2) (e1 + e2) with
        | finite m3 e3 =>
          rw [hr] at h
          simp only [F32.isFiniteNonneg, decide_eq_true_eq] at h
          unfold F32.stdMin
          split_ifs
          · decide
          · simp only [F32.lt, zero_mul, decide_eq_false_iff_not, not_lt]
            positivity
        | inf n => rw [hr] at h; exact absurd h (by simp [F32.isFiniteNonneg])
        | nan => rw [hr] at h; exact absurd h (by simp [F32.isFiniteNonneg])
    | inf n => exact absurd hb (by simp [F32.isFiniteNonneg])
    | nan => exact absurd hb (by simp [F32.isFiniteNonneg])
  | inf n => exact absurd ha (by simp [F32.isFiniteNonneg])
  | nan => exact absurd ha (by simp [F32.isFiniteNonneg])

/-- The loop of `TriggerOnChange` as a selection: the entries accepted by the
update that hold a callable, each turned into one invocation, in registry order. -/
theorem TriggerOnChange.loop_eq_filter (type : ControllerTriggerType) (u b : Bool)
    (l : List (Int × ControllerUpdateCallback)) :
    TriggerOnChange.loop type u b l =
      (l.filter (fun p => (u || !p.2.is_npad_service) && p.2.on_change)).map
        (fun p => { key := p.1, poller := p.2, type := type, lock_held := b }) := by
  induction l with
  | nil => rfl
  | cons p rest ih =>
    simp only [TriggerOnChange.loop, List.filter_cons]
    cases u <;> cases h1 : p.2.is_npad_service <;> cases h2 : p.2.on_change <;> simp [ih]

/-- The loop of `TriggerOnChange` over two registries in a row. -/
theorem TriggerOnChange.loop_append (type : ControllerTriggerType) (u b : Bool)
    (l1 l2 : List (Int × ControllerUpdateCallback)) :
    TriggerOnChange.loop type u b (l1 ++ l2) =
      TriggerOnChange.loop type u b l1 ++ TriggerOnChange.loop type u b l2 := by
  simp only [TriggerOnChange.loop_eq_filter, List.filter_append, List.map_append]

/-- A key that is not in the registry is added, and the registry then iterates as
the arrangement says. -/
theorem callback_list.insert_or_assign_fresh (arrange : callback_list.Arrangement)
    (l : List (Int × ControllerUpdateCallback))
    (key : Int) (cb : ControllerUpdateCallback) (hfresh : ∀ p ∈ l, p.1 ≠ key) :
    callback_list.insert_or_assign arrange l key cb = arrange (l ++ [(key, cb)]) := by
  unfold callback_list.insert_or_assign
  have h : l.any (fun p => decide (p.1 = key)) = false := by
    rw [List.any_eq_false]
    intro p hp
    simpa using hfresh p hp
  rw [h]
  rfl

/-- The keys returned by a sequence of registrations are consecutive, from the
counter on. -/
theorem SetCallback.all_keys (arrange : callback_list.Arrangement)
    (cbs : List ControllerUpdateCallback) :
    ∀ s : EmulatedController,
      (SetCallback.all arrange s cbs).2 =
        (List.range cbs.length).map (fun i : Nat => s.last_callback_key + (i : Int)) := by
  induction cbs with
  | nil =>
    intro s
    simp [SetCallback.all]
  | cons cb rest ih =>
    intro s
    have hkey : (SetCallback arrange s cb).1.last_callback_key = s.last_callback_key + 1 := rfl
    have hret : (SetCallback arrange s cb).2 = s.last_callback_key := rfl
    simp only [SetCallback.all, ih, hkey, hret, List.length_cons, List.range_succ_eq_map,
      List.map_cons, List.map_map]
    congr 1
    · simp
    · apply List.map_congr_left
      intro i _
      simp only [Function.comp, Nat.cast_succ]
      ring

/-- A sequence of registrations on a registry whose keys are below the counter
adds the subscribers under the keys returned: the registry holds the old entries
and the new ones, each once, in the order its container gives. -/
theorem SetCallback.all_perm (arrange : callback_list.Arrangement)
    (harr : ∀ l, (arrange l).Perm l) (cbs : List ControllerUpdateCallback) :
    ∀ s : EmulatedController, (∀ p ∈ s.callback_list, p.1 < s.last_callback_key) →
      ((SetCallback.all arrange s cbs).1.callback_list).Perm
        (s.callback_list ++ (SetCallback.all arrange s cbs).2.zip cbs) := by
  induction cbs with
  | nil =>
    intro s _
    simp [SetCallback.all]
  | cons cb rest ih =>
    intro s hs
    have hfresh : ∀ p ∈ s.callback_list, p.1 ≠ s.last_callback_key :=
      fun p hp => ne_of_lt (hs p hp)
    have hlist : (SetCallback arrange s cb).1.callback_list =
        arrange (s.callback_list ++ [(s.last_callback_key, cb)]) :=
      callback_list.insert_or_assign_fresh _ _ _ _ hfresh
    have hperm : ((SetCallback arrange s cb).1.callback_list).Perm
        (s.callback_list ++ [(s.last_callback_key, cb)]) := by
      rw [hlist]
      exact harr _
    have hkey : (SetCallback arrange s cb).1.last_callback_key = s.last_callback_key + 1 := rfl
    have hs1 : ∀ p ∈ (SetCallback arrange s cb).1.callback_list,
        p.1 < (SetCallback arrange s cb).1.last_callback_key := by
      intro p hp
      rw [hkey]
      rcases List.mem_append.mp (hperm.mem_iff.mp hp) with h | h
      · have := hs p h
        omega
      · simp only [List.mem_singleton] at h
        rw [h]
        simp
    have hret : (SetCallback arrange s cb).2 = s.last_callback_key := rfl
    have i2 := ih (SetCallback arrange s cb).1 hs1
    simp only [SetCallback.all, hret, List.zip_cons_cons]
    refine i2.trans ?_
    have := hperm.append_right
      ((SetCallback.all arrange (SetCallback arrange s cb).1 rest).2.zip rest)
    simpa only [List.append_assoc, List.singleton_append] using this

/-- On a container that iterates by ascending key, a sequence of registrations on
a registry whose keys ascend below the counter appends the subscribers in the
order given. -/
theorem SetCallback.all_ascending (arrange : callback_list.Arrangement)
    (hasc : ∀ l, (l.map Prod.fst).Pairwise (fun a b => a < b) → arrange l = l)
    (cbs : List ControllerUpdateCallback) :
    ∀ s : EmulatedController, (∀ p ∈ s.callback_list, p.1 < s.last_callback_key) →
      (s.callback_list.map Prod.fst).Pairwise (fun a b => a < b) →
      (SetCallback.all arrange s cbs).1.callback_list =
        s.callback_list ++ (SetCallback.all arrange s cbs).2.zip cbs := by
  induction cbs with
  | nil =>
    intro s _ _
    simp [SetCallback.all]
  | cons cb rest ih =>
    intro s hs hsorted
    have hfresh : ∀ p ∈ s.callback_list, p.1 ≠ s.last_callback_key :=
      fun p hp => ne_of_lt (hs p hp)
    have hsorted1 : ((s.callback_list ++ [(s.last_callback_key, cb)]).map Prod.fst).Pairwise
        (fun a b => a < b) := by
      rw [List.map_append, List.pairwise_append]
      refine ⟨hsorted, by simp, ?_⟩
      intro a ha b hb
      obtain ⟨p, hp, rfl⟩ := List.mem_map.mp ha
      simp only [List.map_cons, List.map_nil, List.mem_singleton] at hb
      rw [hb]
      exact hs p hp
    have hlist : (SetCallback arrange s cb).1.callback_list =
        s.callback_list ++ [(s.last_callback_key, cb)] := by
      rw [← hasc _ hsorted1]
      exact callback_list.insert_or_assign_fresh _ _ _ _ hfresh
    have hkey : (SetCallback arrange s cb).1.last_callback_key = s.last_callback_key + 1 := rfl
    have hs1 : ∀ p ∈ (SetCallback arrange s cb).1.callback_list,
        p.1 < (SetCallback arrange s cb).1.last_callback_key := by
      intro p hp
      rw [hlist] at hp
      rw [hkey]
      rcases List.mem_append.mp hp with h | h
      · have := hs p h
        omega
      · simp only [List.mem_singleton] at h
        rw [h]
        simp
    have hret : (SetCallback arrange s cb).2 = s.last_callback_key := rfl
    have i2 := ih (SetCallback arrange s cb).1 hs1 (by rw [hlist]; exact hsorted1)
    simp only [SetCallback.all, i2, hlist, hret, List.zip_cons_cons, List.append_assoc,
      List.singleton_append]

/-- The newest-first arrangement only reorders the entries. -/
theorem callback_list.Arrangement.newest_first_perm (l : List (Int × ControllerUpdateCallback)) :
    (callback_list.Arrangement.newest_first l).Perm l := by
  unfold callback_list.Arrangement.newest_first
  cases h : l.getLast? with
  | none =>
    rw [List.getLast?_eq_none_iff] at h
    rw [h]
    exact List.Perm.refl _
  | some a =>
    have h1 := List.dropLast_append_getLast? a h
    simp only [Option.toList, List.singleton_append]
    have h2 : (a :: l.dropLast).Perm (l.dropLast ++ [a]) :=
      (List.perm_append_singleton a l.dropLast).symm
    rw [h1] at h2
    exact h2

/-- The by-key arrangement only reorders the entries. -/
theorem callback_list.Arrangement.by_key_perm (l : List (Int × ControllerUpdateCallback)) :
    (callback_list.Arrangement.by_key l).Perm l :=
  List.perm_insertionSort _ l

/-- The by-key arrangement leaves a registry with ascending keys as it is. -/
theorem callback_list.Arrangement.by_key_ascending (l : List (Int × ControllerUpdateCallback))
    (h : (l.map Prod.fst).Pairwise (fun a b => a < b)) :
    callback_list.Arrangement.by_key l = l := by
  unfold callback_list.Arrangement.by_key
  apply List.Sorted.insertionSort_eq
  rw [List.pairwise_map] at h
  exact h.imp (fun hab => le_of_lt hab)

/-- With distinct keys, erasing a key keeps exactly the entries of the other keys. -/
theorem callback_list.erase_eq_filter (l : List (Int × ControllerUpdateCallback)) (key : Int)
    (hkeys : (l.map Prod.fst).Nodup) :
    callback_list.erase l key = l.filter (fun p => decide (p.1 ≠ key)) := by
  induction l with
  | nil => rfl
  | cons p rest ih =>
    simp only [List.map_cons, List.nodup_cons] at hkeys
    obtain ⟨hp, hrest⟩ := hkeys
    simp only [callback_list.erase, List.filter_cons]
    by_cases hk : p.1 = key
    · have hall : rest.filter (fun q => decide (q.1 ≠ key)) = rest := by
        rw [List.filter_eq_self]
        intro q hq
        simp only [ne_eq, decide_not, Bool.not_eq_true', decide_eq_false_iff_not]
        intro hqk
        apply hp
        rw [hk, ← hqk]
        exact List.mem_map.mpr ⟨q, hq, rfl⟩
      rw [if_pos hk, if_neg (by simp [hk]), hall]
    · rw [if_neg hk, if_pos (by simp [hk]), ih hrest]

/-- The local `value_changed` of `SetButton` is set exactly when the merge changes
the stored value. -/
theorem SetButton.update_changed_iff (current_status new_status : ButtonStatus) (uuid : UUID) :
    (SetButton.update current_status new_status uuid).2 = true ↔
      (SetButton.update current_status new_status uuid).1.value ≠ current_status.value := by
  simp only [SetButton.update]
  cases current_status.value <;> cases current_status.locked <;> cases new_status.value <;>
    cases new_status.toggle <;> simp

/-- A `SetButton` whose merge does not change the stored value notifies nobody. -/
theorem SetButton_unchanged_silent (N : NativeButton.Values) (s : EmulatedController)
    (new_status : ButtonStatus) (index : Nat) (uuid : UUID) (current_status : ButtonStatus)
    (hcur : s.controller.button_values[index]? = some current_status)
    (hunchanged : (SetButton.update current_status new_status uuid).2 = false) :
    (SetButton N s new_status index uuid).2 = [] := by
  simp only [SetButton, hcur, hunchanged, Bool.not_false, if_true]
  split_ifs <;> rfl

/-- The outcome of an accepted, value-changing `SetButton` in configuration mode. -/
theorem SetButton_configuring_changed (N : NativeButton.Values) (s : EmulatedController)
    (new_status : ButtonStatus) (index : Nat) (uuid : UUID) (current_status : ButtonStatus)
    (hcfg : s.is_configuring = true)
    (hcur : s.controller.button_values[index]? = some current_status)
    (hacc : current_status.uuid = uuid ∨ new_status.value = true)
    (hchanged : (SetButton.update current_status new_status uuid).2 = true) :
    (SetButton N s new_status index uuid).2 =
      TriggerOnChange s ControllerTriggerType.Button false true := by
  have hrej : ¬ (current_status.uuid ≠ uuid ∧ new_status.value = false) := by
    rintro ⟨h1, h2⟩
    rcases hacc with h | h
    · exact h1 h
    · rw [h2] at h; exact Bool.noConfusion h
  simp only [SetButton, hcur, hrej, if_false, hchanged, hcfg, Bool.not_true, Bool.false_eq_true,
    if_true]
  rfl

/-- The invocations of one `TriggerOnChange` call, selected by kind. -/
theorem TriggerOnChange_filter_type (s : EmulatedController) (type kind : ControllerTriggerType)
    (u b : Bool) :
    (TriggerOnChange s type u b).filter (fun e => decide (e.type = kind)) =
      if type = kind then TriggerOnChange s type u b else [] := by
  split_ifs with h
  · rw [List.filter_eq_self]
    intro e he
    have := (TriggerOnChange.loop_mem type u b s.callback_list e he).2.1
    simp [this, h]
  · rw [List.filter_eq_nil_iff]
    intro e he
    have := (TriggerOnChange.loop_mem type u b s.callback_list e he).2.1
    simp [this, h]

/-- The `Button` invocations of an accepted `SetButton`: those of one
`TriggerOnChange` call when the stored value changed, none otherwise. -/
theorem SetButton_button_invocations (N : NativeButton.Values) (s : EmulatedController)
    (new_status : ButtonStatus) (index : Nat) (uuid : UUID) (current_status : ButtonStatus)
    (hcur : s.controller.button_values[index]? = some current_status)
    (hacc : current_status.uuid = uuid ∨ new_status.value = true) :
    (SetButton N s new_status index uuid).2.filter
        (fun e => decide (e.type = ControllerTriggerType.Button)) =
      if (SetButton.update current_status new_status uuid).1.value ≠ current_status.value then
        TriggerOnChange s ControllerTriggerType.Button (!s.is_configuring) s.is_configuring
      else [] := by
  cases hch : (SetButton.update current_status new_status uuid).2
  · have hne : ¬ (SetButton.update current_status new_status uuid).1.value ≠
        current_status.value := by
      rw [← SetButton.update_changed_iff, hch]
      simp
    rw [if_neg hne, SetButton_unchanged_silent N s new_status index uuid current_status hcur hch]
    rfl
  · have hne := (SetButton.update_changed_iff current_status new_status uuid).mp hch
    rw [if_pos hne]
    cases hcfg : s.is_configuring
    · obtain ⟨_, _, _, _, _, _, c7⟩ :=
        SetButton_changed N s new_status index uuid current_status hcfg hcur hacc hch
      rw [c7, List.filter_append,
        TriggerOnChange_filter_type s ControllerTriggerType.Button ControllerTriggerType.Button,
        if_pos rfl]
      cases hA : SetButton.autoConnects s
      · simp
      · simp [TriggerOnChange_filter_type]
    · rw [SetButton_configuring_changed N s new_status index uuid current_status hcfg hcur hacc
        hch, TriggerOnChange_filter_type]
      simp

/-- The character written for a decimal digit is a digit, reads back as that digit,
and is neither white space nor a sign. -/
theorem std.to_string.digit_char (d : Nat) (hd : d < 10) :
    std.isdigit (Char.ofNat (48 + d)) = true ∧ (Char.ofNat (48 + d)).toNat - 48 = d ∧
      std.isspace (Char.ofNat (48 + d)) = false ∧ Char.ofNat (48 + d) ≠ '-' ∧
      Char.ofNat (48 + d) ≠ '+' := by
  interval_cases d <;> decide

/-- Every character written by `std.to_string.digits` is a digit. -/
theorem std.to_string.digits_all (fuel n : Nat) (acc : List Char)
    (hacc : ∀ c ∈ acc, std.isdigit c = true) :
    ∀ c ∈ std.to_string.digits fuel n acc, std.isdigit c = true := by
  induction fuel generalizing n acc with
  | zero => simpa [std.to_string.digits] using hacc
  | succ fuel ih =>
    have hacc1 : ∀ c ∈ Char.ofNat (48 + n % 10) :: acc, std.isdigit c = true := by
      intro c hc
      rcases List.mem_cons.mp hc with h | h
      · rw [h]
        exact (std.to_string.digit_char (n % 10) (Nat.mod_lt _ (by decide))).1
      · exact hacc c h
    simp only [std.to_string.digits]
    split_ifs
    · exact hacc1
    · exact ih _ _ hacc1

/-- With fuel left, `std.to_string.digits` writes at least one character. -/
theorem std.to_string.digits_ne_nil (fuel n : Nat) (acc : List Char) :
    std.to_string.digits (fuel + 1) n acc ≠ [] := by
  induction fuel generalizing n acc with
  | zero =>
    simp only [std.to_string.digits]
    split_ifs <;> simp
  | succ fuel ih =>
    rw [std.to_string.digits]
    split_ifs
    · simp
    · exact ih _ _

/-- With enough fuel, the digits written for `n` read back as `n`. -/
theorem std.to_string.digits_value (fuel n : Nat) (acc : List Char) (hfuel : n < fuel) :
    (std.to_string.digits fuel n acc).foldl (fun a c => a * 10 + (c.toNat - 48)) 0 =
      acc.foldl (fun a c => a * 10 + (c.toNat - 48)) n := by
  induction fuel generalizing n acc with
  | zero => omega
  | succ fuel ih =>
    have hd := (std.to_string.digit_char (n % 10) (Nat.mod_lt _ (by decide))).2.1
    simp only [std.to_string.digits]
    split_ifs with h
    · rw [List.foldl_cons, hd]
      congr 1
      omega
    · rw [ih (n / 10) _ (by omega), List.foldl_cons, hd]
      congr 1
      omega

/-- A list all of whose elements pass a test is its own longest passing run. -/
theorem takeWhile_eq_self_of_all {α : Type} (p : α → Bool) (l : List α)
    (h : ∀ x ∈ l, p x = true) : l.takeWhile p = l := by
  induction l with
  | nil => rfl
  | cons x rest ih =>
    simp [List.takeWhile_cons, h x (List.mem_cons_self _ _),
      ih (fun y hy => h y (List.mem_cons_of_mem _ hy))]

/-- Reading the text written for a 32-bit `int` gives the `int` back. -/
theorem std.stoi_to_string (value : Int) (hlo : -2 ^ 31 ≤ value) (hhi : value < 2 ^ 31) :
    std.stoi (std.to_string value) = some value := by
  have hall := std.to_string.digits_all (value.natAbs + 1) value.natAbs [] (by simp)
  have hne := std.to_string.digits_ne_nil value.natAbs value.natAbs []
  have hval := std.to_string.digits_value (value.natAbs + 1) value.natAbs [] (by omega)
  have htake := takeWhile_eq_self_of_all std.isdigit _ hall
  obtain ⟨c, rest, hcs⟩ := List.exists_cons_of_ne_nil hne
  have hc : std.isdigit c = true := hall c (by rw [hcs]; exact List.mem_cons_self _ _)
  have hsp : std.isspace c = false := by
    simp only [std.isdigit, std.isspace] at hc ⊢
    simp only [Bool.and_eq_true, decide_eq_true_eq] at hc
    simp only [Bool.or_eq_false_iff, decide_eq_false_iff_not, Bool.and_eq_false_iff]
    omega
  have hminus : c ≠ '-' := by
    intro h
    rw [h] at hc
    exact absurd hc (by decide)
  have hplus : c ≠ '+' := by
    intro h
    rw [h] at hc
    exact absurd hc (by decide)
  by_cases hneg : value < 0
  · simp only [std.stoi, std.to_string, if_pos hneg]
    have h0 : List.dropWhile std.isspace
        ('-' :: std.to_string.digits (value.natAbs + 1) value.natAbs []) =
        '-' :: std.to_string.digits (value.natAbs + 1) value.natAbs [] := by
      rw [List.dropWhile_cons]
      simp [show std.isspace '-' = false by decide]
    rw [h0]
    simp only [List.head?_cons, List.tail_cons, true_or, if_true, htake, if_neg hne, hval,
      List.foldl_nil]
    rw [if_pos (by omega)]
    congr 1
    omega
  · simp only [std.stoi, std.to_string, if_neg hneg]
    have h0 : List.dropWhile std.isspace
        (std.to_string.digits (value.natAbs + 1) value.natAbs []) =
        std.to_string.digits (value.natAbs + 1) value.natAbs [] := by
      rw [hcs, List.dropWhile_cons, hsp]
      simp
    rw [h0]
    have hh : (std.to_string.digits (value.natAbs + 1) value.natAbs []).head? = some c := by
      rw [hcs]; rfl
    have hm : ¬ (some c = some '-' ∨ some c = some '+') := by
      simp [hminus, hplus]
    have hm1 : ¬ (some c = some '-') := by simp [hminus]
    simp only [hh, if_neg hm, if_neg hm1, htake, if_neg hne, hval, List.foldl_nil]
    rw [if_pos (by omega)]
    congr 1
    omega

/-- A value read by `std.stoi` is a 32-bit `int`. -/
theorem std.stoi_range (str : String) (n : Int) (h : std.stoi str = some n) :
    -2 ^ 31 ≤ n ∧ n < 2 ^ 31 := by
  simp only [std.stoi] at h
  split_ifs at h <;> cases h <;> assumption

/-- The number read from a descriptor with default `0` is a 32-bit `int`. -/
theorem ParamPackage.Get.int_range (param : ParamPackage) (key : String) :
    -2 ^ 31 ≤ ParamPackage.Get.int param key 0 ∧ ParamPackage.Get.int param key 0 < 2 ^ 31 := by
  unfold ParamPackage.Get.int
  split
  · split
    · exact std.stoi_range _ _ (by assumption)
    · decide
  · decide

/-- The predicate of `std::find_if` compares the triples of the two descriptors. -/
theorem GetMappedDevices.same_device_iff (param param_ : ParamPackage) :
    GetMappedDevices.same_device param param_ =
      decide (GetMappedDevices.triple param = GetMappedDevices.triple param_) := by
  simp only [GetMappedDevices.same_device, GetMappedDevices.triple, Prod.mk.injEq]
  rw [Bool.and_assoc, ← Bool.decide_and, ← Bool.decide_and]

/-- The triple of the descriptor built from an engine, a guid and a port. -/
theorem GetMappedDevices.triple_device (engine guid : String) (port : Int)
    (hlo : -2 ^ 31 ≤ port) (hhi : port < 2 ^ 31) :
    GetMappedDevices.triple
        (ParamPackage.Set.int (ParamPackage.Set (ParamPackage.Set [] "engine" engine) "guid" guid)
          "port" port) = (engine, guid, port) := by
  have hdev : ParamPackage.Set.int
      (ParamPackage.Set (ParamPackage.Set [] "engine" engine) "guid" guid) "port" port =
      [("engine", engine), ("guid", guid), ("port", std.to_string port)] := by
    simp [ParamPackage.Set.int, ParamPackage.Set]
  rw [hdev]
  simp [GetMappedDevices.triple, ParamPackage.Get, ParamPackage.Get.int, List.find?,
    std.stoi_to_string port hlo hhi]

/-- The triples after the shared tail of a loop body: the triple of `param` is
appended when no device has it. -/
theorem GetMappedDevices.push_back_triples (devices : List ParamPackage) (param : ParamPackage) :
    (GetMappedDevices.push_back devices param).map GetMappedDevices.triple =
      if GetMappedDevices.triple param ∈ devices.map GetMappedDevices.triple then
        devices.map GetMappedDevices.triple
      else devices.map GetMappedDevices.triple ++ [GetMappedDevices.triple param] := by
  have hany : devices.any (GetMappedDevices.same_device param) =
      decide (GetMappedDevices.triple param ∈ devices.map GetMappedDevices.triple) := by
    rw [Bool.eq_iff_iff]
    simp only [List.any_eq_true, GetMappedDevices.same_device_iff, decide_eq_true_eq,
      List.mem_map]
    constructor
    · rintro ⟨d, hd, he⟩
      exact ⟨d, hd, he.symm⟩
    · rintro ⟨d, hd, he⟩
      exact ⟨d, hd, he.symm⟩
  have hr := ParamPackage.Get.int_range param "port"
  unfold GetMappedDevices.push_back
  rw [hany]
  by_cases hmem : GetMappedDevices.triple param ∈ devices.map GetMappedDevices.triple
  · simp only [hmem, decide_True, if_true]
  · simp only [hmem, decide_False, if_false, Bool.false_eq_true, List.map_append, List.map_cons,
      List.map_nil]
    rw [GetMappedDevices.triple_device _ _ _ hr.1 hr.2]
    rfl

/-- Pushing keys one by one, each only when it is not there yet, appends the first
occurrences of the keys that were not there. -/
theorem firstOccurrences_foldl {α : Type} [DecidableEq α] (keys acc : List α) :
    keys.foldl (fun acc k => if k ∈ acc then acc else acc ++ [k]) acc =
      acc ++ (firstOccurrences keys).filter (fun k => decide (k ∉ acc)) := by
  induction keys generalizing acc with
  | nil => simp [firstOccurrences]
  | cons k rest ih =>
    rw [List.foldl_cons, ih]
    by_cases hk : k ∈ acc
    · rw [if_pos hk]
      congr 1
      simp only [firstOccurrences, List.filter_cons, hk, not_true_eq_false, decide_False,
        Bool.false_eq_true, if_false, List.filter_filter]
      apply List.filter_congr
      intro x _
      by_cases hx : x ∈ acc
      · simp [hx]
      · have : x ≠ k := fun h => hx (h ▸ hk)
        simp [hx, this]
    · rw [if_neg hk]
      simp only [firstOccurrences, List.filter_cons, hk, not_false_eq_true, decide_True, if_true,
        List.filter_filter, List.append_assoc, List.singleton_append]
      congr 2
      apply List.filter_congr
      intro x _
      by_cases hx : x ∈ acc <;> by_cases hxk : x = k <;> simp [hx, hxk]

/-- The first occurrences of a list have the elements of the list. -/
theorem firstOccurrences_mem {α : Type} [DecidableEq α] (l : List α) (x : α) :
    x ∈ firstOccurrences l ↔ x ∈ l := by
  induction l with
  | nil => simp [firstOccurrences]
  | cons y rest ih =>
    simp only [firstOccurrences, List.mem_cons, List.mem_filter, ih, decide_eq_true_eq]
    by_cases h : x = y <;> simp [h]

/-- The first occurrences of a list are pairwise distinct. -/
theorem firstOccurrences_nodup {α : Type} [DecidableEq α] (l : List α) :
    (firstOccurrences l).Nodup := by
  induction l with
  | nil => simp [firstOccurrences]
  | cons y rest ih =>
    simp only [firstOccurrences, List.nodup_cons, List.mem_filter, decide_eq_true_eq]
    exact ⟨fun h => h.2 rfl, ih.filter _⟩

/-- The triples after a loop of `GetMappedDevices` whose body accepts the
descriptors that pass `accept`. -/
theorem GetMappedDevices.foldl_triples (accept : ParamPackage → Bool)
    (params devices : List ParamPackage) :
    (params.foldl
        (fun devices param =>
          if accept param then GetMappedDevices.push_back devices param else devices)
        devices).map GetMappedDevices.triple =
      ((params.filter accept).map GetMappedDevices.triple).foldl
        (fun acc k => if k ∈ acc then acc else acc ++ [k])
        (devices.map GetMappedDevices.triple) := by
  induction params generalizing devices with
  | nil => rfl
  | cons param rest ih =>
    rw [List.foldl_cons, ih]
    cases ha : accept param
    · simp [List.filter_cons, ha]
    · simp only [if_true, List.filter_cons, ha, List.map_cons, List.foldl_cons,
        GetMappedDevices.push_back_triples]

/-- The worked example: the two pad bindings give one entry, the descriptor
without an engine and the stick made of buttons give none, and the second stick of
the first pad gives none. -/
theorem GetMappedDevices_example :
    GetMappedDevices exampleButtonParams exampleStickParams 0 =
      [[("engine", "sdl"), ("guid", "a"), ("port", "1")],
       [("engine", "keyboard"), ("guid", ""), ("port", "0")],
       [("engine", "analog_from_button"), ("guid", ""), ("port", "0")],
       [("engine", "sdl"), ("guid", "b"), ("port", "-3")]] := by
  decide

/-! ## Claims -/

/-- C1: a not-pressed signal tagged with a source identity other than the button's
recorded owner is rejected by `SetButton`: the whole controller state, hence the
button's value, toggle, locked and owner fields and the canonical button report,
is unchanged and no subscriber is invoked. -/
theorem SetButton_release_from_other_source_rejected (N : NativeButton.Values)
    (s : EmulatedController) (new_status : ButtonStatus) (index : Nat) (uuid : UUID)
    (current_status : ButtonStatus)
    (hcur : s.controller.button_values[index]? = some current_status)
    (howner : current_status.uuid ≠ uuid) (hrelease : new_status.value = false) :
    (SetButton N s new_status index uuid).1 = s ∧
      (SetButton N s new_status index uuid).1.controller.button_values[index]? =
        some current_status ∧
      (SetButton N s new_status index uuid).2 = [] := by
  have h : SetButton N s new_status index uuid = (s, []) := by
    unfold SetButton
    simp [hcur, howner, hrelease]
  rw [h]
  exact ⟨rfl, hcur, rfl⟩

theorem SetButton_release_from_other_source_rejected_witness :
    (SetButton NativeButton.listed exampleController { value := false } 0 2).1 = exampleController ∧
      (SetButton NativeButton.listed exampleController { value := false } 0 2).1.controller.button_values[0]? =
        some { uuid := 1, value := true } ∧
      (SetButton NativeButton.listed exampleController { value := false } 0 2).2 = [] :=
  SetButton_release_from_other_source_rejected NativeButton.listed exampleController
    { value := false } 0 2 { uuid := 1, value := true } (by decide) (by decide) (by decide)

/-- C2: a pressed signal tagged with a source identity other than the button's
recorded owner is accepted by `SetButton`: the record stored for the button is the
merge of the signal into the previous record, and its recorded owner is the new
identity. -/
theorem SetButton_press_from_other_source_accepted (N : NativeButton.Values)
    (s : EmulatedController) (new_status : ButtonStatus) (index : Nat) (uuid : UUID)
    (current_status : ButtonStatus)
    (hcur : s.controller.button_values[index]? = some current_status)
    (_howner : current_status.uuid ≠ uuid) (hpress : new_status.value = true) :
    ∃ b, (SetButton N s new_status index uuid).1.controller.button_values[index]? = some b ∧
      b = (SetButton.update current_status new_status uuid).1 ∧
      b.uuid = uuid ∧ b.toggle = new_status.toggle := by
  refine ⟨_, SetButton_button_get N s new_status index uuid current_status hcur (Or.inr hpress),
    rfl, SetButton.update_uuid _ _ _, ?_⟩
  simp only [SetButton.update]
  split_ifs <;> rfl

theorem SetButton_press_from_other_source_accepted_witness :
    ∃ b, (SetButton NativeButton.listed exampleController { value := true } 1 2).1.controller.button_values[1]? = some b ∧
      b = (SetButton.update { uuid := 1 } { value := true } 2).1 ∧
      b.uuid = 2 ∧ b.toggle = false :=
  SetButton_press_from_other_source_accepted NativeButton.listed exampleController
    { value := true } 1 2 { uuid := 1 } (by decide) (by decide) (by decide)

/-- C3: from a button with `value = false` and `locked = false`, three toggle-mode
`SetButton` calls from one source identity (press, release, press) leave the
button at `(value, locked) = (true, true)`, then `(true, false)`, then
`(false, true)`: each press flips the value once, the release only unlocks. -/
theorem SetButton_toggle_press_release_press (N : NativeButton.Values)
    (s : EmulatedController) (index : Nat) (uuid : UUID) (b press release : ButtonStatus)
    (hb : s.controller.button_values[index]? = some b)
    (hvalue : b.value = false) (hlocked : b.locked = false)
    (hpress : press.value = true ∧ press.toggle = true)
    (hrelease : release.value = false ∧ release.toggle = true) :
    ((SetButton N s press index uuid).1.controller.button_values[index]?).map
        (fun c => (c.value, c.locked)) = some (true, true) ∧
      ((SetButton N (SetButton N s press index uuid).1 release index uuid).1.controller.button_values[index]?).map
        (fun c => (c.value, c.locked)) = some (true, false) ∧
      ((SetButton N (SetButton N (SetButton N s press index uuid).1 release index uuid).1
          press index uuid).1.controller.button_values[index]?).map
        (fun c => (c.value, c.locked)) = some (false, true) := by
  obtain ⟨hp1, hp2⟩ := hpress
  obtain ⟨hr1, hr2⟩ := hrelease
  have h1 := SetButton_button_get N s press index uuid b hb (Or.inr hp1)
  have h2 := SetButton_button_get N _ release index uuid _ h1
    (Or.inl (SetButton.update_uuid b press uuid))
  have h3 := SetButton_button_get N _ press index uuid _ h2 (Or.inr hp1)
  rw [h3, h2, h1]
  simp [SetButton.update, hp1, hp2, hr1, hr2, hvalue, hlocked]

theorem SetButton_toggle_press_release_press_witness :
    ((SetButton NativeButton.listed exampleController { value := true, toggle := true } 1 2).1.controller.button_values[1]?).map
        (fun c => (c.value, c.locked)) = some (true, true) ∧
      ((SetButton NativeButton.listed
          (SetButton NativeButton.listed exampleController { value := true, toggle := true } 1 2).1
          { value := false, toggle := true } 1 2).1.controller.button_values[1]?).map
        (fun c => (c.value, c.locked)) = some (true, false) ∧
      ((SetButton NativeButton.listed
          (SetButton NativeButton.listed
            (SetButton NativeButton.listed exampleController { value := true, toggle := true } 1 2).1
            { value := false, toggle := true } 1 2).1
          { value := true, toggle := true } 1 2).1.controller.button_values[1]?).map
        (fun c => (c.value, c.locked)) = some (false, true) :=
  SetButton_toggle_press_release_press NativeButton.listed exampleController 1 2 { uuid := 1 }
    { value := true, toggle := true } { value := false, toggle := true }
    (by decide) (by decide) (by decide) (by decide) (by decide)

/-- C4, as stated, fails: outside configuration mode, on the disconnected Player 1
Pro controller `exampleController`, a press then a release of button 1 from the
same source with toggle-mode disabled invoke the registered subscriber three
times (`Connected`, `Button`, `Button`), not two. -/
theorem SetButton_press_release_three_notifications :
    exampleController.is_configuring = false ∧
      ((SetButton NativeButton.listed exampleController { value := true } 1 1).2 ++
        (SetButton NativeButton.listed
          (SetButton NativeButton.listed exampleController { value := true } 1 1).1
          { value := false } 1 1).2).map (fun e => (e.key, e.type)) =
        [(0, ControllerTriggerType.Connected), (0, ControllerTriggerType.Button),
          (0, ControllerTriggerType.Button)] ∧
      ¬ (((SetButton NativeButton.listed exampleController { value := true } 1 1).2 ++
        (SetButton NativeButton.listed
          (SetButton NativeButton.listed exampleController { value := true } 1 1).1
          { value := false } 1 1).2).filter (fun e => decide (e.key = 0))).length = 2 := by
  decide

/-- C4, amended: outside configuration mode, a press then a release of a released
button, both with toggle-mode disabled and from one source identity, invoke a
registered subscriber with exactly two `Button` notifications, preceded by one
`Connected` notification exactly when the press connected a controller that was
not connected; the button's stored value is released again. -/
theorem SetButton_press_release_notifications (N : NativeButton.Values)
    (s : EmulatedController) (index : Nat) (uuid : UUID) (b press release : ButtonStatus)
    (key : Int) (cb : ControllerUpdateCallback)
    (hcfg : s.is_configuring = false)
    (hb : s.controller.button_values[index]? = some b) (hvalue : b.value = false)
    (hpress : press.value = true ∧ press.toggle = false)
    (hrelease : release.value = false ∧ release.toggle = false)
    (hkeys : (s.callback_list.map Prod.fst).Nodup)
    (hsub : (key, cb) ∈ s.callback_list) (hcb : cb.on_change = true) :
    (((SetButton N s press index uuid).2 ++
        (SetButton N (SetButton N s press index uuid).1 release index uuid).2).filter
          (fun e => decide (e.key = key))).map (fun e => e.type) =
        (if s.is_connected = false ∧ (SetButton N s press index uuid).1.is_connected = true then
            [ControllerTriggerType.Connected] else []) ++
          [ControllerTriggerType.Button, ControllerTriggerType.Button] ∧
      ((SetButton N (SetButton N s press index uuid).1 release index uuid).1.controller.button_values[index]?).map
        (fun c => c.value) = some false := by
  obtain ⟨hp1, hp2⟩ := hpress
  obtain ⟨hr1, hr2⟩ := hrelease
  have hch1 : (SetButton.update b press uuid).2 = true := by
    simp [SetButton.update, hp1, hp2, hvalue]
  have hb1 := SetButton_button_get N s press index uuid b hb (Or.inr hp1)
  obtain ⟨c1, c2, c3, c4, c5, c6, c7⟩ :=
    SetButton_changed N s press index uuid b hcfg hb (Or.inr hp1) hch1
  have hch2 : (SetButton.update (SetButton.update b press uuid).1 release uuid).2 = true := by
    simp [SetButton.update, hp1, hp2, hr1, hr2, hvalue]
  have hacc2 : (SetButton.update b press uuid).1.uuid = uuid ∨ release.value = true :=
    Or.inl (SetButton.update_uuid b press uuid)
  have hb2 := SetButton_button_get N _ release index uuid _ hb1 hacc2
  obtain ⟨d1, d2, d3, d4, d5, d6, d7⟩ :=
    SetButton_changed N _ release index uuid _ c1 hb1 hacc2 hch2
  have hauto2 : SetButton.autoConnects (SetButton N s press index uuid).1 = false := by
    cases hA : SetButton.autoConnects s with
    | true =>
      have hc : (SetButton N s press index uuid).1.is_connected = true := by
        rw [c6, hA, Bool.or_true]
      unfold SetButton.autoConnects
      rw [hc]
      rfl
    | false =>
      rw [SetButton.autoConnects_congr s _ (by simp [c6, hA]) c3 c4 c5]
      exact hA
  have hk : (s.callback_list.map Prod.fst).Nodup := hkeys
  have hB := TriggerOnChange.loop_filter_key ControllerTriggerType.Button false
    s.callback_list key cb hk hsub hcb
  have hC := TriggerOnChange.loop_filter_key ControllerTriggerType.Connected false
    s.callback_list key cb hk hsub hcb
  refine ⟨?_, ?_⟩
  · rw [d7, c7, hauto2, c6]
    simp only [TriggerOnChange, c2, List.filter_append, List.map_append, hB, hC]
    cases hA : SetButton.autoConnects s with
    | true =>
      have : s.is_connected = false := by
        simp only [SetButton.autoConnects, Bool.and_eq_true, Bool.not_eq_true'] at hA
        exact hA.1.1
      simp [this, hC, List.filter_append, hB]
    | false =>
      cases hconn : s.is_connected <;> simp [List.filter_append, hB]
  · rw [hb2]
    simp [SetButton.update, hp1, hp2, hr1, hr2, hvalue]

theorem SetButton_press_release_notifications_witness :
    (((SetButton NativeButton.listed { exampleController with is_connected := true }
          { value := true } 1 1).2 ++
        (SetButton NativeButton.listed
          (SetButton NativeButton.listed { exampleController with is_connected := true }
            { value := true } 1 1).1 { value := false } 1 1).2).filter
          (fun e => decide (e.key = 0))).map (fun e => e.type) =
        (if ({ exampleController with is_connected := true } : EmulatedController).is_connected = false ∧
            (SetButton NativeButton.listed { exampleController with is_connected := true }
              { value := true } 1 1).1.is_connected = true then
            [ControllerTriggerType.Connected] else []) ++
          [ControllerTriggerType.Button, ControllerTriggerType.Button] ∧
      ((SetButton NativeButton.listed
          (SetButton NativeButton.listed { exampleController with is_connected := true }
            { value := true } 1 1).1 { value := false } 1 1).1.controller.button_values[1]?).map
        (fun c => c.value) = some false :=
  SetButton_press_release_notifications NativeButton.listed
    { exampleController with is_connected := true } 1 1 { uuid := 1 } { value := true }
    { value := false } 0 { on_change := true, is_npad_service := true }
    (by decide) (by decide) (by decide) (by decide) (by decide) (by decide) (by decide) (by decide)

/-- C5: for a source identity other than the stick's recorded owner, `SetStick`
leaves the whole controller state (the stick's stored value and owner and the
canonical report included) unchanged, with no notification, when none of the four
digital directions is active, and stores the new value with the new identity as
owner when at least one direction is active. -/
theorem SetStick_arbitration (A : NativeAnalog.Values) (s : EmulatedController)
    (stick_value : StickStatus) (index : Nat) (uuid : UUID) (current : StickStatus)
    (hcur : s.controller.stick_values[index]? = some current)
    (howner : current.uuid ≠ uuid) :
    ((stick_value.up = false ∧ stick_value.down = false ∧ stick_value.left = false ∧
          stick_value.right = false) →
        (SetStick A s stick_value index uuid).1 = s ∧
          (SetStick A s stick_value index uuid).1.controller.stick_values[index]? = some current ∧
          (SetStick A s stick_value index uuid).2 = []) ∧
      ((stick_value.up = true ∨ stick_value.down = true ∨ stick_value.left = true ∨
          stick_value.right = true) →
        (SetStick A s stick_value index uuid).1.controller.stick_values[index]? =
            some { stick_value with uuid := uuid } ∧
          ((SetStick A s stick_value index uuid).1.controller.stick_values[index]?).map
            (fun v => v.uuid) = some uuid) := by
  have hlt : index < s.controller.stick_values.length := by
    rcases List.getElem?_eq_some_iff.mp hcur with ⟨h, _⟩
    exact h
  constructor
  · rintro ⟨h1, h2, h3, h4⟩
    have h : SetStick A s stick_value index uuid = (s, []) := by
      simp [SetStick, hcur, howner, h1, h2, h3, h4]
    rw [h]
    exact ⟨rfl, hcur, rfl⟩
  · intro hact
    have hrej : ¬ (current.uuid ≠ uuid ∧
        (!stick_value.down && !stick_value.up && !stick_value.left && !stick_value.right) = true) := by
      rintro ⟨_, h⟩
      simp only [Bool.and_eq_true, Bool.not_eq_true'] at h
      obtain ⟨⟨⟨h1, h2⟩, h3⟩, h4⟩ := h
      rcases hact with h | h | h | h
      · rw [h2] at h; exact Bool.noConfusion h
      · rw [h1] at h; exact Bool.noConfusion h
      · rw [h3] at h; exact Bool.noConfusion h
      · rw [h4] at h; exact Bool.noConfusion h
    have hval : (SetStick A s stick_value index uuid).1.controller.stick_values =
        s.controller.stick_values.set index { stick_value with uuid := uuid } := by
      simp only [SetStick, hcur, hrej, if_false]
      split_ifs
      · rfl
      · simp only [SetStick.assign]
        cases A index with
        | none => rfl
        | some a => cases a <;> rfl
    rw [hval]
    simp [List.getElem?_set, hlt]

theorem SetStick_arbitration_witness :
    ((SetStick NativeAnalog.listed exampleController { x := { value := F32.finite 1 (-1) } } 0 2).1 =
          exampleController ∧
        (SetStick NativeAnalog.listed exampleController { x := { value := F32.finite 1 (-1) } } 0 2).1.controller.stick_values[0]? =
          some { uuid := 1 } ∧
        (SetStick NativeAnalog.listed exampleController { x := { value := F32.finite 1 (-1) } } 0 2).2 = []) ∧
      ((SetStick NativeAnalog.listed exampleController
            { x := { value := F32.finite 1 0 }, right := true } 0 2).1.controller.stick_values[0]? =
          some { uuid := 2, x := { value := F32.finite 1 0 }, right := true } ∧
        ((SetStick NativeAnalog.listed exampleController
            { x := { value := F32.finite 1 0 }, right := true } 0 2).1.controller.stick_values[0]?).map
          (fun v => v.uuid) = some 2) :=
  ⟨(SetStick_arbitration NativeAnalog.listed exampleController
      { x := { value := F32.finite 1 (-1) } } 0 2 { uuid := 1 } (by decide) (by decide)).1
      (by decide),
   (SetStick_arbitration NativeAnalog.listed exampleController
      { x := { value := F32.finite 1 0 }, right := true } 0 2 { uuid := 1 } (by decide) (by decide)).2
      (by decide)⟩

/-- C6: outside configuration mode an accepted `SetStick` stores, in the reported
coordinates of the stick selected by `index`, each normalized axis value multiplied
(as a `float`) by `HID_JOYSTICK_MAX = 32767` and converted to `s32`, a conversion
that truncates toward zero every finite value in range; the scaling sends `1.0`
to `32767`, `-1.0` to `-32767` and `0.0` to `0`. -/
theorem SetStick_scaling (A : NativeAnalog.Values) (s : EmulatedController)
    (stick_value : StickStatus) (index : Nat) (uuid : UUID) (current : StickStatus)
    (hcfg : s.is_configuring = false)
    (hcur : s.controller.stick_values[index]? = some current)
    (hacc : current.uuid = uuid ∨ stick_value.up = true ∨ stick_value.down = true ∨
      stick_value.left = true ∨ stick_value.right = true) :
    (A index = some NativeAnalog.LStick →
        (SetStick A s stick_value index uuid).1.controller.analog_stick_state.left =
          { x := F32.toS32 (F32.mul stick_value.x.value (F32.ofS32 32767)),
            y := F32.toS32 (F32.mul stick_value.y.value (F32.ofS32 32767)) }) ∧
      (A index = some NativeAnalog.RStick →
        (SetStick A s stick_value index uuid).1.controller.analog_stick_state.right =
          { x := F32.toS32 (F32.mul stick_value.x.value (F32.ofS32 32767)),
            y := F32.toS32 (F32.mul stick_value.y.value (F32.ofS32 32767)) }) ∧
      (∀ m e : Int, -(2 : Int) ^ 31 ≤ F32.truncate m e ∧ F32.truncate m e < (2 : Int) ^ 31 →
        F32.toS32 (F32.finite m e) = F32.truncate m e) ∧
      (∀ k : Nat, k ≤ 23 → SetStick.scale (F32.finite (2 ^ k) (-(k : Int))) = 32767) ∧
      (∀ k : Nat, k ≤ 23 → SetStick.scale (F32.finite (-(2 ^ k)) (-(k : Int))) = -32767) ∧
      (∀ e : Int, SetStick.scale (F32.finite 0 e) = 0) := by
  have hrej : ¬ (current.uuid ≠ uuid ∧
      (!stick_value.down && !stick_value.up && !stick_value.left && !stick_value.right) = true) := by
    rintro ⟨hne, h⟩
    simp only [Bool.and_eq_true, Bool.not_eq_true'] at h
    obtain ⟨⟨⟨h1, h2⟩, h3⟩, h4⟩ := h
    rcases hacc with h | h | h | h | h
    · exact hne h
    · rw [h2] at h; exact Bool.noConfusion h
    · rw [h1] at h; exact Bool.noConfusion h
    · rw [h3] at h; exact Bool.noConfusion h
    · rw [h4] at h; exact Bool.noConfusion h
  refine ⟨?_, ?_, ?_, ?_, ?_, ?_⟩
  · intro hA
    simp only [SetStick, hcur, hrej, if_false, hcfg, Bool.false_eq_true]
    simp [SetStick.assign, hA, SetStick.scale, HID_JOYSTICK_MAX]
  · intro hA
    simp only [SetStick, hcur, hrej, if_false, hcfg, Bool.false_eq_true]
    simp [SetStick.assign, hA, SetStick.scale, HID_JOYSTICK_MAX]
  · intro m e h
    simp only [F32.toS32, h, and_self, if_true]
  · intro k hk
    interval_cases k <;> decide
  · intro k hk
    interval_cases k <;> decide
  · intro e
    have h32767 : F32.ofS32 HID_JOYSTICK_MAX = F32.finite 32767 0 := by decide
    have hb0 : bitLength 0 = 0 := rfl
    have hq : ∀ sh : Nat,
        (if 0 % 2 ^ sh > 2 ^ (sh - 1) ∨ (0 % 2 ^ sh = 2 ^ (sh - 1) ∧ 0 / 2 ^ sh % 2 = 1)
          then 0 / 2 ^ sh + 1 else 0 / 2 ^ sh) = 0 := by
      intro sh
      have hpos : 0 < 2 ^ (sh - 1) := by positivity
      have hne : (0 : Nat) ≠ 2 ^ (sh - 1) := Nat.ne_of_lt hpos
      simp [hne]
    have hround : ∃ e1 : Int, F32.round 0 e = F32.finite 0 e1 := by
      simp only [F32.round, Int.natAbs_zero, hb0, hq, lt_self_iff_false, if_false,
        Nat.cast_zero, add_zero, ne_eq, not_true_eq_false, false_and]
      split_ifs with h1 h3
      · exact ⟨_, rfl⟩
      · exfalso
        omega
      · exact ⟨_, rfl⟩
    have htrunc : ∀ e1 : Int, F32.toS32 (F32.finite 0 e1) = 0 := by
      intro e1
      simp only [F32.toS32, F32.truncate]
      split_ifs <;> simp_all
    simp only [SetStick.scale, h32767, F32.mul, zero_mul, add_zero]
    obtain ⟨e1, h⟩ := hround
    rw [h, htrunc]

theorem SetStick_scaling_witness :
    (SetStick NativeAnalog.listed exampleController
        { x := { value := F32.finite 1 0 }, y := { value := F32.finite (-1) 0 }, right := true }
        0 2).1.controller.analog_stick_state.left =
      { x := F32.toS32 (F32.mul (F32.finite 1 0) (F32.ofS32 32767)),
        y := F32.toS32 (F32.mul (F32.finite (-1) 0) (F32.ofS32 32767)) } :=
  (SetStick_scaling NativeAnalog.listed exampleController
    { x := { value := F32.finite 1 0 }, y := { value := F32.finite (-1) 0 }, right := true }
    0 2 { uuid := 1 } (by decide) (by decide) (by decide)).1 (by decide)

/-- C7: `EnableConfiguration` immediately followed by `DisableConfiguration` leaves
the canonical connection flag and variant (and every other canonical field)
unchanged and invokes no subscriber; only the shadow copy and the configuration
flag are rewritten. -/
theorem EnableConfiguration_DisableConfiguration_unchanged (s : EmulatedController) :
    (DisableConfiguration (EnableConfiguration s)).1.is_connected = s.is_connected ∧
      (DisableConfiguration (EnableConfiguration s)).1.npad_type = s.npad_type ∧
      (DisableConfiguration (EnableConfiguration s)).1 =
        { s with is_configuring := false, tmp_is_connected := s.is_connected,
                 tmp_npad_type := s.npad_type } ∧
      (DisableConfiguration (EnableConfiguration s)).2 = [] := by
  simp [DisableConfiguration, DisableConfiguration.applyType, DisableConfiguration.applyConnected,
    EnableConfiguration]


/-- C8: after `DisableConfiguration` the canonical variant equals the shadow
variant. When the shadow variant differed from the canonical one, the controller
is disconnected when the variant is swapped, the notifications are `Disconnected`
(if it was connected), `Type`, then `Connected` (if it reconnects), in this order,
and it ends connected exactly when the shadow requested connected and the new
variant is supported. -/
theorem DisableConfiguration_applies_shadow (s : EmulatedController) :
    (DisableConfiguration s).1.npad_type = s.tmp_npad_type ∧
      (s.tmp_npad_type ≠ s.npad_type →
        (DisableConfiguration.applyType s).1.is_connected = false ∧
          (DisableConfiguration.applyType s).1.npad_type = s.tmp_npad_type ∧
          (DisableConfiguration s).2 =
            (if s.is_connected = true then
                TriggerOnChange s ControllerTriggerType.Disconnected true false else []) ++
              TriggerOnChange s ControllerTriggerType.Type_ true false ++
              (if (DisableConfiguration s).1.is_connected = true then
                TriggerOnChange s ControllerTriggerType.Connected true false else []) ∧
          ((DisableConfiguration s).1.is_connected = true ↔
            s.tmp_is_connected = true ∧
              IsControllerSupported (DisableConfiguration s).1 false = true)) := by
  obtain ⟨id, ty, tty, conn, tconn, cfg, tag, ctl, cbs, last⟩ := s
  by_cases hdiff : tty = ty
  · subst hdiff
    refine ⟨?_, fun h => absurd rfl h⟩
    cases conn <;> cases tconn <;> cases hsup : IsControllerSupported.flag tag tty <;>
      simp [DisableConfiguration, DisableConfiguration.applyType,
        DisableConfiguration.applyConnected, Connect, Disconnect, IsControllerSupported, hsup]
  · have hdiff1 : ¬ ty = tty := fun h => hdiff h.symm
    cases conn <;> cases tconn <;> cases hsup : IsControllerSupported.flag tag tty <;>
      simp [DisableConfiguration, DisableConfiguration.applyType,
        DisableConfiguration.applyConnected, Connect, Disconnect, SetNpadStyleIndex,
        TriggerOnChange, IsControllerSupported, hsup, hdiff, hdiff1]

theorem DisableConfiguration_applies_shadow_witness :
    (DisableConfiguration.applyType exampleConfiguring).1.is_connected = false ∧
      (DisableConfiguration.applyType exampleConfiguring).1.npad_type =
        exampleConfiguring.tmp_npad_type ∧
      (DisableConfiguration exampleConfiguring).2 =
        (if exampleConfiguring.is_connected = true then
            TriggerOnChange exampleConfiguring ControllerTriggerType.Disconnected true false
          else []) ++
          TriggerOnChange exampleConfiguring ControllerTriggerType.Type_ true false ++
          (if (DisableConfiguration exampleConfiguring).1.is_connected = true then
            TriggerOnChange exampleConfiguring ControllerTriggerType.Connected true false
          else []) ∧
      ((DisableConfiguration exampleConfiguring).1.is_connected = true ↔
        exampleConfiguring.tmp_is_connected = true ∧
          IsControllerSupported (DisableConfiguration exampleConfiguring).1 false = true) :=
  (DisableConfiguration_applies_shadow exampleConfiguring).2 (by decide)

/-- C9: if the canonical state satisfies "connected implies variant supported" when
`EnableConfiguration` is called, then through any sequence of `Connect`,
`Disconnect` and `SetNpadStyleIndex` calls made in configuration mode followed by
`DisableConfiguration`, every state passed through, the final one included, still
satisfies it. -/
theorem configurationSession_canonicalValid (s : EmulatedController)
    (calls : List ConfigurationCall) (hvalid : canonicalValid s) :
    (∀ st ∈ configurationSession s calls, canonicalValid st) ∧
      (configurationSession s calls).getLast? =
        some (DisableConfiguration
          (ConfigurationCall.runAll (EnableConfiguration s) calls)).1 ∧
      canonicalValid (DisableConfiguration
        (ConfigurationCall.runAll (EnableConfiguration s) calls)).1 := by
  have hE : canonicalValid (EnableConfiguration s) :=
    canonicalValid_congr s _ rfl rfl rfl hvalid
  obtain ⟨h1, h2⟩ := ConfigurationCall.calls_keep_valid calls (EnableConfiguration s) rfl hE
  have h3 := DisableConfiguration.statements_keep_valid _ h2
  have hlast := DisableConfiguration.states_getLast
    (ConfigurationCall.runAll (EnableConfiguration s) calls)
  have hmem : (DisableConfiguration
      (ConfigurationCall.runAll (EnableConfiguration s) calls)).1 ∈
      DisableConfiguration.states (ConfigurationCall.runAll (EnableConfiguration s) calls) :=
    List.mem_of_getLast?_eq_some hlast
  refine ⟨?_, ?_, h3 _ hmem⟩
  · intro st hst
    simp only [configurationSession, List.mem_cons, List.mem_append, List.cons_append] at hst
    rcases hst with h | h | h
    · rw [h]; exact hE
    · exact h1 st h
    · exact h3 st h
  · simp only [configurationSession]
    rw [List.getLast?_append, hlast]
    rfl

theorem configurationSession_canonicalValid_witness :
    (∀ st ∈ configurationSession { exampleController with is_connected := true }
        [ConfigurationCall.SetNpadStyleIndex NpadStyleIndex.Handheld,
          ConfigurationCall.Connect true],
      canonicalValid st) ∧
      (configurationSession { exampleController with is_connected := true }
        [ConfigurationCall.SetNpadStyleIndex NpadStyleIndex.Handheld,
          ConfigurationCall.Connect true]).getLast? =
        some (DisableConfiguration
          (ConfigurationCall.runAll
            (EnableConfiguration { exampleController with is_connected := true })
            [ConfigurationCall.SetNpadStyleIndex NpadStyleIndex.Handheld,
              ConfigurationCall.Connect true])).1 ∧
      canonicalValid (DisableConfiguration
        (ConfigurationCall.runAll
          (EnableConfiguration { exampleController with is_connected := true })
          [ConfigurationCall.SetNpadStyleIndex NpadStyleIndex.Handheld,
            ConfigurationCall.Connect true])).1 :=
  configurationSession_canonicalValid { exampleController with is_connected := true }
    [ConfigurationCall.SetNpadStyleIndex NpadStyleIndex.Handheld, ConfigurationCall.Connect true]
    (fun _ => by decide)

/-- C10: in configuration mode `Connect`, `Disconnect` and `SetNpadStyleIndex` write
nothing but the shadow connection flag and the shadow variant (which the
temporary-value reads then return); the canonical connection flag and variant are
unchanged, and every subscriber they invoke is one that is not service-internal. -/
theorem configuring_calls_write_shadow_only (s : EmulatedController)
    (use_temporary_value : Bool) (npad_type_ : NpadStyleIndex)
    (hcfg : s.is_configuring = true) :
    (Connect s use_temporary_value =
        if IsControllerSupported s use_temporary_value = true then
          ({ s with tmp_is_connected := true },
            TriggerOnChange s ControllerTriggerType.Connected false true)
        else (s, [])) ∧
      (Disconnect s =
        ({ s with tmp_is_connected := false },
          TriggerOnChange s ControllerTriggerType.Disconnected false true)) ∧
      (SetNpadStyleIndex s npad_type_ =
        if s.tmp_npad_type = npad_type_ then (s, [])
        else ({ s with tmp_npad_type := npad_type_ },
          TriggerOnChange s ControllerTriggerType.Type_ false true)) ∧
      (IsControllerSupported s use_temporary_value = true →
        IsConnected (Connect s use_temporary_value).1 true = true) ∧
      IsConnected (Disconnect s).1 true = false ∧
      GetNpadStyleIndex (SetNpadStyleIndex s npad_type_).1 true = npad_type_ ∧
      (∀ r ∈ [Connect s use_temporary_value, Disconnect s, SetNpadStyleIndex s npad_type_],
        r.1.is_connected = s.is_connected ∧ r.1.npad_type = s.npad_type ∧
          ∀ e ∈ r.2, e.poller.is_npad_service = false) := by
  have hpreview : ∀ (type : ControllerTriggerType) (e : Invocation),
      e ∈ TriggerOnChange s type false true → e.poller.is_npad_service = false := by
    intro type e he
    exact (TriggerOnChange.loop_mem type false true s.callback_list e he).2.2.2.2 rfl
  have hC : Connect s use_temporary_value =
      if IsControllerSupported s use_temporary_value = true then
        ({ s with tmp_is_connected := true },
          TriggerOnChange s ControllerTriggerType.Connected false true)
      else (s, []) := by
    simp only [Connect, hcfg]
    cases IsControllerSupported s use_temporary_value <;> simp [TriggerOnChange]
  have hD : Disconnect s =
      ({ s with tmp_is_connected := false },
        TriggerOnChange s ControllerTriggerType.Disconnected false true) := by
    simp [Disconnect, hcfg, TriggerOnChange]
  have hS : SetNpadStyleIndex s npad_type_ =
      if s.tmp_npad_type = npad_type_ then (s, [])
      else ({ s with tmp_npad_type := npad_type_ },
        TriggerOnChange s ControllerTriggerType.Type_ false true) := by
    simp only [SetNpadStyleIndex, hcfg]
    split_ifs <;> simp [TriggerOnChange]
  refine ⟨hC, hD, hS, ?_, ?_, ?_, ?_⟩
  · intro hsup
    rw [hC, if_pos hsup]
    simp [IsConnected, hcfg]
  · rw [hD]
    simp [IsConnected, hcfg]
  · rw [hS]
    split_ifs with h
    · simp [GetNpadStyleIndex, hcfg, h]
    · simp [GetNpadStyleIndex, hcfg]
  · intro r hr
    simp only [List.mem_cons, List.mem_singleton, List.not_mem_nil, or_false] at hr
    rcases hr with h | h | h
    · rw [h, hC]
      split_ifs
      · exact ⟨rfl, rfl, fun e he => hpreview _ e he⟩
      · exact ⟨rfl, rfl, fun e he => absurd he (List.not_mem_nil e)⟩
    · rw [h, hD]
      exact ⟨rfl, rfl, fun e he => hpreview _ e he⟩
    · rw [h, hS]
      split_ifs
      · exact ⟨rfl, rfl, fun e he => absurd he (List.not_mem_nil e)⟩
      · exact ⟨rfl, rfl, fun e he => hpreview _ e he⟩

theorem configuring_calls_write_shadow_only_witness :
    exampleConfiguring.is_configuring = true ∧
      Disconnect exampleConfiguring =
        ({ exampleConfiguring with tmp_is_connected := false },
          TriggerOnChange exampleConfiguring ControllerTriggerType.Disconnected false true) ∧
      IsConnected (Disconnect exampleConfiguring).1 true = false ∧
      GetNpadStyleIndex
        (SetNpadStyleIndex exampleConfiguring NpadStyleIndex.JoyconDual).1 true =
          NpadStyleIndex.JoyconDual ∧
      (∀ r ∈ [Connect exampleConfiguring false, Disconnect exampleConfiguring,
          SetNpadStyleIndex exampleConfiguring NpadStyleIndex.JoyconDual],
        r.1.is_connected = exampleConfiguring.is_connected ∧
          r.1.npad_type = exampleConfiguring.npad_type ∧
          ∀ e ∈ r.2, e.poller.is_npad_service = false) :=
  ⟨by decide,
    (configuring_calls_write_shadow_only exampleConfiguring false NpadStyleIndex.JoyconDual
      (by decide)).2.1,
    (configuring_calls_write_shadow_only exampleConfiguring false NpadStyleIndex.JoyconDual
      (by decide)).2.2.2.2.1,
    (configuring_calls_write_shadow_only exampleConfiguring false NpadStyleIndex.JoyconDual
      (by decide)).2.2.2.2.2.1,
    (configuring_calls_write_shadow_only exampleConfiguring false NpadStyleIndex.JoyconDual
      (by decide)).2.2.2.2.2.2⟩

/-- C11, as stated, fails: in configuration mode, a press of button 1 that changes
its value clears the canonical button report of `exampleHeldConfiguring`, in which
bit `a` of both bitsets was set. -/
theorem SetButton_configuring_clears_report :
    exampleHeldConfiguring.is_configuring = true ∧
      exampleHeldConfiguring.controller.npad_button_state.a = true ∧
      (SetButton NativeButton.listed exampleHeldConfiguring { value := true } 1 1).1.controller.npad_button_state.a = false ∧
      (SetButton NativeButton.listed exampleHeldConfiguring { value := true } 1 1).1.controller.npad_button_state ≠
        exampleHeldConfiguring.controller.npad_button_state ∧
      (SetButton NativeButton.listed exampleHeldConfiguring { value := true } 1 1).1.controller.debug_pad_button_state ≠
        exampleHeldConfiguring.controller.debug_pad_button_state := by
  decide

/-- C11, amended: in configuration mode an accepted, value-changing `SetButton`
resets the canonical button report to the neutral pose (every bit of the npad and
debug-pad button bitsets is cleared, none is set from the signal), and its
notification is preview-only: the subscribers invoked are those of a `Button`
update that is not a service update, none of them service-internal. -/
theorem SetButton_configuring_resets_report (N : NativeButton.Values)
    (s : EmulatedController) (new_status : ButtonStatus) (index : Nat) (uuid : UUID)
    (current_status : ButtonStatus)
    (hcfg : s.is_configuring = true)
    (hcur : s.controller.button_values[index]? = some current_status)
    (hacc : current_status.uuid = uuid ∨ new_status.value = true)
    (hchanged : (SetButton.update current_status new_status uuid).2 = true) :
    (SetButton N s new_status index uuid).1.controller.npad_button_state = {} ∧
      (SetButton N s new_status index uuid).1.controller.debug_pad_button_state = {} ∧
      (SetButton N s new_status index uuid).2 =
        TriggerOnChange s ControllerTriggerType.Button false true ∧
      (∀ e ∈ (SetButton N s new_status index uuid).2, e.poller.is_npad_service = false) := by
  have hrej : ¬ (current_status.uuid ≠ uuid ∧ new_status.value = false) := by
    rintro ⟨h1, h2⟩
    rcases hacc with h | h
    · exact h1 h
    · rw [h2] at h; exact Bool.noConfusion h
  have hout : SetButton N s new_status index uuid =
      ({ s with
          controller.button_values :=
            s.controller.button_values.set index (SetButton.update current_status new_status uuid).1,
          controller.npad_button_state := {},
          controller.debug_pad_button_state := {} },
        TriggerOnChange s ControllerTriggerType.Button false true) := by
    simp only [SetButton, hcur, hrej, if_false, hchanged, hcfg, Bool.not_true, Bool.false_eq_true,
      if_true]
    rfl
  rw [hout]
  refine ⟨rfl, rfl, rfl, ?_⟩
  intro e he
  exact (TriggerOnChange.loop_mem ControllerTriggerType.Button false true s.callback_list e he).2.2.2.2 rfl

theorem SetButton_configuring_resets_report_witness :
    (SetButton NativeButton.listed exampleHeldConfiguring { value := true } 1 1).1.controller.npad_button_state = {} ∧
      (SetButton NativeButton.listed exampleHeldConfiguring { value := true } 1 1).1.controller.debug_pad_button_state = {} ∧
      (SetButton NativeButton.listed exampleHeldConfiguring { value := true } 1 1).2 =
        TriggerOnChange exampleHeldConfiguring ControllerTriggerType.Button false true ∧
      (∀ e ∈ (SetButton NativeButton.listed exampleHeldConfiguring { value := true } 1 1).2,
        e.poller.is_npad_service = false) :=
  SetButton_configuring_resets_report NativeButton.listed exampleHeldConfiguring
    { value := true } 1 1 { uuid := 1 } (by decide) (by decide) (by decide) (by decide)

/-- C12: `Connect` on a controller whose variant (the one `Connect` tests: the
temporary variant in configuration mode when asked for, the canonical one
otherwise) is not supported by the capability set is rejected: the whole state,
with the canonical and the shadow connection flag, is unchanged and no subscriber
is invoked. -/
theorem Connect_unsupported_rejected (s : EmulatedController) (use_temporary_value : Bool)
    (hunsupported : IsControllerSupported s use_temporary_value = false) :
    (Connect s use_temporary_value).1 = s ∧
      (Connect s use_temporary_value).1.is_connected = s.is_connected ∧
      (Connect s use_temporary_value).1.tmp_is_connected = s.tmp_is_connected ∧
      (Connect s use_temporary_value).2 = [] := by
  have h : Connect s use_temporary_value = (s, []) := by
    simp [Connect, hunsupported]
  rw [h]
  exact ⟨rfl, rfl, rfl, rfl⟩

theorem Connect_unsupported_rejected_witness :
    (Connect { exampleController with npad_type := NpadStyleIndex.GameCube } false).1 =
        { exampleController with npad_type := NpadStyleIndex.GameCube } ∧
      (Connect { exampleController with npad_type := NpadStyleIndex.GameCube } false).1.is_connected =
        ({ exampleController with npad_type := NpadStyleIndex.GameCube } : EmulatedController).is_connected ∧
      (Connect { exampleController with npad_type := NpadStyleIndex.GameCube } false).1.tmp_is_connected =
        ({ exampleController with npad_type := NpadStyleIndex.GameCube } : EmulatedController).tmp_is_connected ∧
      (Connect { exampleController with npad_type := NpadStyleIndex.GameCube } false).2 = [] :=
  Connect_unsupported_rejected { exampleController with npad_type := NpadStyleIndex.GameCube }
    false (by decide)

/-- C13, as stated, fails in configuration mode. On `exampleGameCubeConfiguring`
(connected GameCube) a capability update that supports only handheld leaves the
canonical state connected with the unsupported GameCube variant, because
`Disconnect` writes the shadow only. On `exampleGameCubeShadow` the same update
returns at once and leaves the shadow connected with the unsupported variant. The
first outcome is the same when the omitted arguments default to `true`. -/
theorem SetSupportedNpadStyleTag_configuring_stays_connected :
    (exampleGameCubeConfiguring.is_connected = true ∧
        IsControllerSupported.flag { handheld := true } exampleGameCubeConfiguring.npad_type = false ∧
        (SetSupportedNpadStyleTag DefaultArguments.listed exampleGameCubeConfiguring
          { handheld := true }).1.is_connected = true ∧
        IsControllerSupported
          (SetSupportedNpadStyleTag DefaultArguments.listed exampleGameCubeConfiguring
            { handheld := true }).1 false = false) ∧
      (IsConnected exampleGameCubeShadow true = true ∧
        IsControllerSupported.flag { handheld := true }
          (GetNpadStyleIndex exampleGameCubeShadow true) = false ∧
        IsConnected
          (SetSupportedNpadStyleTag DefaultArguments.listed exampleGameCubeShadow
            { handheld := true }).1 true = true ∧
        IsControllerSupported
          (SetSupportedNpadStyleTag DefaultArguments.listed exampleGameCubeShadow
            { handheld := true }).1 true = false) ∧
      ((SetSupportedNpadStyleTag
          { IsControllerSupported := true, IsControllerFullkey := true, Connect := true }
          exampleGameCubeConfiguring { handheld := true }).1.is_connected = true ∧
        IsControllerSupported
          (SetSupportedNpadStyleTag
            { IsControllerSupported := true, IsControllerFullkey := true, Connect := true }
            exampleGameCubeConfiguring { handheld := true }).1 false = false) := by
  decide

/-- C13, amended: outside configuration mode, for every controller state and every
capability set, after `SetSupportedNpadStyleTag` the capability set is the new one
and the controller is either disconnected or connected with a variant that the new
set supports: "connected implies variant supported" holds after the update, in
particular when the controller was connected with a variant the new set does not
support. -/
theorem SetSupportedNpadStyleTag_keeps_valid (D : DefaultArguments) (s : EmulatedController)
    (supported_styles : NpadStyleTag) (hcfg : s.is_configuring = false) :
    (SetSupportedNpadStyleTag D s supported_styles).1.supported_style_tag = supported_styles ∧
      ((SetSupportedNpadStyleTag D s supported_styles).1.is_connected = false ∨
        ((SetSupportedNpadStyleTag D s supported_styles).1.is_connected = true ∧
          IsControllerSupported (SetSupportedNpadStyleTag D s supported_styles).1 false = true)) ∧
      canonicalValid (SetSupportedNpadStyleTag D s supported_styles).1 := by
  rw [SetSupportedNpadStyleTag_canonical D s supported_styles hcfg]
  unfold canonicalValid
  cases hconn : s.is_connected <;>
    cases hsup : IsControllerSupported.flag supported_styles s.npad_type <;>
    cases hfam : IsControllerFullkey s false <;>
    cases hfk : supported_styles.fullkey <;>
    simp [hconn, hsup, hfam, hfk, IsControllerSupported, hcfg]
  exact hfk

theorem SetSupportedNpadStyleTag_keeps_valid_witness :
    (SetSupportedNpadStyleTag DefaultArguments.listed
        { exampleController with npad_type := NpadStyleIndex.GameCube, is_connected := true }
        { handheld := true }).1.supported_style_tag = { handheld := true } ∧
      ((SetSupportedNpadStyleTag DefaultArguments.listed
          { exampleController with npad_type := NpadStyleIndex.GameCube, is_connected := true }
          { handheld := true }).1.is_connected = false ∨
        ((SetSupportedNpadStyleTag DefaultArguments.listed
            { exampleController with npad_type := NpadStyleIndex.GameCube, is_connected := true }
            { handheld := true }).1.is_connected = true ∧
          IsControllerSupported (SetSupportedNpadStyleTag DefaultArguments.listed
            { exampleController with npad_type := NpadStyleIndex.GameCube, is_connected := true }
            { handheld := true }).1 false = true)) ∧
      canonicalValid (SetSupportedNpadStyleTag DefaultArguments.listed
        { exampleController with npad_type := NpadStyleIndex.GameCube, is_connected := true }
        { handheld := true }).1 :=
  SetSupportedNpadStyleTag_keeps_valid DefaultArguments.listed
    { exampleController with npad_type := NpadStyleIndex.GameCube, is_connected := true }
    { handheld := true } (by decide)

/-- C14: outside configuration mode, for a connected controller whose variant the
new capability set does not support, `SetSupportedNpadStyleTag` ends with the
variant `ProController` and the controller connected when the variant is of the
full-key family (ProController, GameCube, NES, SNES, N64, SegaGenesis) and the
`fullkey` flag of the set is on, and ends disconnected with the variant unchanged
otherwise. -/
theorem SetSupportedNpadStyleTag_fullkey_fallback (D : DefaultArguments)
    (s : EmulatedController) (supported_styles : NpadStyleTag)
    (hcfg : s.is_configuring = false) (hconn : s.is_connected = true)
    (hunsupported : IsControllerSupported.flag supported_styles s.npad_type = false) :
    ((s.npad_type ∈ [NpadStyleIndex.ProController, NpadStyleIndex.GameCube, NpadStyleIndex.NES,
          NpadStyleIndex.SNES, NpadStyleIndex.N64, NpadStyleIndex.SegaGenesis] ∧
        supported_styles.fullkey = true) →
      (SetSupportedNpadStyleTag D s supported_styles).1.npad_type = NpadStyleIndex.ProController ∧
        (SetSupportedNpadStyleTag D s supported_styles).1.is_connected = true) ∧
      (¬ (s.npad_type ∈ [NpadStyleIndex.ProController, NpadStyleIndex.GameCube, NpadStyleIndex.NES,
          NpadStyleIndex.SNES, NpadStyleIndex.N64, NpadStyleIndex.SegaGenesis] ∧
        supported_styles.fullkey = true) →
      (SetSupportedNpadStyleTag D s supported_styles).1.is_connected = false ∧
        (SetSupportedNpadStyleTag D s supported_styles).1.npad_type = s.npad_type) := by
  rw [SetSupportedNpadStyleTag_canonical D s supported_styles hcfg,
    ← IsControllerFullkey_canonical s false hcfg]
  have h1 : ¬ (s.is_connected = false ∨
      IsControllerSupported.flag supported_styles s.npad_type = true) := by
    rw [hconn, hunsupported]
    simp
  rw [if_neg h1]
  constructor
  · intro h
    rw [if_pos h]
    exact ⟨rfl, rfl⟩
  · intro h
    rw [if_neg h]
    exact ⟨rfl, rfl⟩

theorem SetSupportedNpadStyleTag_fullkey_fallback_witness :
    ((SetSupportedNpadStyleTag DefaultArguments.listed
          { exampleController with npad_type := NpadStyleIndex.GameCube, is_connected := true }
          { fullkey := true }).1.npad_type = NpadStyleIndex.ProController ∧
        (SetSupportedNpadStyleTag DefaultArguments.listed
          { exampleController with npad_type := NpadStyleIndex.GameCube, is_connected := true }
          { fullkey := true }).1.is_connected = true) ∧
      ((SetSupportedNpadStyleTag DefaultArguments.listed
          { exampleController with npad_type := NpadStyleIndex.JoyconLeft, is_connected := true }
          { fullkey := true }).1.is_connected = false ∧
        (SetSupportedNpadStyleTag DefaultArguments.listed
          { exampleController with npad_type := NpadStyleIndex.JoyconLeft, is_connected := true }
          { fullkey := true }).1.npad_type = NpadStyleIndex.JoyconLeft) :=
  ⟨(SetSupportedNpadStyleTag_fullkey_fallback DefaultArguments.listed
      { exampleController with npad_type := NpadStyleIndex.GameCube, is_connected := true }
      { fullkey := true } (by decide) (by decide) (by decide)).1 (by decide),
   (SetSupportedNpadStyleTag_fullkey_fallback DefaultArguments.listed
      { exampleController with npad_type := NpadStyleIndex.JoyconLeft, is_connected := true }
      { fullkey := true } (by decide) (by decide) (by decide)).2 (by decide)⟩

/-- C15: `SetVibration` returns failure and sends no command to any output device
whenever vibration is disabled in the player's configuration, or the channel index
is out of range, or the channel has no bound output device, whatever amplitudes
and frequencies are requested. -/
theorem SetVibration_rejected (output_devices : List (Option OutputDevice))
    (player : PlayerInput) (device_index : Nat) (vibration : VibrationValue)
    (hrejected : player.vibration_enabled = false ∨
      device_index ≥ output_devices.length ∨ output_devices[device_index]? = some none) :
    SetVibration output_devices player device_index vibration = (false, []) := by
  unfold SetVibration
  rcases hrejected with h | h | h
  · cases hd : output_devices[device_index]? with
    | none => rfl
    | some d =>
      cases d with
      | none => rfl
      | some device => simp [h]
  · rw [List.getElem?_eq_none h]
  · rw [h]

theorem SetVibration_rejected_witness :
    SetVibration [some exampleOutput, none] { vibration_enabled := false } 0
        { low_amplitude := F32.finite 1 0 } = (false, []) ∧
      SetVibration [some exampleOutput, none] {} 2 { low_amplitude := F32.finite 1 0 } =
        (false, []) ∧
      SetVibration [some exampleOutput, none] {} 1 { low_amplitude := F32.finite 1 0 } =
        (false, []) :=
  ⟨SetVibration_rejected _ _ _ _ (Or.inl rfl),
   SetVibration_rejected _ _ _ _ (Or.inr (Or.inl (by decide))),
   SetVibration_rejected _ _ _ _ (Or.inr (Or.inr rfl))⟩

/-- C16, as stated, fails: with strength 100 and a requested low amplitude of
`-1.0`, the low amplitude that `SetVibration` sends is below zero (it is `-1.0`):
the code caps the scaled amplitude at `1.0f` and has no lower bound. -/
theorem SetVibration_sends_negative_amplitude :
    (SetVibration [some exampleOutput] { vibration_enabled := true, vibration_strength := 100 } 0
        { low_amplitude := F32.finite (-1) 0 }).2.map
        (fun c => (c.2.low_amplitude, F32.lt c.2.low_amplitude (F32.finite 0 0))) =
      [(F32.finite (-8388608) (-23), true)] := by
  decide

/-- C16, amended: for every requested amplitude pair and every configured strength
in 0..100, `SetVibration` sends one command whose low and high amplitudes are the
requested amplitudes multiplied by `strength / 100` and capped by
`std::min(_, 1.0f)`: they are never above 1, and they are not below 0 when the
requested amplitude is finite and not below 0 (there is no lower clamp). -/
theorem SetVibration_amplitudes (output_devices : List (Option OutputDevice))
    (player : PlayerInput) (device_index : Nat) (vibration : VibrationValue)
    (device : OutputDevice)
    (hdevice : output_devices[device_index]? = some (some device))
    (henabled : player.vibration_enabled = true)
    (hstrength : 0 ≤ player.vibration_strength ∧ player.vibration_strength ≤ 100) :
    ∃ status, (SetVibration output_devices player device_index vibration).2 =
        [(device_index, status)] ∧
      status.low_amplitude =
        F32.stdMin (F32.mul vibration.low_amplitude
          (F32.div (F32.ofS32 player.vibration_strength) (F32.finite 100 0))) (F32.finite 1 0) ∧
      status.high_amplitude =
        F32.stdMin (F32.mul vibration.high_amplitude
          (F32.div (F32.ofS32 player.vibration_strength) (F32.finite 100 0))) (F32.finite 1 0) ∧
      F32.lt (F32.finite 1 0) status.low_amplitude = false ∧
      F32.lt (F32.finite 1 0) status.high_amplitude = false ∧
      (F32.isFiniteNonneg vibration.low_amplitude = true →
        F32.lt status.low_amplitude (F32.finite 0 0) = false) ∧
      (F32.isFiniteNonneg vibration.high_amplitude = true →
        F32.lt status.high_amplitude (F32.finite 0 0) = false) := by
  have hs := (SetVibration.strength_table player.vibration_strength hstrength.1 hstrength.2).1
  refine ⟨SetVibration.status player vibration, ?_, rfl, rfl,
    F32.stdMin_one_not_above _, F32.stdMin_one_not_above _, ?_, ?_⟩
  · simp [SetVibration, hdevice, henabled]
  · intro h
    exact F32.stdMin_mul_not_below _ _ h hs
  · intro h
    exact F32.stdMin_mul_not_below _ _ h hs

theorem SetVibration_amplitudes_witness :
    ∃ status, (SetVibration [some exampleOutput]
          { vibration_enabled := true, vibration_strength := 50 } 0
          { low_amplitude := F32.finite 1 0, high_amplitude := F32.finite 3 0 }).2 =
        [(0, status)] ∧
      status.low_amplitude =
        F32.stdMin (F32.mul (F32.finite 1 0)
          (F32.div (F32.ofS32 50) (F32.finite 100 0))) (F32.finite 1 0) ∧
      status.high_amplitude =
        F32.stdMin (F32.mul (F32.finite 3 0)
          (F32.div (F32.ofS32 50) (F32.finite 100 0))) (F32.finite 1 0) ∧
      F32.lt (F32.finite 1 0) status.low_amplitude = false ∧
      F32.lt (F32.finite 1 0) status.high_amplitude = false ∧
      (F32.isFiniteNonneg (F32.finite 1 0) = true →
        F32.lt status.low_amplitude (F32.finite 0 0) = false) ∧
      (F32.isFiniteNonneg (F32.finite 3 0) = true →
        F32.lt status.high_amplitude (F32.finite 0 0) = false) :=
  SetVibration_amplitudes [some exampleOutput]
    { vibration_enabled := true, vibration_strength := 50 } 0
    { low_amplitude := F32.finite 1 0, high_amplitude := F32.finite 3 0 } exampleOutput
    rfl rfl (by decide)

/-- C17: for a configured strength of 0 to 100, `SetVibration` sends the
exponential curve exactly when the strength is above 70, that is when
`strength / 100` is strictly above 0.7, and the linear curve otherwise; strength
100 selects exponential, strengths 50 and 70 select linear. -/
theorem SetVibration_curve (output_devices : List (Option OutputDevice))
    (player : PlayerInput) (device_index : Nat) (vibration : VibrationValue)
    (device : OutputDevice)
    (hdevice : output_devices[device_index]? = some (some device))
    (henabled : player.vibration_enabled = true)
    (hstrength : 0 ≤ player.vibration_strength ∧ player.vibration_strength ≤ 100) :
    (SetVibration output_devices player device_index vibration).2.map (fun c => c.2.type) =
        [if (7 : ℚ) / 10 < (player.vibration_strength : ℚ) / 100 then
            VibrationAmplificationType.Exponential
          else VibrationAmplificationType.Linear] ∧
      ((7 : ℚ) / 10 < (player.vibration_strength : ℚ) / 100 ↔ 70 < player.vibration_strength) ∧
      (SetVibration.status { player with vibration_strength := 100 } vibration).type =
        VibrationAmplificationType.Exponential ∧
      (SetVibration.status { player with vibration_strength := 50 } vibration).type =
        VibrationAmplificationType.Linear ∧
      (SetVibration.status { player with vibration_strength := 70 } vibration).type =
        VibrationAmplificationType.Linear := by
  have hs := (SetVibration.strength_table player.vibration_strength hstrength.1 hstrength.2).2
  have hq : (7 : ℚ) / 10 < (player.vibration_strength : ℚ) / 100 ↔
      70 < player.vibration_strength := by
    constructor
    · intro h
      have h1 : (70 : ℚ) < (player.vibration_strength : ℚ) := by linarith
      exact_mod_cast h1
    · intro h
      have h1 : (70 : ℚ) < (player.vibration_strength : ℚ) := by exact_mod_cast h
      linarith
  refine ⟨?_, hq, ?_, ?_, ?_⟩
  · simp only [SetVibration, hdevice, henabled, Bool.not_true, Bool.false_eq_true, if_false,
      List.map_cons, List.map_nil, SetVibration.status, SetVibration.strength, hs,
      decide_eq_true_eq]
    by_cases h : 70 < player.vibration_strength
    · rw [if_pos h, if_pos (hq.mpr h)]
    · rw [if_neg h, if_neg (fun hh => h (hq.mp hh))]
  · simp only [SetVibration.status, SetVibration.strength]
    rw [if_pos (by decide)]
  · simp only [SetVibration.status, SetVibration.strength]
    rw [if_neg (by decide)]
  · simp only [SetVibration.status, SetVibration.strength]
    rw [if_neg (by decide)]

theorem SetVibration_curve_witness :
    (SetVibration [some exampleOutput] { vibration_enabled := true, vibration_strength := 71 } 0
        { low_amplitude := F32.finite 1 0 }).2.map (fun c => c.2.type) =
      [if (7 : ℚ) / 10 <
          ((({ vibration_enabled := true, vibration_strength := 71 } : PlayerInput).vibration_strength : Int) : ℚ) / 100 then
          VibrationAmplificationType.Exponential
        else VibrationAmplificationType.Linear] :=
  (SetVibration_curve [some exampleOutput]
    { vibration_enabled := true, vibration_strength := 71 } 0
    { low_amplitude := F32.finite 1 0 } exampleOutput rfl rfl (by decide)).1


/-- C18, as stated, fails: on a device that rejects the test pulse and accepts the
neutral vibration, the first operation of `TestVibration` fails and `TestVibration`
still reports success. -/
theorem TestVibration_ignores_pulse_failure :
    (SetVibration [some exampleZeroOnlyOutput] {} 0 TestVibration.test_vibration).1 = false ∧
      (SetVibration [some exampleZeroOnlyOutput] {} 0 exampleNeutralVibration).1 = true ∧
      (TestVibration exampleNeutralVibration [some exampleZeroOnlyOutput] {} 0).1 = true := by
  decide

/-- C18, amended: `TestVibration` sends the test pulse and then the neutral
vibration and reports the result of the second operation only: it returns success
exactly when the neutral vibration succeeds (a bound device, vibration enabled and
no error from the device), so it returns failure whenever the neutral vibration
fails; a failure of the test pulse alone is not reported. -/
theorem TestVibration_reports_neutral (DEFAULT_VIBRATION_VALUE : VibrationValue)
    (output_devices : List (Option OutputDevice)) (player : PlayerInput) (device_index : Nat) :
    (TestVibration DEFAULT_VIBRATION_VALUE output_devices player device_index).1 =
        (SetVibration output_devices player device_index DEFAULT_VIBRATION_VALUE).1 ∧
      ((SetVibration output_devices player device_index DEFAULT_VIBRATION_VALUE).1 = false →
        (TestVibration DEFAULT_VIBRATION_VALUE output_devices player device_index).1 = false) ∧
      (TestVibration DEFAULT_VIBRATION_VALUE output_devices player device_index).2 =
        (SetVibration output_devices player device_index TestVibration.test_vibration).2 ++
          (SetVibration output_devices player device_index DEFAULT_VIBRATION_VALUE).2 ∧
      ((TestVibration DEFAULT_VIBRATION_VALUE output_devices player device_index).1 = true ↔
        ∃ device, output_devices[device_index]? = some (some device) ∧
          player.vibration_enabled = true ∧
          device.SetVibration (SetVibration.status player DEFAULT_VIBRATION_VALUE) =
            VibrationError.None) := by
  refine ⟨rfl, fun h => h, rfl, ?_⟩
  simp only [TestVibration, SetVibration]
  cases hd : output_devices[device_index]? with
  | none => simp
  | some d =>
    cases d with
    | none => simp
    | some device =>
      cases he : player.vibration_enabled <;> simp

theorem TestVibration_reports_neutral_witness :
    (SetVibration [some exampleOutput] { vibration_enabled := false } 0
        exampleNeutralVibration).1 = false ∧
      (TestVibration exampleNeutralVibration [some exampleOutput]
        { vibration_enabled := false } 0).1 = false :=
  ⟨by decide,
    (TestVibration_reports_neutral exampleNeutralVibration [some exampleOutput]
      { vibration_enabled := false } 0).2.1 (by decide)⟩

/-- C19: outside configuration mode, `SetBattery` on a valid index writes the
battery cell that the index selects (left, right or dual) with the record of the
raw level: Charging gives level 6 with charging and powered set; Medium gives 6,
Low 4, Critical 2 and Empty 0, each with neither flag set; None, Full and every
other level give level 8 with powered set and charging clear. -/
theorem SetBattery_cell (B : DeviceIndex.Values) (s : EmulatedController)
    (battery : BatteryLevel) (index : Nat)
    (hcfg : s.is_configuring = false) (hindex : index < s.controller.battery_values.length) :
    (B index = some DeviceIndex.LeftIndex →
        (SetBattery B s battery index).1.controller.battery_state.left = SetBattery.info battery) ∧
      (B index = some DeviceIndex.RightIndex →
        (SetBattery B s battery index).1.controller.battery_state.right = SetBattery.info battery) ∧
      (B index = some DeviceIndex.DualIndex →
        (SetBattery B s battery index).1.controller.battery_state.dual = SetBattery.info battery) ∧
      SetBattery.info BatteryLevel.Charging =
        { is_powered := true, is_charging := true, battery_level := 6 } ∧
      SetBattery.info BatteryLevel.Medium =
        { is_powered := false, is_charging := false, battery_level := 6 } ∧
      SetBattery.info BatteryLevel.Low =
        { is_powered := false, is_charging := false, battery_level := 4 } ∧
      SetBattery.info BatteryLevel.Critical =
        { is_powered := false, is_charging := false, battery_level := 2 } ∧
      SetBattery.info BatteryLevel.Empty =
        { is_powered := false, is_charging := false, battery_level := 0 } ∧
      SetBattery.info BatteryLevel.None =
        { is_powered := true, is_charging := false, battery_level := 8 } ∧
      SetBattery.info BatteryLevel.Full =
        { is_powered := true, is_charging := false, battery_level := 8 } ∧
      (∀ raw, SetBattery.info (BatteryLevel.Unlisted raw) =
        { is_powered := true, is_charging := false, battery_level := 8 }) := by
  have hge : ¬ index ≥ s.controller.battery_values.length := not_le.mpr hindex
  refine ⟨?_, ?_, ?_, rfl, rfl, rfl, rfl, rfl, rfl, rfl, fun _ => rfl⟩
  · intro hB
    simp [SetBattery, hge, hcfg, SetBattery.assign, hB]
  · intro hB
    simp [SetBattery, hge, hcfg, SetBattery.assign, hB]
  · intro hB
    simp [SetBattery, hge, hcfg, SetBattery.assign, hB]

theorem SetBattery_cell_witness :
    (SetBattery DeviceIndex.listed exampleBattery BatteryLevel.Low 1).1.controller.battery_state.right =
      SetBattery.info BatteryLevel.Low :=
  (SetBattery_cell DeviceIndex.listed exampleBattery BatteryLevel.Low 1 (by decide)
    (by decide)).2.1 (by decide)

/-- C20: `GetLedPattern` depends only on the player slot and returns {1,0,0,0}
for slot 1, {1,1,0,0} for 2, {1,1,1,0} for 3, {1,1,1,1} for 4, {1,0,0,1} for 5,
{1,0,1,0} for 6, {1,0,1,1} for 7, {0,1,1,0} for 8 and {0,0,0,0} for every other
slot. -/
theorem GetLedPattern_table (s : EmulatedController) :
    (∀ t : EmulatedController, t.npad_id_type = s.npad_id_type →
        GetLedPattern t = GetLedPattern s) ∧
      GetLedPattern s =
        (if s.npad_id_type = NpadIdType.Player1 then LedPattern.mk 1 0 0 0
        else if s.npad_id_type = NpadIdType.Player2 then LedPattern.mk 1 1 0 0
        else if s.npad_id_type = NpadIdType.Player3 then LedPattern.mk 1 1 1 0
        else if s.npad_id_type = NpadIdType.Player4 then LedPattern.mk 1 1 1 1
        else if s.npad_id_type = NpadIdType.Player5 then LedPattern.mk 1 0 0 1
        else if s.npad_id_type = NpadIdType.Player6 then LedPattern.mk 1 0 1 0
        else if s.npad_id_type = NpadIdType.Player7 then LedPattern.mk 1 0 1 1
        else if s.npad_id_type = NpadIdType.Player8 then LedPattern.mk 0 1 1 0
        else LedPattern.mk 0 0 0 0) := by
  constructor
  · intro t h
    simp only [GetLedPattern, h]
  · simp only [GetLedPattern]
    cases s.npad_id_type <;> simp

theorem GetLedPattern_table_witness :
    GetLedPattern { exampleConfiguring with npad_id_type := NpadIdType.Player5 } =
      GetLedPattern { exampleController with npad_id_type := NpadIdType.Player5 } :=
  (GetLedPattern_table { exampleController with npad_id_type := NpadIdType.Player5 }).1
    { exampleConfiguring with npad_id_type := NpadIdType.Player5 } rfl

/-- C21: `TriggerOnChange(kind, is_npad_service_update)` invokes, with the given
kind, exactly the registered subscribers that the update accepts and that hold a
callable: every subscriber for a service update, only those not marked
service-internal otherwise. With distinct registry keys, a registered subscriber
is invoked exactly once when accepted and holding a callable, and not at all
otherwise. -/
theorem TriggerOnChange_invokes_accepted (s : EmulatedController)
    (type : ControllerTriggerType) (is_npad_service_update lock_held : Bool)
    (key : Int) (poller : ControllerUpdateCallback)
    (hkeys : (s.callback_list.map Prod.fst).Nodup)
    (hsub : (key, poller) ∈ s.callback_list) :
    TriggerOnChange s type is_npad_service_update lock_held =
        (s.callback_list.filter
          (fun p => (is_npad_service_update || !p.2.is_npad_service) && p.2.on_change)).map
          (fun p => { key := p.1, poller := p.2, type := type, lock_held := lock_held }) ∧
      (∀ e ∈ TriggerOnChange s type is_npad_service_update lock_held, e.type = type) ∧
      (TriggerOnChange s type is_npad_service_update lock_held).filter
          (fun e => decide (e.key = key)) =
        (if (is_npad_service_update || !poller.is_npad_service) && poller.on_change then
          [{ key := key, poller := poller, type := type, lock_held := lock_held }]
        else []) := by
  refine ⟨TriggerOnChange.loop_eq_filter _ _ _ _, ?_, ?_⟩
  · intro e he
    exact (TriggerOnChange.loop_mem type _ _ _ e he).2.1
  · unfold TriggerOnChange
    rw [TriggerOnChange.loop_eq_filter]
    generalize s.callback_list = l at hkeys hsub
    induction l with
    | nil => simp at hsub
    | cons p rest ih =>
      simp only [List.map_cons, List.nodup_cons] at hkeys
      obtain ⟨hp, hrest⟩ := hkeys
      rcases List.mem_cons.mp hsub with h | h
      · subst h
        have hnone : ∀ (f : Int × ControllerUpdateCallback → Bool),
            ((rest.filter f).map (fun p : Int × ControllerUpdateCallback =>
              ({ key := p.1, poller := p.2, type := type, lock_held := lock_held } :
                Invocation))).filter (fun e => decide (e.key = key)) = [] := by
          intro f
          rw [List.filter_eq_nil_iff]
          intro e he
          obtain ⟨q, hq, rfl⟩ := List.mem_map.mp he
          have hq1 : q ∈ rest := (List.mem_filter.mp hq).1
          simp only [decide_eq_true_eq]
          intro hk
          exact hp (List.mem_map.mpr ⟨q, hq1, hk⟩)
        simp only [List.filter_cons]
        split_ifs with hacc
        · simp [hnone]
        · simp [hnone]
      · have hne : p.1 ≠ key := by
          intro hpk
          apply hp
          rw [hpk]
          exact List.mem_map.mpr ⟨_, h, rfl⟩
        have hrec := ih hrest h
        by_cases hacc :
            ((is_npad_service_update || !p.2.is_npad_service) && p.2.on_change) = true
        · have e1 : List.filter
                (fun q : Int × ControllerUpdateCallback =>
                  (is_npad_service_update || !q.2.is_npad_service) && q.2.on_change) (p :: rest) =
              p :: List.filter
                (fun q : Int × ControllerUpdateCallback =>
                  (is_npad_service_update || !q.2.is_npad_service) && q.2.on_change) rest :=
            List.filter_cons_of_pos hacc
          rw [e1, List.map_cons, List.filter_cons_of_neg (by simpa using hne)]
          exact hrec
        · have e1 : List.filter
                (fun q : Int × ControllerUpdateCallback =>
                  (is_npad_service_update || !q.2.is_npad_service) && q.2.on_change) (p :: rest) =
              List.filter
                (fun q : Int × ControllerUpdateCallback =>
                  (is_npad_service_update || !q.2.is_npad_service) && q.2.on_change) rest :=
            List.filter_cons_of_neg hacc
          rw [e1]
          exact hrec

theorem TriggerOnChange_invokes_accepted_witness :
    TriggerOnChange exampleRegistry ControllerTriggerType.Button false true =
        (exampleRegistry.callback_list.filter
          (fun p => (false || !p.2.is_npad_service) && p.2.on_change)).map
          (fun p => { key := p.1, poller := p.2, type := ControllerTriggerType.Button,
                      lock_held := true }) ∧
      (∀ e ∈ TriggerOnChange exampleRegistry ControllerTriggerType.Button false true,
        e.type = ControllerTriggerType.Button) ∧
      (TriggerOnChange exampleRegistry ControllerTriggerType.Button false true).filter
          (fun e => decide (e.key = 1)) =
        (if (false || !({ on_change := true, is_npad_service := false } :
              ControllerUpdateCallback).is_npad_service) &&
            ({ on_change := true, is_npad_service := false } :
              ControllerUpdateCallback).on_change then
          [{ key := 1, poller := { on_change := true, is_npad_service := false },
             type := ControllerTriggerType.Button, lock_held := true }]
        else []) :=
  TriggerOnChange_invokes_accepted exampleRegistry ControllerTriggerType.Button false true 1
    { on_change := true, is_npad_service := false } (by decide) (by decide)


/-- C22, as stated, fails: on a registry whose container iterates the newest
entry first, five registrations return the keys 0 to 4 in order, and a service
update then invokes the five subscribers in the order 4, 3, 2, 1, 0, which is not
the order in which they were registered; after `DeleteCallback(2)` the order is
4, 3, 1, 0. -/
theorem SetCallback_newest_first_reversed :
    (SetCallback.all callback_list.Arrangement.newest_first exampleFresh exampleSubscribers).2 =
        [0, 1, 2, 3, 4] ∧
      (TriggerOnChange
          (SetCallback.all callback_list.Arrangement.newest_first exampleFresh
            exampleSubscribers).1
          ControllerTriggerType.Button true false).map (fun e => e.key) = [4, 3, 2, 1, 0] ∧
      (TriggerOnChange
          (DeleteCallback
            (SetCallback.all callback_list.Arrangement.newest_first exampleFresh
              exampleSubscribers).1 2)
          ControllerTriggerType.Button true false).map (fun e => e.key) = [4, 3, 1, 0] ∧
      ¬ (TriggerOnChange
            (SetCallback.all callback_list.Arrangement.newest_first exampleFresh
              exampleSubscribers).1
            ControllerTriggerType.Button true false).map (fun e => e.key) =
          (SetCallback.all callback_list.Arrangement.newest_first exampleFresh
            exampleSubscribers).2 := by
  decide

/-- C22, amended: for every sequence of `SetCallback` registrations made on a
registry whose keys lie below the key counter (as they do from construction on),
whatever the order in which the registry container iterates, the registrations
return consecutive keys and `TriggerOnChange` invokes the subscribers invoked
before and the accepted new ones that hold a callable, each exactly once. When the
container iterates by ascending key and the registry's keys ascend, the
invocations are in registration order. -/
theorem SetCallback_invokes_each_once (arrange : callback_list.Arrangement)
    (s : EmulatedController) (cbs : List ControllerUpdateCallback)
    (type : ControllerTriggerType) (is_npad_service_update lock_held : Bool)
    (harr : ∀ l, (arrange l).Perm l)
    (hkeys : ∀ p ∈ s.callback_list, p.1 < s.last_callback_key) :
    (SetCallback.all arrange s cbs).2 =
        (List.range cbs.length).map (fun i : Nat => s.last_callback_key + (i : Int)) ∧
      (TriggerOnChange (SetCallback.all arrange s cbs).1 type is_npad_service_update
          lock_held).Perm
        (TriggerOnChange s type is_npad_service_update lock_held ++
          (((SetCallback.all arrange s cbs).2.zip cbs).filter
            (fun p => (is_npad_service_update || !p.2.is_npad_service) && p.2.on_change)).map
            (fun p => { key := p.1, poller := p.2, type := type, lock_held := lock_held })) ∧
      ((∀ l, (l.map Prod.fst).Pairwise (fun a b => a < b) → arrange l = l) →
        (s.callback_list.map Prod.fst).Pairwise (fun a b => a < b) →
        TriggerOnChange (SetCallback.all arrange s cbs).1 type is_npad_service_update
            lock_held =
          TriggerOnChange s type is_npad_service_update lock_held ++
            (((SetCallback.all arrange s cbs).2.zip cbs).filter
              (fun p => (is_npad_service_update || !p.2.is_npad_service) && p.2.on_change)).map
              (fun p => { key := p.1, poller := p.2, type := type, lock_held := lock_held })) := by
  refine ⟨SetCallback.all_keys arrange cbs s, ?_, ?_⟩
  · have hp := SetCallback.all_perm arrange harr cbs s hkeys
    unfold TriggerOnChange
    rw [← TriggerOnChange.loop_eq_filter type _ _ ((SetCallback.all arrange s cbs).2.zip cbs),
      ← TriggerOnChange.loop_append]
    simp only [TriggerOnChange.loop_eq_filter]
    exact (hp.filter _).map _
  · intro hasc hsorted
    have h2 := SetCallback.all_ascending arrange hasc cbs s hkeys hsorted
    unfold TriggerOnChange
    rw [h2, TriggerOnChange.loop_append, TriggerOnChange.loop_eq_filter type _ _
      ((SetCallback.all arrange s cbs).2.zip cbs)]

theorem SetCallback_invokes_each_once_witness :
    ((TriggerOnChange
          (SetCallback.all callback_list.Arrangement.newest_first exampleRegistry
            exampleSubscribers).1
          ControllerTriggerType.Stick false true).Perm
        (TriggerOnChange exampleRegistry ControllerTriggerType.Stick false true ++
          (((SetCallback.all callback_list.Arrangement.newest_first exampleRegistry
              exampleSubscribers).2.zip exampleSubscribers).filter
            (fun p => (false || !p.2.is_npad_service) && p.2.on_change)).map
            (fun p => { key := p.1, poller := p.2, type := ControllerTriggerType.Stick,
                        lock_held := true }))) ∧
      TriggerOnChange
          (SetCallback.all callback_list.Arrangement.by_key exampleRegistry
            exampleSubscribers).1
          ControllerTriggerType.Stick false true =
        TriggerOnChange exampleRegistry ControllerTriggerType.Stick false true ++
          (((SetCallback.all callback_list.Arrangement.by_key exampleRegistry
              exampleSubscribers).2.zip exampleSubscribers).filter
            (fun p => (false || !p.2.is_npad_service) && p.2.on_change)).map
            (fun p => { key := p.1, poller := p.2, type := ControllerTriggerType.Stick,
                        lock_held := true }) :=
  ⟨(SetCallback_invokes_each_once callback_list.Arrangement.newest_first exampleRegistry
      exampleSubscribers ControllerTriggerType.Stick false true
      callback_list.Arrangement.newest_first_perm (by decide)).2.1,
   (SetCallback_invokes_each_once callback_list.Arrangement.by_key exampleRegistry
      exampleSubscribers ControllerTriggerType.Stick false true
      callback_list.Arrangement.by_key_perm (by decide)).2.2
      callback_list.Arrangement.by_key_ascending (by decide)⟩

/-- C23: `DeleteCallback` with a key that is not in the registry leaves the whole
controller state, registry included, unchanged; with a registered key (registry
keys being distinct) it removes exactly the subscriber of that key, keeps every
other subscriber in place and changes nothing else. -/
theorem DeleteCallback_removes_key (s : EmulatedController) (key : Int) :
    ((∀ p ∈ s.callback_list, p.1 ≠ key) → DeleteCallback s key = s) ∧
      ((s.callback_list.map Prod.fst).Nodup →
        (∃ update_callback, (key, update_callback) ∈ s.callback_list) →
        (DeleteCallback s key).callback_list =
            s.callback_list.filter (fun p => decide (p.1 ≠ key)) ∧
          (∀ p, p ∈ (DeleteCallback s key).callback_list ↔ p ∈ s.callback_list ∧ p.1 ≠ key) ∧
          { DeleteCallback s key with callback_list := s.callback_list } = s) := by
  constructor
  · intro h
    unfold DeleteCallback
    have hany : s.callback_list.any (fun p => decide (p.1 = key)) = false := by
      rw [List.any_eq_false]
      intro p hp
      simpa using h p hp
    rw [hany]
    rfl
  · rintro hkeys ⟨cb, hcb⟩
    have hany : s.callback_list.any (fun p => decide (p.1 = key)) = true := by
      rw [List.any_eq_true]
      exact ⟨(key, cb), hcb, by simp⟩
    have hlist : (DeleteCallback s key).callback_list =
        s.callback_list.filter (fun p => decide (p.1 ≠ key)) := by
      unfold DeleteCallback
      rw [hany]
      exact callback_list.erase_eq_filter _ _ hkeys
    refine ⟨hlist, ?_, ?_⟩
    · intro p
      rw [hlist, List.mem_filter]
      simp
    · unfold DeleteCallback
      rw [hany]
      rfl

theorem DeleteCallback_removes_key_witness :
    DeleteCallback exampleRegistry 7 = exampleRegistry ∧
      ((DeleteCallback exampleRegistry 1).callback_list =
          exampleRegistry.callback_list.filter (fun p => decide (p.1 ≠ 1)) ∧
        (∀ p, p ∈ (DeleteCallback exampleRegistry 1).callback_list ↔
          p ∈ exampleRegistry.callback_list ∧ p.1 ≠ 1) ∧
        { DeleteCallback exampleRegistry 1 with callback_list := exampleRegistry.callback_list } =
          exampleRegistry) :=
  ⟨(DeleteCallback_removes_key exampleRegistry 7).1 (by decide),
   (DeleteCallback_removes_key exampleRegistry 1).2 (by decide)
     ⟨{ on_change := true, is_npad_service := false }, by decide⟩⟩

/-- C24, the code at the failing inputs: an accepted `SetStick` and a `SetBattery`
outside configuration mode, and `SetButton`, `Connect`, `Disconnect`,
`SetNpadStyleIndex` in configuration mode, each invoke a subscriber while the
controller mutex is held. -/
theorem SetStick_notifies_under_lock :
    (SetStick NativeAnalog.listed exampleRegistry { right := true } 0 1).2.map
        (fun e => (e.key, e.type, e.lock_held)) =
        [(0, ControllerTriggerType.Stick, true), (1, ControllerTriggerType.Stick, true)] ∧
      (SetBattery DeviceIndex.listed { exampleRegistryConfiguring with is_configuring := false }
          BatteryLevel.Low 0).2.map (fun e => (e.key, e.type, e.lock_held)) =
        [(0, ControllerTriggerType.Battery, true), (1, ControllerTriggerType.Battery, true)] ∧
      (SetButton NativeButton.listed exampleRegistryConfiguring { value := true } 1 1).2.map
          (fun e => (e.key, e.type, e.lock_held)) =
        [(1, ControllerTriggerType.Button, true)] ∧
      (Connect exampleRegistryConfiguring false).2.map (fun e => (e.key, e.type, e.lock_held)) =
        [(1, ControllerTriggerType.Connected, true)] ∧
      (Disconnect exampleRegistryConfiguring).2.map (fun e => (e.key, e.type, e.lock_held)) =
        [(1, ControllerTriggerType.Disconnected, true)] ∧
      (SetNpadStyleIndex exampleRegistryConfiguring NpadStyleIndex.Handheld).2.map
          (fun e => (e.key, e.type, e.lock_held)) =
        [(1, ControllerTriggerType.Type_, true)] := by
  decide

/-- C25: outside configuration mode, on a controller that is not connected, an
accepted value-changing `SetButton` connects it exactly when the slot is Player 1
with a supported variant other than Handheld, or the slot is Handheld with a
supported Handheld variant; for every other slot and variant the connection flag
is unchanged. -/
theorem SetButton_auto_connect (N : NativeButton.Values) (s : EmulatedController)
    (new_status : ButtonStatus) (index : Nat) (uuid : UUID) (current_status : ButtonStatus)
    (hcfg : s.is_configuring = false) (hconn : s.is_connected = false)
    (hcur : s.controller.button_values[index]? = some current_status)
    (hacc : current_status.uuid = uuid ∨ new_status.value = true)
    (hchanged : (SetButton.update current_status new_status uuid).2 = true) :
    ((SetButton N s new_status index uuid).1.is_connected = true ↔
        (s.npad_id_type = NpadIdType.Player1 ∧ s.npad_type ≠ NpadStyleIndex.Handheld ∧
            IsControllerSupported.flag s.supported_style_tag s.npad_type = true) ∨
          (s.npad_id_type = NpadIdType.Handheld ∧ s.npad_type = NpadStyleIndex.Handheld ∧
            IsControllerSupported.flag s.supported_style_tag s.npad_type = true)) ∧
      (¬ ((s.npad_id_type = NpadIdType.Player1 ∧ s.npad_type ≠ NpadStyleIndex.Handheld ∧
            IsControllerSupported.flag s.supported_style_tag s.npad_type = true) ∨
          (s.npad_id_type = NpadIdType.Handheld ∧ s.npad_type = NpadStyleIndex.Handheld ∧
            IsControllerSupported.flag s.supported_style_tag s.npad_type = true)) →
        (SetButton N s new_status index uuid).1.is_connected = s.is_connected) := by
  obtain ⟨_, _, _, _, _, c6, _⟩ :=
    SetButton_changed N s new_status index uuid current_status hcfg hcur hacc hchanged
  have hiff : SetButton.autoConnects s = true ↔
      (s.npad_id_type = NpadIdType.Player1 ∧ s.npad_type ≠ NpadStyleIndex.Handheld ∧
          IsControllerSupported.flag s.supported_style_tag s.npad_type = true) ∨
        (s.npad_id_type = NpadIdType.Handheld ∧ s.npad_type = NpadStyleIndex.Handheld ∧
          IsControllerSupported.flag s.supported_style_tag s.npad_type = true) := by
    simp only [SetButton.autoConnects, IsControllerSupported, hconn, hcfg, Bool.not_false,
      Bool.true_and, Bool.false_and, Bool.false_eq_true, if_false, Bool.and_eq_true,
      Bool.or_eq_true, decide_eq_true_eq]
    tauto
  rw [c6, hconn, Bool.false_or]
  refine ⟨hiff, ?_⟩
  intro h
  cases hA : SetButton.autoConnects s
  · rfl
  · exact absurd (hiff.mp hA) h

theorem SetButton_auto_connect_witness :
    ((SetButton NativeButton.listed exampleController { value := true } 1 1).1.is_connected = true ↔
        (exampleController.npad_id_type = NpadIdType.Player1 ∧
            exampleController.npad_type ≠ NpadStyleIndex.Handheld ∧
            IsControllerSupported.flag exampleController.supported_style_tag
              exampleController.npad_type = true) ∨
          (exampleController.npad_id_type = NpadIdType.Handheld ∧
            exampleController.npad_type = NpadStyleIndex.Handheld ∧
            IsControllerSupported.flag exampleController.supported_style_tag
              exampleController.npad_type = true)) ∧
      (SetButton NativeButton.listed { exampleController with npad_id_type := NpadIdType.Player2 }
          { value := true } 1 1).1.is_connected =
        ({ exampleController with npad_id_type := NpadIdType.Player2 } :
          EmulatedController).is_connected :=
  ⟨(SetButton_auto_connect NativeButton.listed exampleController { value := true } 1 1
      { uuid := 1 } (by decide) (by decide) (by decide) (by decide) (by decide)).1,
   (SetButton_auto_connect NativeButton.listed
      { exampleController with npad_id_type := NpadIdType.Player2 } { value := true } 1 1
      { uuid := 1 } (by decide) (by decide) (by decide) (by decide) (by decide)).2 (by decide)⟩

/-- C26: the code does not hold the lock at every read and write of state.
`EnableConfiguration` writes the mode flag and the shadow pair, `DisableConfiguration`
writes the mode flag and reads both variants, `SetSupportedNpadStyleTag` writes the
capability set, and the accessors read the mode flag and the report, all with no lock
held; the sibling `SetNpadStyleIndex` makes every one of its accesses under the
lock. -/
theorem EnableConfiguration_accesses_without_lock :
    EnableConfiguration.accesses.map (fun a => (a.member, a.write, a.lock_held)) =
        [(Member.is_configuring, true, false), (Member.is_connected, false, false),
         (Member.tmp_is_connected, true, false), (Member.npad_type, false, false),
         (Member.tmp_npad_type, true, false)] ∧
      (DisableConfiguration.accesses exampleConfiguring).map
          (fun a => (a.member, a.write, a.lock_held)) =
        [(Member.is_configuring, true, false), (Member.tmp_npad_type, false, false),
         (Member.npad_type, false, false), (Member.is_connected, false, false)] ∧
      SetSupportedNpadStyleTag.accesses.map (fun a => (a.member, a.write, a.lock_held)) =
        [(Member.supported_style_tag, true, false), (Member.is_connected, false, false)] ∧
      GetButtonsValues.accesses.map (fun a => (a.member, a.write, a.lock_held)) =
        [(Member.controller, false, false)] ∧
      (GetNpadButtons.accesses exampleController).map
          (fun a => (a.member, a.write, a.lock_held)) =
        [(Member.is_configuring, false, false), (Member.controller, false, false)] ∧
      (SetNpadStyleIndex.accesses exampleController NpadStyleIndex.Handheld).map
          (fun a => (a.member, a.write, a.lock_held)) =
        [(Member.is_configuring, false, true), (Member.npad_type, false, true),
         (Member.is_connected, false, true), (Member.npad_type, true, true)] := by
  decide

/-- C27: in toggle mode, a press received while the button is locked leaves the
button's stored value unchanged and invokes no subscriber; and for every button
state a toggle-mode release leaves the stored value unchanged (and invokes no
subscriber either). -/
theorem SetButton_toggle_lock (N : NativeButton.Values) (s : EmulatedController)
    (new_status : ButtonStatus) (index : Nat) (uuid : UUID) (current_status : ButtonStatus)
    (hcur : s.controller.button_values[index]? = some current_status)
    (htoggle : new_status.toggle = true) :
    (new_status.value = true → current_status.locked = true →
        ((SetButton N s new_status index uuid).1.controller.button_values[index]?).map
            (fun c => c.value) = some current_status.value ∧
          (SetButton N s new_status index uuid).2 = []) ∧
      (new_status.value = false →
        ((SetButton N s new_status index uuid).1.controller.button_values[index]?).map
            (fun c => c.value) = some current_status.value ∧
          (SetButton N s new_status index uuid).2 = []) := by
  constructor
  · intro hpress hlocked
    have hunch : (SetButton.update current_status new_status uuid).2 = false := by
      simp [SetButton.update, htoggle, hpress, hlocked]
    refine ⟨?_, SetButton_unchanged_silent N s new_status index uuid current_status hcur hunch⟩
    rw [SetButton_button_get N s new_status index uuid current_status hcur (Or.inr hpress)]
    simp [SetButton.update, htoggle, hpress, hlocked]
  · intro hrelease
    have hunch : (SetButton.update current_status new_status uuid).2 = false := by
      simp only [SetButton.update, htoggle, hrelease]
      cases current_status.locked <;> rfl
    refine ⟨?_, SetButton_unchanged_silent N s new_status index uuid current_status hcur hunch⟩
    by_cases howner : current_status.uuid = uuid
    · rw [SetButton_button_get N s new_status index uuid current_status hcur (Or.inl howner)]
      simp only [SetButton.update, htoggle, hrelease]
      cases current_status.locked <;> simp
    · have hrej : SetButton N s new_status index uuid = (s, []) := by
        simp [SetButton, hcur, howner, hrelease]
      rw [hrej, hcur]
      rfl

theorem SetButton_toggle_lock_witness :
    (((SetButton NativeButton.listed exampleLocked { value := true, toggle := true } 0 1).1.controller.button_values[0]?).map
          (fun c => c.value) = some true ∧
        (SetButton NativeButton.listed exampleLocked { value := true, toggle := true } 0 1).2 = []) ∧
      (((SetButton NativeButton.listed exampleController { value := false, toggle := true } 0 1).1.controller.button_values[0]?).map
          (fun c => c.value) = some true ∧
        (SetButton NativeButton.listed exampleController { value := false, toggle := true } 0 1).2 = []) :=
  ⟨(SetButton_toggle_lock NativeButton.listed exampleLocked
      { value := true, toggle := true } 0 1
      { uuid := 1, value := true, toggle := true, locked := true } (by decide) (by decide)).1
      (by decide) (by decide),
   (SetButton_toggle_lock NativeButton.listed exampleController
      { value := false, toggle := true } 0 1 { uuid := 1, value := true } (by decide)
      (by decide)).2 (by decide)⟩


/-- C28: for every button state and every accepted `SetButton` call, `Button`
notifications are sent (one `TriggerOnChange` call) if and only if the call changed
the button's stored value, so a registered subscriber that holds a callable and is
not service-internal receives a `Button` notification exactly in that case; with
toggle-mode disabled the stored value after the call equals the pressed signal and
`locked` is false. -/
theorem SetButton_notifies_iff_changed (N : NativeButton.Values) (s : EmulatedController)
    (new_status : ButtonStatus) (index : Nat) (uuid : UUID) (current_status : ButtonStatus)
    (hcur : s.controller.button_values[index]? = some current_status)
    (hacc : current_status.uuid = uuid ∨ new_status.value = true) :
    (SetButton N s new_status index uuid).1.controller.button_values[index]? =
        some (SetButton.update current_status new_status uuid).1 ∧
      (SetButton N s new_status index uuid).2.filter
          (fun e => decide (e.type = ControllerTriggerType.Button)) =
        (if (SetButton.update current_status new_status uuid).1.value ≠ current_status.value then
          TriggerOnChange s ControllerTriggerType.Button (!s.is_configuring) s.is_configuring
        else []) ∧
      (∀ key poller, (key, poller) ∈ s.callback_list → poller.on_change = true →
        poller.is_npad_service = false →
        ((∃ e ∈ (SetButton N s new_status index uuid).2,
            e.key = key ∧ e.poller = poller ∧ e.type = ControllerTriggerType.Button) ↔
          (SetButton.update current_status new_status uuid).1.value ≠ current_status.value)) ∧
      (new_status.toggle = false →
        (SetButton.update current_status new_status uuid).1.value = new_status.value ∧
          (SetButton.update current_status new_status uuid).1.locked = false) := by
  have hF := SetButton_button_invocations N s new_status index uuid current_status hcur hacc
  refine ⟨SetButton_button_get N s new_status index uuid current_status hcur hacc, hF, ?_, ?_⟩
  · intro key poller hsub hcb hsvc
    constructor
    · rintro ⟨e, he, _, _, htype⟩
      by_contra hne
      rw [if_neg (not_not.mpr hne)] at hF
      have hmem : e ∈ (SetButton N s new_status index uuid).2.filter
          (fun e => decide (e.type = ControllerTriggerType.Button)) :=
        List.mem_filter.mpr ⟨he, by simp [htype]⟩
      rw [hF] at hmem
      exact absurd hmem (List.not_mem_nil e)
    · intro hne
      rw [if_pos hne] at hF
      have hmem : Invocation.mk key poller ControllerTriggerType.Button s.is_configuring ∈
          TriggerOnChange s ControllerTriggerType.Button (!s.is_configuring) s.is_configuring := by
        unfold TriggerOnChange
        rw [TriggerOnChange.loop_eq_filter]
        refine List.mem_map.mpr ⟨(key, poller), List.mem_filter.mpr ⟨hsub, ?_⟩, rfl⟩
        simp [hcb, hsvc]
      rw [← hF] at hmem
      exact ⟨_, (List.mem_filter.mp hmem).1, rfl, rfl, rfl⟩
  · intro htoggle
    simp only [SetButton.update, htoggle]
    cases current_status.value <;> cases new_status.value <;> simp

theorem SetButton_notifies_iff_changed_witness :
    (SetButton NativeButton.listed exampleRegistry { value := true } 1 1).1.controller.button_values[1]? =
        some (SetButton.update { uuid := 1 } { value := true } 1).1 ∧
      ((∃ e ∈ (SetButton NativeButton.listed exampleRegistry { value := true } 1 1).2,
          e.key = 1 ∧ e.poller = { on_change := true, is_npad_service := false } ∧
            e.type = ControllerTriggerType.Button) ↔
        (SetButton.update { uuid := 1 } { value := true } 1).1.value ≠
          ({ uuid := 1 } : ButtonStatus).value) ∧
      ((SetButton.update { uuid := 1 } { value := true } 1).1.value = true ∧
        (SetButton.update { uuid := 1 } { value := true } 1).1.locked = false) :=
  ⟨(SetButton_notifies_iff_changed NativeButton.listed exampleRegistry { value := true } 1 1
      { uuid := 1 } (by decide) (by decide)).1,
   (SetButton_notifies_iff_changed NativeButton.listed exampleRegistry { value := true } 1 1
      { uuid := 1 } (by decide) (by decide)).2.2.1 1
      { on_change := true, is_npad_service := false } (by decide) (by decide) (by decide),
   (SetButton_notifies_iff_changed NativeButton.listed exampleRegistry { value := true } 1 1
      { uuid := 1 } (by decide) (by decide)).2.2.2 (by decide)⟩

/-- C29, the code at the failing input: on tables with empty handles and mapped
buttons, with a factory that creates a device from every descriptor, `LoadDevices`
fills the trigger handles from the trigger descriptors but leaves both battery
handles empty, although each battery descriptor yields a device; `ReloadInput`
then binds no `SetBattery` callback. -/
theorem LoadDevices_leaves_battery_devices_empty :
    (LoadDevices LoadDevices.Constants.listed (fun param => some param)
        (fun _ => some exampleOutput) exampleTables).battery_devices = [none, none] ∧
      (LoadDevices LoadDevices.Constants.listed (fun param => some param)
        (fun _ => some exampleOutput) exampleTables).battery_params.map (fun param => some param) =
        [some [("engine", "keyboard"), ("battery", "1")],
         some [("engine", "keyboard"), ("battery", "1")]] ∧
      (LoadDevices LoadDevices.Constants.listed (fun param => some param)
        (fun _ => some exampleOutput) exampleTables).trigger_devices =
        [some [("engine", "keyboard")], some [("engine", "keyboard")]] ∧
      ReloadInput.battery LoadDevices.Constants.listed (fun param => some param)
        (fun _ => some exampleOutput) exampleTables = [] := by
  decide

/-- C30: `MapNPadToSettingsType (MapSettingsTypeToNPad t) = t` for each of the
eleven settings controller types, `MapSettingsTypeToNPad (MapNPadToSettingsType s)
= s` for each of the eleven corresponding style indices, and every other input of
either function maps to `ProController`. -/
theorem MapSettingsTypeToNPad_roundtrip :
    (∀ t ∈ [Settings.ControllerType.ProController, Settings.ControllerType.DualJoyconDetached,
          Settings.ControllerType.LeftJoycon, Settings.ControllerType.RightJoycon,
          Settings.ControllerType.Handheld, Settings.ControllerType.GameCube,
          Settings.ControllerType.Pokeball, Settings.ControllerType.NES,
          Settings.ControllerType.SNES, Settings.ControllerType.N64,
          Settings.ControllerType.SegaGenesis],
        MapNPadToSettingsType (MapSettingsTypeToNPad t) = t) ∧
      (∀ s ∈ [NpadStyleIndex.ProController, NpadStyleIndex.JoyconDual, NpadStyleIndex.JoyconLeft,
          NpadStyleIndex.JoyconRight, NpadStyleIndex.Handheld, NpadStyleIndex.GameCube,
          NpadStyleIndex.Pokeball, NpadStyleIndex.NES, NpadStyleIndex.SNES, NpadStyleIndex.N64,
          NpadStyleIndex.SegaGenesis],
        MapSettingsTypeToNPad (MapNPadToSettingsType s) = s) ∧
      (∀ raw, MapSettingsTypeToNPad (Settings.ControllerType.Unlisted raw) =
        NpadStyleIndex.ProController) ∧
      (∀ raw, MapNPadToSettingsType (NpadStyleIndex.Unlisted raw) =
        Settings.ControllerType.ProController) := by
  refine ⟨?_, ?_, fun _ => rfl, fun _ => rfl⟩
  · intro t ht
    simp only [List.mem_cons, List.mem_singleton, List.not_mem_nil, or_false] at ht
    rcases ht with h | h | h | h | h | h | h | h | h | h | h <;> subst h <;> rfl
  · intro s hs
    simp only [List.mem_cons, List.mem_singleton, List.not_mem_nil, or_false] at hs
    rcases hs with h | h | h | h | h | h | h | h | h | h | h <;> subst h <;> rfl

theorem MapSettingsTypeToNPad_roundtrip_witness :
    MapNPadToSettingsType (MapSettingsTypeToNPad Settings.ControllerType.DualJoyconDetached) =
        Settings.ControllerType.DualJoyconDetached ∧
      MapSettingsTypeToNPad (MapNPadToSettingsType NpadStyleIndex.SegaGenesis) =
        NpadStyleIndex.SegaGenesis :=
  ⟨MapSettingsTypeToNPad_roundtrip.1 _ (by decide), MapSettingsTypeToNPad_roundtrip.2.1 _ (by decide)⟩

/-- C31: the (engine, guid, port) triples of the list that `GetMappedDevices`
returns are pairwise distinct; a triple is in the list exactly when it is the triple
of a button descriptor that has an engine or of a stick descriptor that has an
engine other than `analog_from_button`; and the triples stand in order of first
occurrence, buttons before sticks. -/
theorem GetMappedDevices_first_occurrences (button_params stick_params : List ParamPackage)
    (device_index : Nat) :
    ((GetMappedDevices button_params stick_params device_index).map
        GetMappedDevices.triple).Nodup ∧
      (∀ t, t ∈ (GetMappedDevices button_params stick_params device_index).map
            GetMappedDevices.triple ↔
          (∃ param ∈ button_params,
              ParamPackage.Has param "engine" = true ∧ GetMappedDevices.triple param = t) ∨
            (∃ param ∈ stick_params,
              ParamPackage.Has param "engine" = true ∧
                ParamPackage.Get param "engine" "" ≠ "analog_from_button" ∧
                GetMappedDevices.triple param = t)) ∧
      (GetMappedDevices button_params stick_params device_index).map GetMappedDevices.triple =
        firstOccurrences
          ((button_params.filter (fun param => ParamPackage.Has param "engine")).map
              GetMappedDevices.triple ++
            (stick_params.filter
              (fun param =>
                ParamPackage.Has param "engine" &&
                  decide (ParamPackage.Get param "engine" "" ≠ "analog_from_button"))).map
              GetMappedDevices.triple) := by
  have hb : (fun (devices : List ParamPackage) (param : ParamPackage) =>
      if (!ParamPackage.Has param "engine") = true then devices
      else GetMappedDevices.push_back devices param) =
      (fun devices param =>
        if (fun param => ParamPackage.Has param "engine") param then
          GetMappedDevices.push_back devices param
        else devices) := by
    funext devices param
    cases h : ParamPackage.Has param "engine" <;> simp [h]
  have hs : (fun (devices : List ParamPackage) (param : ParamPackage) =>
      if (!ParamPackage.Has param "engine") = true then devices
      else if ParamPackage.Get param "engine" "" = "analog_from_button" then devices
      else GetMappedDevices.push_back devices param) =
      (fun devices param =>
        if (fun param => ParamPackage.Has param "engine" &&
            decide (ParamPackage.Get param "engine" "" ≠ "analog_from_button")) param then
          GetMappedDevices.push_back devices param
        else devices) := by
    funext devices param
    cases h1 : ParamPackage.Has param "engine" <;>
      by_cases h : ParamPackage.Get param "engine" "" = "analog_from_button" <;> simp [h, h1]
  have heq : (GetMappedDevices button_params stick_params device_index).map
      GetMappedDevices.triple =
      firstOccurrences
        ((button_params.filter (fun param => ParamPackage.Has param "engine")).map
            GetMappedDevices.triple ++
          (stick_params.filter
            (fun param =>
              ParamPackage.Has param "engine" &&
                decide (ParamPackage.Get param "engine" "" ≠ "analog_from_button"))).map
            GetMappedDevices.triple) := by
    unfold GetMappedDevices
    simp only
    rw [hb, hs, GetMappedDevices.foldl_triples, GetMappedDevices.foldl_triples, List.map_nil,
      ← List.foldl_append]
    have hfo := firstOccurrences_foldl
      ((button_params.filter (fun param => ParamPackage.Has param "engine")).map
          GetMappedDevices.triple ++
        (stick_params.filter
          (fun param =>
            ParamPackage.Has param "engine" &&
              decide (ParamPackage.Get param "engine" "" ≠ "analog_from_button"))).map
          GetMappedDevices.triple) []
    simp only [List.nil_append, List.not_mem_nil, not_false_eq_true, decide_True,
      List.filter_true] at hfo
    convert hfo
  refine ⟨?_, ?_, heq⟩
  · rw [heq]
    exact firstOccurrences_nodup _
  · intro t
    rw [heq, firstOccurrences_mem]
    simp only [List.mem_append, List.mem_map, List.mem_filter, Bool.and_eq_true,
      decide_eq_true_eq]
    constructor
    · rintro (⟨p, ⟨hp, h1⟩, h2⟩ | ⟨p, ⟨hp, h1, h2⟩, h3⟩)
      · exact Or.inl ⟨p, hp, h1, h2⟩
      · exact Or.inr ⟨p, hp, h1, h2, h3⟩
    · rintro (⟨p, hp, h1, h2⟩ | ⟨p, hp, h1, h2, h3⟩)
      · exact Or.inl ⟨p, ⟨hp, h1⟩, h2⟩
      · exact Or.inr ⟨p, ⟨hp, h1, h2⟩, h3⟩

/-- C32: outside configuration mode, `Connect` on a connected controller and
`Disconnect` on a disconnected controller return the state unchanged with no
notification; and a second `Connect` (or `Disconnect`) right after the first
leaves the state of the first call and adds no notification to those of the first
call. -/
theorem Connect_Disconnect_idempotent (s : EmulatedController) (use_temporary_value : Bool)
    (hcfg : s.is_configuring = false) :
    (s.is_connected = true → Connect s use_temporary_value = (s, [])) ∧
      (s.is_connected = false → Disconnect s = (s, [])) ∧
      ((Connect (Connect s use_temporary_value).1 use_temporary_value).1 =
          (Connect s use_temporary_value).1 ∧
        (Connect s use_temporary_value).2 ++
            (Connect (Connect s use_temporary_value).1 use_temporary_value).2 =
          (Connect s use_temporary_value).2) ∧
      ((Disconnect (Disconnect s).1).1 = (Disconnect s).1 ∧
        (Disconnect s).2 ++ (Disconnect (Disconnect s).1).2 = (Disconnect s).2) := by
  obtain ⟨id, ty, tty, conn, tconn, cfg, tag, ctl, cbs, last⟩ := s
  simp only at hcfg
  subst hcfg
  refine ⟨?_, ?_, ?_, ?_⟩
  · intro h
    simp only at h
    subst h
    cases hs : IsControllerSupported.flag tag ty <;>
      simp [Connect, IsControllerSupported, hs]
  · intro h
    simp only at h
    subst h
    simp [Disconnect]
  · cases hs : IsControllerSupported.flag tag ty <;> cases conn <;>
      simp [Connect, IsControllerSupported, hs]
  · cases conn <;> simp [Disconnect]

theorem Connect_Disconnect_idempotent_witness :
    exampleController.is_configuring = false ∧
      ((Connect (Connect exampleController false).1 false).1 =
          (Connect exampleController false).1 ∧
        (Connect exampleController false).2 ++
            (Connect (Connect exampleController false).1 false).2 =
          (Connect exampleController false).2) :=
  ⟨rfl, (Connect_Disconnect_idempotent exampleController false rfl).2.2.1⟩

end Core.HID
